import Mathlib

/-!
# Stellarium: configuration dialog and grid-lines manager

A shallow embedding of the parts of `src/gui/ConfigurationDialog.cpp` and
`src/core/modules/GridLinesMgr.hpp` that the specification talks about, and the
theorems that settle each specification claim against that embedding.

Conventions of the embedding:

* C++ `int` values are `Int`; every value computed here stays inside the
  bounds it is given, so no wrap-around is involved.
* `QString` is `String`; positions count characters.
* A `QVariant` is a small tagged union; a `double` payload is idealised as a
  rational number.
* `QSettings` is a finite map from full keys (`group/key`) to `QVariant`s,
  together with the stack of groups opened by `beginGroup`.
* Widgets are records of the widget properties the code reads and writes.
-/

namespace Stellarium

/-! ## Qt helpers -/

/-- The function `qMin` of Qt: `(a < b) ? a : b`. -/
def qMin (a b : Int) : Int := if a < b then a else b

/-- The function `qMax` of Qt: `(a < b) ? b : a`. -/
def qMax (a b : Int) : Int := if a < b then b else a

/-- The function `qBound` of Qt: `qMax(min, qMin(max, val))`. -/
def qBound (min val max : Int) : Int := qMax min (qMin max val)

/-- White space skipped by the number parser of `QString`. -/
def isSpaceChar (c : Char) : Bool :=
  c == ' ' || c == '\t' || c == '\n' || c == '\r' || c.toNat == 11 || c.toNat == 12

/-- Value of a run of decimal digits, `none` when the run is empty or holds
another character. -/
def parseDigits (cs : List Char) : Option Nat :=
  if cs ≠ [] ∧ cs.all Char.isDigit then
    some (cs.foldl (fun acc c => 10 * acc + (c.toNat - '0'.toNat)) 0)
  else none

/-- Value of a run of decimal digits with an optional sign in front. -/
def parseSigned : List Char → Option Int
  | '-' :: ds => (parseDigits ds).map (fun n => -(n : Int))
  | '+' :: ds => (parseDigits ds).map (fun n => (n : Int))
  | ds => (parseDigits ds).map (fun n => (n : Int))

/-- Smallest value of a 32-bit C++ `int`. -/
def intMin : Int := -2147483648

/-- Largest value of a 32-bit C++ `int`. -/
def intMax : Int := 2147483647

/-- The method `QString::toInt()` in base 10: surrounding white space is
skipped, an optional sign is read, and the result is `0` when the conversion
fails or the value does not fit an `int`. -/
def QString.toInt (s : String) : Int :=
  let body := ((s.data.dropWhile isSpaceChar).reverse.dropWhile isSpaceChar).reverse
  match parseSigned body with
  | some v => if intMin ≤ v ∧ v ≤ intMax then v else 0
  | none => 0

/-- The method `QString::setNum(int)`: the decimal rendering of the number
(the receiver's previous content is discarded). -/
def QString.setNum (n : Int) : String := toString n

/-! ## MinMaxIntValidator -/

/-- The class `MinMaxIntValidator`: a `QIntValidator` with its `bottom()` and
`top()`. -/
structure MinMaxIntValidator where
  bottom : Int
  top : Int
  deriving Repr, DecidableEq

/-- `MinMaxIntValidator::fixup(QString &input)`: the new content of `input`. -/
def MinMaxIntValidator.fixup (v : MinMaxIntValidator) (input : String) : String :=
  let allowed := qBound v.bottom (QString.toInt input) v.top
  QString.setNum allowed

/-- The validator installed on `customScreenshotWidthLineEdit` and on
`customScreenshotHeightLineEdit` in `createDialogContent`. -/
def customScreenshotSizeValidator : MinMaxIntValidator := ⟨128, 16384⟩

/-! ## QVariant and QSettings -/

/-- The values of `QVariant` that the dialog stores and reads. -/
inductive QVariant
  | invalid
  | bool (b : Bool)
  | int (i : Int)
  | double (x : ℚ)
  | string (s : String)
  deriving DecidableEq, Repr

/-- `QVariant::toBool()`: a number is true when it is not zero, a string when
its lower-case content is none of the empty string, `0` and `false`. -/
def QVariant.toBool : QVariant → Bool
  | .invalid => false
  | .bool b => b
  | .int i => i != 0
  | .double x => x != 0
  | .string s =>
    let l := String.mk (s.data.map Char.toLower)
    !(l == "" || l == "0" || l == "false")

/-- The class `QSettings`: the stored values by full key, and the groups
opened by `beginGroup` (innermost first). -/
structure QSettings where
  store : String → Option QVariant
  groups : List String

/-- The full key that `key` denotes inside the currently open groups. -/
def QSettings.fullKey (c : QSettings) (key : String) : String :=
  c.groups.foldl (fun acc g => g ++ "/" ++ acc) key

/-- `QSettings::setValue(key, value)`. -/
def QSettings.setValue (c : QSettings) (key : String) (v : QVariant) : QSettings :=
  { c with store := fun k => if k = c.fullKey key then some v else c.store k }

/-- `QSettings::value(key, defaultValue)`. -/
def QSettings.value (c : QSettings) (key : String) (defaultValue : QVariant) : QVariant :=
  (c.store (c.fullKey key)).getD defaultValue

/-- `QSettings::beginGroup(prefix)`. -/
def QSettings.beginGroup (c : QSettings) (g : String) : QSettings :=
  { c with groups := g :: c.groups }

/-- `QSettings::endGroup()`. -/
def QSettings.endGroup (c : QSettings) : QSettings :=
  { c with groups := c.groups.tail }

/-- `QSettings::group()`: the path of the open groups, outermost first, with no
slash at the end; empty when no group is open. -/
def QSettings.group (c : QSettings) : String :=
  match c.groups with
  | [] => ""
  | g :: gs => gs.foldl (fun acc g' => g' ++ "/" ++ acc) g

/-- `QSettings::remove(key)`: the key removed is `key` inside the open groups,
and for an empty `key` the current group itself; the setting of that name and
every setting below it (its name, a slash, and more) are removed. With an empty
`key` and no open group all settings are removed. -/
def QSettings.remove (c : QSettings) (key : String) : QSettings :=
  let theKey := if key = "" then c.group else c.fullKey key
  if theKey = "" then
    { c with store := fun _ => none }
  else
    { c with store := fun k =>
        if k = theKey ∨ (theKey ++ "/").data.isPrefixOf k.data then none else c.store k }

/-- A settings object without entries and without open group. -/
def QSettings.empty : QSettings := ⟨fun _ => none, []⟩

/-- Settings without open group that hold one entry, under the key
`DialogPositions`. -/
def sampleSettingsGroupKey : QSettings :=
  ⟨fun k => if k = "DialogPositions" then some (.int 1) else none, []⟩

/-- Modelled from the spec: `StelApp::immediateSave(key, value)`, whose body is
not among the sources. It is read the way the statement on immediate saving
reads it: with immediate saving enabled the value is stored under the key at
once, otherwise nothing is stored. -/
def immediateSave (flagImmediateSave : Bool) (conf : QSettings) (key : String)
    (v : QVariant) : QSettings :=
  if flagImmediateSave then conf.setValue key v else conf

/-! ## Selected object information -/

/-- The enumerators of `StelObject::InfoStringGroupFlags` that stand for one
field of the selected-object information. -/
inductive InfoStringGroupFlags
  | Name | CatalogNumber | Magnitude | AbsoluteMagnitude | RaDecJ2000 | RaDecOfDate
  | HourAngle | AltAzi | Elongation | Distance | Velocity | ProperMotion | Size | Extra
  | GalacticCoord | SupergalacticCoord | OtherCoord | ObjectType | EclipticCoordOfDate
  | EclipticCoordJ2000 | IAUConstellation | SiderealTime | RTSTime | SolarLunarPosition
  deriving DecidableEq, Repr

/-- The numeric values of the `StelObject` enumerators; `StelObject.hpp` is not
among the sources, so they are a parameter. An `InfoStringGroup` (a `QFlags`)
is the natural number whose binary digits are the flags. -/
structure StelObjectEnum where
  flag : InfoStringGroupFlags → Nat
  DefaultInfo : Nat
  ShortInfo : Nat
  AllInfo : Nat

/-- The enumerator `StelObject::None`: no flag set. -/
def StelObjectEnum.None (_e : StelObjectEnum) : Nat := 0

/-- The check boxes of `buttonGroupDisplayedFields`. -/
inductive InfoCheckBox
  | checkBoxName | checkBoxCatalogNumbers | checkBoxVisualMag | checkBoxAbsoluteMag
  | checkBoxRaDecJ2000 | checkBoxRaDecOfDate | checkBoxHourAngle | checkBoxAltAz
  | checkBoxDistance | checkBoxVelocity | checkBoxProperMotion | checkBoxSize
  | checkBoxExtra | checkBoxGalacticCoordinates | checkBoxSupergalacticCoordinates
  | checkBoxOtherCoords | checkBoxElongation | checkBoxType | checkBoxEclipticCoordsJ2000
  | checkBoxEclipticCoordsOfDate | checkBoxConstellation | checkBoxSiderealTime
  | checkBoxRTSTime | checkBoxSolarLunarPosition
  deriving DecidableEq, Repr

/-- The radio buttons that choose the general mode of the selected-object
information. -/
inductive SelectedInfoRadio
  | noSelectedInfoRadio | allSelectedInfoRadio | defaultSelectedInfoRadio
  | briefSelectedInfoRadio | customSelectedInfoRadio
  deriving DecidableEq, Repr

/-- The part of the dialog and of the application that the selected-info
handlers read and write. -/
structure SelectedInfoTab where
  /-- `gui->getInfoTextFilters()` -/
  infoTextFilters : Nat
  /-- `StelApp::getInstance().getSettings()` -/
  conf : QSettings
  /-- `StelApp::getInstance().getFlagImmediateSave()` -/
  flagImmediateSave : Bool
  /-- `isChecked()` of each check box -/
  checkBox : InfoCheckBox → Bool
  /-- the radio button of the exclusive group that is checked, if any -/
  radio : Option SelectedInfoRadio

/-- The `conf->setValue` lines of `saveCustomSelectedInfo`, in order: the key
inside the group and the flag tested. -/
def saveCustomSelectedInfoFields : List (String × InfoStringGroupFlags) :=
  [("flag_show_name", .Name),
   ("flag_show_catalognumber", .CatalogNumber),
   ("flag_show_magnitude", .Magnitude),
   ("flag_show_absolutemagnitude", .AbsoluteMagnitude),
   ("flag_show_radecj2000", .RaDecJ2000),
   ("flag_show_radecofdate", .RaDecOfDate),
   ("flag_show_hourangle", .HourAngle),
   ("flag_show_altaz", .AltAzi),
   ("flag_show_elongation", .Elongation),
   ("flag_show_distance", .Distance),
   ("flag_show_velocity", .Velocity),
   ("flag_show_propermotion", .ProperMotion),
   ("flag_show_size", .Size),
   ("flag_show_extra", .Extra),
   ("flag_show_galcoord", .GalacticCoord),
   ("flag_show_supergalcoord", .SupergalacticCoord),
   ("flag_show_othercoord", .OtherCoord),
   ("flag_show_type", .ObjectType),
   ("flag_show_eclcoordofdate", .EclipticCoordOfDate),
   ("flag_show_eclcoordj2000", .EclipticCoordJ2000),
   ("flag_show_constellation", .IAUConstellation),
   ("flag_show_sidereal_time", .SiderealTime),
   ("flag_show_rts_time", .RTSTime),
   ("flag_show_solar_lunar", .SolarLunarPosition)]

/-- The `if (conf->value(key, false).toBool()) flags |= flag` lines of
`setCustomSelectedInfo`, in order. -/
def setCustomSelectedInfoFields : List (String × InfoStringGroupFlags) :=
  [("custom_selected_info/flag_show_name", .Name),
   ("custom_selected_info/flag_show_catalognumber", .CatalogNumber),
   ("custom_selected_info/flag_show_magnitude", .Magnitude),
   ("custom_selected_info/flag_show_absolutemagnitude", .AbsoluteMagnitude),
   ("custom_selected_info/flag_show_radecj2000", .RaDecJ2000),
   ("custom_selected_info/flag_show_radecofdate", .RaDecOfDate),
   ("custom_selected_info/flag_show_hourangle", .HourAngle),
   ("custom_selected_info/flag_show_altaz", .AltAzi),
   ("custom_selected_info/flag_show_elongation", .Elongation),
   ("custom_selected_info/flag_show_distance", .Distance),
   ("custom_selected_info/flag_show_velocity", .Velocity),
   ("custom_selected_info/flag_show_propermotion", .ProperMotion),
   ("custom_selected_info/flag_show_size", .Size),
   ("custom_selected_info/flag_show_extra", .Extra),
   ("custom_selected_info/flag_show_galcoord", .GalacticCoord),
   ("custom_selected_info/flag_show_supergalcoord", .SupergalacticCoord),
   ("custom_selected_info/flag_show_othercoord", .OtherCoord),
   ("custom_selected_info/flag_show_type", .ObjectType),
   ("custom_selected_info/flag_show_eclcoordofdate", .EclipticCoordOfDate),
   ("custom_selected_info/flag_show_eclcoordj2000", .EclipticCoordJ2000),
   ("custom_selected_info/flag_show_constellation", .IAUConstellation),
   ("custom_selected_info/flag_show_sidereal_time", .SiderealTime),
   ("custom_selected_info/flag_show_rts_time", .RTSTime),
   ("custom_selected_info/flag_show_solar_lunar", .SolarLunarPosition)]

/-- The `if (ui->box->isChecked()) flags |= flag` lines of
`setSelectedInfoFromCheckBoxes`, in order. -/
def setSelectedInfoFromCheckBoxesFields : List (InfoCheckBox × InfoStringGroupFlags) :=
  [(.checkBoxName, .Name),
   (.checkBoxCatalogNumbers, .CatalogNumber),
   (.checkBoxVisualMag, .Magnitude),
   (.checkBoxAbsoluteMag, .AbsoluteMagnitude),
   (.checkBoxRaDecJ2000, .RaDecJ2000),
   (.checkBoxRaDecOfDate, .RaDecOfDate),
   (.checkBoxHourAngle, .HourAngle),
   (.checkBoxAltAz, .AltAzi),
   (.checkBoxDistance, .Distance),
   (.checkBoxVelocity, .Velocity),
   (.checkBoxProperMotion, .ProperMotion),
   (.checkBoxSize, .Size),
   (.checkBoxExtra, .Extra),
   (.checkBoxGalacticCoordinates, .GalacticCoord),
   (.checkBoxSupergalacticCoordinates, .SupergalacticCoord),
   (.checkBoxOtherCoords, .OtherCoord),
   (.checkBoxElongation, .Elongation),
   (.checkBoxType, .ObjectType),
   (.checkBoxEclipticCoordsJ2000, .EclipticCoordJ2000),
   (.checkBoxEclipticCoordsOfDate, .EclipticCoordOfDate),
   (.checkBoxConstellation, .IAUConstellation),
   (.checkBoxSiderealTime, .SiderealTime),
   (.checkBoxRTSTime, .RTSTime),
   (.checkBoxSolarLunarPosition, .SolarLunarPosition)]

/-- The `ui->box->setChecked(flags & flag)` lines of
`updateSelectedInfoCheckBoxes`, in order. -/
def updateSelectedInfoCheckBoxesFields : List (InfoCheckBox × InfoStringGroupFlags) :=
  [(.checkBoxName, .Name),
   (.checkBoxCatalogNumbers, .CatalogNumber),
   (.checkBoxVisualMag, .Magnitude),
   (.checkBoxAbsoluteMag, .AbsoluteMagnitude),
   (.checkBoxRaDecJ2000, .RaDecJ2000),
   (.checkBoxRaDecOfDate, .RaDecOfDate),
   (.checkBoxHourAngle, .HourAngle),
   (.checkBoxAltAz, .AltAzi),
   (.checkBoxDistance, .Distance),
   (.checkBoxVelocity, .Velocity),
   (.checkBoxProperMotion, .ProperMotion),
   (.checkBoxSize, .Size),
   (.checkBoxExtra, .Extra),
   (.checkBoxGalacticCoordinates, .GalacticCoord),
   (.checkBoxSupergalacticCoordinates, .SupergalacticCoord),
   (.checkBoxOtherCoords, .OtherCoord),
   (.checkBoxElongation, .Elongation),
   (.checkBoxType, .ObjectType),
   (.checkBoxEclipticCoordsJ2000, .EclipticCoordJ2000),
   (.checkBoxEclipticCoordsOfDate, .EclipticCoordOfDate),
   (.checkBoxConstellation, .IAUConstellation),
   (.checkBoxSiderealTime, .SiderealTime),
   (.checkBoxRTSTime, .RTSTime),
   (.checkBoxSolarLunarPosition, .SolarLunarPosition)]

/-- The settings written by `saveCustomSelectedInfo` when the GUI filter is
`flags`: inside the group `custom_selected_info`, each key receives
`static_cast<bool>(flags & flag)`. -/
def writeCustomSelectedInfo (e : StelObjectEnum) (flags : Nat) (conf : QSettings) :
    QSettings :=
  let conf := conf.beginGroup "custom_selected_info"
  let conf := saveCustomSelectedInfoFields.foldl
    (fun c p => c.setValue p.1 (.bool (flags &&& e.flag p.2 != 0))) conf
  conf.endGroup

/-- `ConfigurationDialog::saveCustomSelectedInfo()`. -/
def saveCustomSelectedInfo (e : StelObjectEnum) (d : SelectedInfoTab) : SelectedInfoTab :=
  { d with conf := writeCustomSelectedInfo e d.infoTextFilters d.conf }

/-- `ConfigurationDialog::updateSelectedInfoCheckBoxes()`. -/
def updateSelectedInfoCheckBoxes (e : StelObjectEnum) (d : SelectedInfoTab) :
    SelectedInfoTab :=
  let flags := d.infoTextFilters
  let d := updateSelectedInfoCheckBoxesFields.foldl
    (fun d p => { d with checkBox := fun b =>
      if b = p.1 then flags &&& e.flag p.2 != 0 else d.checkBox b }) d
  if d.flagImmediateSave then saveCustomSelectedInfo e d else d

/-- `ConfigurationDialog::updateSelectedInfoGui()`. -/
def updateSelectedInfoGui (e : StelObjectEnum) (d : SelectedInfoTab) : SelectedInfoTab :=
  let flags := d.infoTextFilters
  let d : SelectedInfoTab :=
    if flags = e.None then { d with radio := some .noSelectedInfoRadio }
    else if flags = e.DefaultInfo then { d with radio := some .defaultSelectedInfoRadio }
    else if flags = e.ShortInfo then { d with radio := some .briefSelectedInfoRadio }
    else if flags = e.AllInfo then { d with radio := some .allSelectedInfoRadio }
    else { d with radio := some .customSelectedInfoRadio }
  updateSelectedInfoCheckBoxes e d

/-- `ConfigurationDialog::setNoSelectedInfo()`. -/
def setNoSelectedInfo (e : StelObjectEnum) (d : SelectedInfoTab) : SelectedInfoTab :=
  let d := { d with infoTextFilters := e.None }
  let conf := immediateSave d.flagImmediateSave d.conf "gui/selected_object_info" (.string "none")
  let d := { d with conf := conf }
  updateSelectedInfoCheckBoxes e d

/-- `ConfigurationDialog::setAllSelectedInfo()`. -/
def setAllSelectedInfo (e : StelObjectEnum) (d : SelectedInfoTab) : SelectedInfoTab :=
  let d := { d with infoTextFilters := e.AllInfo }
  let conf := immediateSave d.flagImmediateSave d.conf "gui/selected_object_info" (.string "all")
  let d := { d with conf := conf }
  updateSelectedInfoCheckBoxes e d

/-- `ConfigurationDialog::setBriefSelectedInfo()`. -/
def setBriefSelectedInfo (e : StelObjectEnum) (d : SelectedInfoTab) : SelectedInfoTab :=
  let d := { d with infoTextFilters := e.ShortInfo }
  let conf := immediateSave d.flagImmediateSave d.conf "gui/selected_object_info" (.string "short")
  let d := { d with conf := conf }
  updateSelectedInfoCheckBoxes e d

/-- `ConfigurationDialog::setDefaultSelectedInfo()`. -/
def setDefaultSelectedInfo (e : StelObjectEnum) (d : SelectedInfoTab) : SelectedInfoTab :=
  let d := { d with infoTextFilters := e.DefaultInfo }
  let conf := immediateSave d.flagImmediateSave d.conf "gui/selected_object_info" (.string "default")
  let d := { d with conf := conf }
  updateSelectedInfoCheckBoxes e d

/-- `ConfigurationDialog::setSelectedInfoFromCheckBoxes()`. -/
def setSelectedInfoFromCheckBoxes (e : StelObjectEnum) (d : SelectedInfoTab) :
    SelectedInfoTab :=
  let d : SelectedInfoTab :=
    if d.radio ≠ some .customSelectedInfoRadio then
      let conf :=
        immediateSave d.flagImmediateSave d.conf "gui/selected_object_info" (.string "custom")
      { d with radio := some .customSelectedInfoRadio, conf := conf }
    else d
  let flags := setSelectedInfoFromCheckBoxesFields.foldl
    (fun flags p => if d.checkBox p.1 then flags ||| e.flag p.2 else flags) e.None
  let d := { d with infoTextFilters := flags }
  saveCustomSelectedInfo e d

/-- The flags that `setCustomSelectedInfo` collects from the settings. -/
def readCustomSelectedInfo (e : StelObjectEnum) (conf : QSettings) : Nat :=
  setCustomSelectedInfoFields.foldl
    (fun flags p => if (conf.value p.1 (.bool false)).toBool then flags ||| e.flag p.2
      else flags) e.None

/-- `ConfigurationDialog::setCustomSelectedInfo()`. -/
def setCustomSelectedInfo (e : StelObjectEnum) (d : SelectedInfoTab) : SelectedInfoTab :=
  let flags := readCustomSelectedInfo e d.conf
  let d := { d with infoTextFilters := flags }
  updateSelectedInfoCheckBoxes e d

/-- The flags of all fields that can be configured: the union of the flags
that `saveCustomSelectedInfo` tests. -/
def configurableFields (e : StelObjectEnum) : Nat :=
  saveCustomSelectedInfoFields.foldl (fun m p => m ||| e.flag p.2) 0

/-- What the user does on the selected-info page. The slots are connected in
`createDialogContent`: the signal `released()` of each radio button to its
`set...SelectedInfo` slot, the signal `buttonClicked` of the check-box group to
`setSelectedInfoFromCheckBoxes`. -/
inductive SelectedInfoEvent
  /-- a click on a radio button: Qt checks the button, then the slot runs -/
  | radioReleased (r : SelectedInfoRadio)
  /-- a click on a check box: Qt toggles the box, then the slot runs -/
  | checkBoxClicked (b : InfoCheckBox)
  deriving DecidableEq, Repr

/-- The slot connected to `released()` of a radio button. -/
def radioSlot (e : StelObjectEnum) : SelectedInfoRadio → SelectedInfoTab → SelectedInfoTab
  | .noSelectedInfoRadio => setNoSelectedInfo e
  | .allSelectedInfoRadio => setAllSelectedInfo e
  | .defaultSelectedInfoRadio => setDefaultSelectedInfo e
  | .briefSelectedInfoRadio => setBriefSelectedInfo e
  | .customSelectedInfoRadio => setCustomSelectedInfo e

/-- One user action on the selected-info page. -/
def selectedInfoStep (e : StelObjectEnum) (d : SelectedInfoTab) :
    SelectedInfoEvent → SelectedInfoTab
  | .radioReleased r => radioSlot e r { d with radio := some r }
  | .checkBoxClicked b =>
    setSelectedInfoFromCheckBoxes e
      { d with checkBox := fun x => if x = b then !d.checkBox b else d.checkBox x }

/-- A sequence of user actions, oldest first. -/
def selectedInfoRun (e : StelObjectEnum) (d : SelectedInfoTab)
    (evs : List SelectedInfoEvent) : SelectedInfoTab :=
  evs.foldl (selectedInfoStep e) d

/-- Sample enumerator values for evaluating the handlers: the field flags are
the first 24 bits in the order of declaration, `AllInfo` holds all of them. -/
def sampleStelObjectEnum : StelObjectEnum where
  flag := fun f => 2 ^ f.toCtorIdx
  DefaultInfo := 16777215 - 2 ^ 13
  ShortInfo := 1 + 2 + 4
  AllInfo := 16777215

/-- A sample state of the selected-info page: immediate saving is on, the mode
is "all" both in the GUI and in the settings, and the stored custom selection
is the name alone. -/
def sampleSelectedInfoTab : SelectedInfoTab where
  infoTextFilters := sampleStelObjectEnum.AllInfo
  conf := (QSettings.empty.setValue "gui/selected_object_info" (.string "all")).setValue
    "custom_selected_info/flag_show_name" (.bool true)
  flagImmediateSave := true
  checkBox := fun _ => true
  radio := some .allSelectedInfoRadio

/-! ## saveAllSettings -/

/-- The conversion that a line of `saveAllSettings` applies to the `QVariant`
returned by `getStelPropertyValue`. -/
inductive Conversion
  /-- `.toBool()` -/
  | toBool
  /-- `!....toBool()` -/
  | notToBool
  /-- `.toInt()` -/
  | toInt
  /-- `.toDouble()` -/
  | toDouble
  /-- `.toFloat()` -/
  | toFloat
  /-- `.toString()` -/
  | toString
  /-- `QString::number(....toDouble(), 'f', prec)` -/
  | number (prec : Nat)
  deriving DecidableEq, Repr

/-- The second argument of a `conf->setValue(key, ...)` line. -/
inductive SettingSource
  /-- `propMgr->getStelPropertyValue(name)` followed by a conversion -/
  | property (name : String) (conv : Conversion)
  /-- any other expression that reads the application state, kept as written -/
  | getter (expr : String)
  /-- a constant -/
  | literal (v : QVariant)
  deriving DecidableEq, Repr

/-- One line `conf->setValue(key, source);`. -/
structure SetValueLine where
  key : String
  source : SettingSource
  deriving DecidableEq, Repr

/-- The numeric and textual conversions of Qt (`QVariant::toInt`, `toDouble`,
`toFloat`, `toString` and `QString::number(x, 'f', prec)`). They belong to Qt
and work on floating-point numbers, so they are a parameter. -/
structure QtConversions where
  toInt : QVariant → Int
  toDouble : QVariant → ℚ
  toFloat : QVariant → ℚ
  toString : QVariant → String
  number : ℚ → Nat → String

/-- The result of a conversion applied to a property value, as the `QVariant`
handed to `setValue`. -/
def Conversion.apply (qt : QtConversions) : Conversion → QVariant → QVariant
  | .toBool, v => .bool v.toBool
  | .notToBool, v => .bool (!v.toBool)
  | .toInt, v => .int (qt.toInt v)
  | .toDouble, v => .double (qt.toDouble v)
  | .toFloat, v => .double (qt.toFloat v)
  | .toString, v => .string (qt.toString v)
  | .number prec, v => .string (qt.number (qt.toDouble v) prec)

/-- The application state that `saveAllSettings` reads, and the calls it makes
into modules whose code is not among the sources. -/
structure SaveEnv where
  /-- `propMgr->getStelPropertyValue(name)` -/
  propMgr : String → QVariant
  /-- the value of every other expression read, by its text -/
  getter : String → QVariant
  /-- conversions of Qt -/
  qt : QtConversions
  /-- values of the `StelObject` enumerators -/
  stelObject : StelObjectEnum
  /-- `gui->getInfoTextFilters()` -/
  infoTextFilters : Nat
  /-- `nmgr->storeCatalogFilters()` -/
  storeCatalogFilters : QSettings → QSettings
  /-- `scmgr->setProperty("defaultSkyCultureID", scmgr->property("currentSkyCultureID"))` -/
  setDefaultSkyCultureID : QSettings → QSettings
  /-- `core->setDefaultLocationID(core->getCurrentLocation().getID())` -/
  setDefaultLocationID : QSettings → QSettings

/-- The value that a line stores. -/
def SettingSource.eval (env : SaveEnv) : SettingSource → QVariant
  | .property name conv => conv.apply env.qt (env.propMgr name)
  | .getter expr => env.getter expr
  | .literal v => v

/-- Run a block of `conf->setValue` lines. -/
def writeLines (env : SaveEnv) (lines : List SetValueLine) (conf : QSettings) : QSettings :=
  lines.foldl (fun c l => c.setValue l.key (l.source.eval env)) conf

/-- A `Q_PROPERTY` declaration. -/
structure QProperty where
  type : String
  name : String
  read : String
  write : String
  notify : String
  deriving DecidableEq, Repr

/-- A call `connectBoolProperty(ui->widget, property)`. -/
structure BoolPropertyBinding where
  widget : String
  property : String
  deriving DecidableEq, Repr

/-- The `conf->setValue` lines of `saveAllSettings` from `gui/immediate_save_details` to
`astro/solar_system_threads` (sky, markings and DSO tabs of the view dialog), in order. -/
def saveAllSettingsLinesView : List SetValueLine :=
  [SetValueLine.mk "gui/immediate_save_details" (SettingSource.getter "StelApp::getInstance().getFlagImmediateSave()"),
   SetValueLine.mk "gui/flag_enable_kinetic_scrolling" (SettingSource.property "StelGui.flagUseKineticScrolling" Conversion.toBool),
   SetValueLine.mk "stars/absolute_scale" (SettingSource.property "StelSkyDrawer.absoluteStarScale" (Conversion.number 2)),
   SetValueLine.mk "stars/relative_scale" (SettingSource.property "StelSkyDrawer.relativeStarScale" (Conversion.number 2)),
   SetValueLine.mk "stars/flag_star_twinkle" (SettingSource.property "StelSkyDrawer.flagStarTwinkle" Conversion.toBool),
   SetValueLine.mk "stars/star_twinkle_amount" (SettingSource.property "StelSkyDrawer.twinkleAmount" (Conversion.number 2)),
   SetValueLine.mk "stars/flag_star_spiky" (SettingSource.property "StelSkyDrawer.flagStarSpiky" Conversion.toBool),
   SetValueLine.mk "astro/twilight_altitude" (SettingSource.property "SpecificTimeMgr.twilightAltitude" Conversion.toDouble),
   SetValueLine.mk "astro/flag_star_magnitude_limit" (SettingSource.property "StelSkyDrawer.flagStarMagnitudeLimit" Conversion.toBool),
   SetValueLine.mk "astro/star_magnitude_limit" (SettingSource.property "StelSkyDrawer.customStarMagLimit" (Conversion.number 2)),
   SetValueLine.mk "astro/flag_planet_magnitude_limit" (SettingSource.property "StelSkyDrawer.flagPlanetMagnitudeLimit" Conversion.toBool),
   SetValueLine.mk "astro/planet_magnitude_limit" (SettingSource.property "StelSkyDrawer.customPlanetMagLimit" (Conversion.number 2)),
   SetValueLine.mk "astro/flag_nebula_magnitude_limit" (SettingSource.property "StelSkyDrawer.flagNebulaMagnitudeLimit" Conversion.toBool),
   SetValueLine.mk "astro/nebula_magnitude_limit" (SettingSource.property "StelSkyDrawer.customNebulaMagLimit" (Conversion.number 2)),
   SetValueLine.mk "viewing/use_luminance_adaptation" (SettingSource.property "StelSkyDrawer.flagLuminanceAdaptation" Conversion.toBool),
   SetValueLine.mk "astro/flag_planets" (SettingSource.property "SolarSystem.planetsDisplayed" Conversion.toBool),
   SetValueLine.mk "astro/flag_planets_hints" (SettingSource.property "SolarSystem.flagHints" Conversion.toBool),
   SetValueLine.mk "astro/flag_planets_markers" (SettingSource.property "SolarSystem.flagMarkers" Conversion.toBool),
   SetValueLine.mk "astro/planet_markers_mag_threshold" (SettingSource.property "SolarSystem.markerMagThreshold" Conversion.toDouble),
   SetValueLine.mk "astro/flag_planets_orbits" (SettingSource.property "SolarSystem.flagOrbits" Conversion.toBool),
   SetValueLine.mk "astro/flag_permanent_orbits" (SettingSource.property "SolarSystem.flagPermanentOrbits" Conversion.toBool),
   SetValueLine.mk "astro/object_orbits_thickness" (SettingSource.property "SolarSystem.orbitsThickness" Conversion.toInt),
   SetValueLine.mk "astro/object_trails_thickness" (SettingSource.property "SolarSystem.trailsThickness" Conversion.toInt),
   SetValueLine.mk "viewing/flag_isolated_trails" (SettingSource.property "SolarSystem.flagIsolatedTrails" Conversion.toBool),
   SetValueLine.mk "viewing/number_isolated_trails" (SettingSource.property "SolarSystem.numberIsolatedTrails" Conversion.toInt),
   SetValueLine.mk "viewing/max_trail_points" (SettingSource.property "SolarSystem.maxTrailPoints" Conversion.toInt),
   SetValueLine.mk "viewing/max_trail_time_extent" (SettingSource.property "SolarSystem.maxTrailTimeExtent" Conversion.toInt),
   SetValueLine.mk "viewing/flag_isolated_orbits" (SettingSource.property "SolarSystem.flagIsolatedOrbits" Conversion.toBool),
   SetValueLine.mk "viewing/flag_planets_orbits" (SettingSource.property "SolarSystem.flagPlanetsOrbits" Conversion.toBool),
   SetValueLine.mk "viewing/flag_planets_orbits_only" (SettingSource.property "SolarSystem.flagPlanetsOrbitsOnly" Conversion.toBool),
   SetValueLine.mk "viewing/flag_orbits_with_moons" (SettingSource.property "SolarSystem.flagOrbitsWithMoons" Conversion.toBool),
   SetValueLine.mk "astro/flag_light_travel_time" (SettingSource.property "SolarSystem.flagLightTravelTime" Conversion.toBool),
   SetValueLine.mk "viewing/flag_draw_moon_halo" (SettingSource.property "SolarSystem.flagDrawMoonHalo" Conversion.toBool),
   SetValueLine.mk "viewing/flag_draw_sun_halo" (SettingSource.property "SolarSystem.flagDrawSunHalo" Conversion.toBool),
   SetValueLine.mk "viewing/flag_draw_sun_corona" (SettingSource.property "SolarSystem.flagPermanentSolarCorona" Conversion.toBool),
   SetValueLine.mk "viewing/flag_moon_scaled" (SettingSource.property "SolarSystem.flagMoonScale" Conversion.toBool),
   SetValueLine.mk "viewing/moon_scale" (SettingSource.property "SolarSystem.moonScale" (Conversion.number 2)),
   SetValueLine.mk "viewing/flag_minorbodies_scaled" (SettingSource.property "SolarSystem.flagMinorBodyScale" Conversion.toBool),
   SetValueLine.mk "viewing/minorbodies_scale" (SettingSource.property "SolarSystem.minorBodyScale" (Conversion.number 2)),
   SetValueLine.mk "viewing/flag_planets_scaled" (SettingSource.property "SolarSystem.flagPlanetScale" Conversion.toBool),
   SetValueLine.mk "viewing/planets_scale" (SettingSource.property "SolarSystem.planetScale" (Conversion.number 2)),
   SetValueLine.mk "viewing/flag_sun_scaled" (SettingSource.property "SolarSystem.flagSunScale" Conversion.toBool),
   SetValueLine.mk "viewing/sun_scale" (SettingSource.property "SolarSystem.sunScale" (Conversion.number 2)),
   SetValueLine.mk "astro/meteor_zhr" (SettingSource.property "SporadicMeteorMgr.zhr" Conversion.toInt),
   SetValueLine.mk "astro/flag_milky_way" (SettingSource.property "MilkyWay.flagMilkyWayDisplayed" Conversion.toBool),
   SetValueLine.mk "astro/milky_way_intensity" (SettingSource.property "MilkyWay.intensity" (Conversion.number 2)),
   SetValueLine.mk "astro/milky_way_saturation" (SettingSource.property "MilkyWay.saturation" (Conversion.number 2)),
   SetValueLine.mk "astro/flag_zodiacal_light" (SettingSource.property "ZodiacalLight.flagZodiacalLightDisplayed" Conversion.toBool),
   SetValueLine.mk "astro/zodiacal_light_intensity" (SettingSource.property "ZodiacalLight.intensity" (Conversion.number 2)),
   SetValueLine.mk "astro/grs_longitude" (SettingSource.property "SolarSystem.grsLongitude" Conversion.toInt),
   SetValueLine.mk "astro/grs_drift" (SettingSource.property "SolarSystem.grsDrift" Conversion.toDouble),
   SetValueLine.mk "astro/grs_jd" (SettingSource.property "SolarSystem.grsJD" Conversion.toDouble),
   SetValueLine.mk "astro/shadow_enlargement_danjon" (SettingSource.property "SolarSystem.earthShadowEnlargementDanjon" Conversion.toBool),
   SetValueLine.mk "astro/flag_planets_labels" (SettingSource.property "SolarSystem.labelsDisplayed" Conversion.toBool),
   SetValueLine.mk "astro/labels_amount" (SettingSource.property "SolarSystem.labelsAmount" Conversion.toDouble),
   SetValueLine.mk "astro/flag_use_obj_models" (SettingSource.property "SolarSystem.flagUseObjModels" Conversion.toBool),
   SetValueLine.mk "astro/flag_show_obj_self_shadows" (SettingSource.property "SolarSystem.flagShowObjSelfShadows" Conversion.toBool),
   SetValueLine.mk "astro/apparent_magnitude_algorithm" (SettingSource.property "SolarSystem.apparentMagnitudeAlgorithmOnEarth" Conversion.toString),
   SetValueLine.mk "astro/flag_planets_nomenclature" (SettingSource.property "NomenclatureMgr.flagShowNomenclature" Conversion.toBool),
   SetValueLine.mk "astro/flag_planets_nomenclature_outline_craters" (SettingSource.property "NomenclatureMgr.flagOutlineCraters" Conversion.toBool),
   SetValueLine.mk "astro/flag_hide_local_nomenclature" (SettingSource.property "NomenclatureMgr.flagHideLocalNomenclature" Conversion.toBool),
   SetValueLine.mk "astro/flag_special_nomenclature_only" (SettingSource.property "NomenclatureMgr.specialNomenclatureOnlyDisplayed" Conversion.toBool),
   SetValueLine.mk "astro/flag_planets_nomenclature_terminator_only" (SettingSource.property "NomenclatureMgr.flagShowTerminatorZoneOnly" Conversion.toBool),
   SetValueLine.mk "astro/planet_nomenclature_solar_altitude_min" (SettingSource.property "NomenclatureMgr.terminatorMinAltitude" Conversion.toInt),
   SetValueLine.mk "astro/planet_nomenclature_solar_altitude_max" (SettingSource.property "NomenclatureMgr.terminatorMaxAltitude" Conversion.toInt),
   SetValueLine.mk "astro/planet_markers_mag_threshold" (SettingSource.property "SolarSystem.markerMagThreshold" Conversion.toDouble),
   SetValueLine.mk "viewing/flag_gridlines" (SettingSource.property "GridLinesMgr.gridlinesDisplayed" Conversion.toBool),
   SetValueLine.mk "viewing/flag_azimuthal_grid" (SettingSource.property "GridLinesMgr.azimuthalGridDisplayed" Conversion.toBool),
   SetValueLine.mk "viewing/flag_equatorial_grid" (SettingSource.property "GridLinesMgr.equatorGridDisplayed" Conversion.toBool),
   SetValueLine.mk "viewing/flag_equatorial_J2000_grid" (SettingSource.property "GridLinesMgr.equatorJ2000GridDisplayed" Conversion.toBool),
   SetValueLine.mk "viewing/flag_fixed_equatorial_grid" (SettingSource.property "GridLinesMgr.fixedEquatorGridDisplayed" Conversion.toBool),
   SetValueLine.mk "viewing/flag_equator_line" (SettingSource.property "GridLinesMgr.equatorLineDisplayed" Conversion.toBool),
   SetValueLine.mk "viewing/flag_equator_parts" (SettingSource.property "GridLinesMgr.equatorPartsDisplayed" Conversion.toBool),
   SetValueLine.mk "viewing/flag_equator_labels" (SettingSource.property "GridLinesMgr.equatorPartsLabeled" Conversion.toBool),
   SetValueLine.mk "viewing/flag_equator_J2000_line" (SettingSource.property "GridLinesMgr.equatorJ2000LineDisplayed" Conversion.toBool),
   SetValueLine.mk "viewing/flag_equator_J2000_parts" (SettingSource.property "GridLinesMgr.equatorJ2000PartsDisplayed" Conversion.toBool),
   SetValueLine.mk "viewing/flag_equator_J2000_labels" (SettingSource.property "GridLinesMgr.equatorJ2000PartsLabeled" Conversion.toBool),
   SetValueLine.mk "viewing/flag_fixed_equator_line" (SettingSource.property "GridLinesMgr.fixedEquatorLineDisplayed" Conversion.toBool),
   SetValueLine.mk "viewing/flag_fixed_equator_parts" (SettingSource.property "GridLinesMgr.fixedEquatorPartsDisplayed" Conversion.toBool),
   SetValueLine.mk "viewing/flag_fixed_equator_labels" (SettingSource.property "GridLinesMgr.fixedEquatorPartsLabeled" Conversion.toBool),
   SetValueLine.mk "viewing/flag_ecliptic_line" (SettingSource.property "GridLinesMgr.eclipticLineDisplayed" Conversion.toBool),
   SetValueLine.mk "viewing/flag_ecliptic_parts" (SettingSource.property "GridLinesMgr.eclipticPartsDisplayed" Conversion.toBool),
   SetValueLine.mk "viewing/flag_ecliptic_labels" (SettingSource.property "GridLinesMgr.eclipticPartsLabeled" Conversion.toBool),
   SetValueLine.mk "viewing/flag_ecliptic_dates_labels" (SettingSource.property "GridLinesMgr.eclipticDatesLabeled" Conversion.toBool),
   SetValueLine.mk "viewing/flag_ecliptic_J2000_line" (SettingSource.property "GridLinesMgr.eclipticJ2000LineDisplayed" Conversion.toBool),
   SetValueLine.mk "viewing/flag_ecliptic_J2000_parts" (SettingSource.property "GridLinesMgr.eclipticJ2000PartsDisplayed" Conversion.toBool),
   SetValueLine.mk "viewing/flag_ecliptic_J2000_labels" (SettingSource.property "GridLinesMgr.eclipticJ2000PartsLabeled" Conversion.toBool),
   SetValueLine.mk "viewing/flag_invariable_plane_line" (SettingSource.property "GridLinesMgr.invariablePlaneLineDisplayed" Conversion.toBool),
   SetValueLine.mk "viewing/flag_solar_equator_line" (SettingSource.property "GridLinesMgr.solarEquatorLineDisplayed" Conversion.toBool),
   SetValueLine.mk "viewing/flag_solar_equator_parts" (SettingSource.property "GridLinesMgr.solarEquatorPartsDisplayed" Conversion.toBool),
   SetValueLine.mk "viewing/flag_solar_equator_labels" (SettingSource.property "GridLinesMgr.solarEquatorPartsLabeled" Conversion.toBool),
   SetValueLine.mk "viewing/flag_ecliptic_grid" (SettingSource.property "GridLinesMgr.eclipticGridDisplayed" Conversion.toBool),
   SetValueLine.mk "viewing/flag_ecliptic_J2000_grid" (SettingSource.property "GridLinesMgr.eclipticJ2000GridDisplayed" Conversion.toBool),
   SetValueLine.mk "viewing/flag_meridian_line" (SettingSource.property "GridLinesMgr.meridianLineDisplayed" Conversion.toBool),
   SetValueLine.mk "viewing/flag_meridian_parts" (SettingSource.property "GridLinesMgr.meridianPartsDisplayed" Conversion.toBool),
   SetValueLine.mk "viewing/flag_meridian_labels" (SettingSource.property "GridLinesMgr.meridianPartsLabeled" Conversion.toBool),
   SetValueLine.mk "viewing/flag_longitude_line" (SettingSource.property "GridLinesMgr.longitudeLineDisplayed" Conversion.toBool),
   SetValueLine.mk "viewing/flag_longitude_parts" (SettingSource.property "GridLinesMgr.longitudePartsDisplayed" Conversion.toBool),
   SetValueLine.mk "viewing/flag_longitude_labels" (SettingSource.property "GridLinesMgr.longitudePartsLabeled" Conversion.toBool),
   SetValueLine.mk "viewing/flag_horizon_line" (SettingSource.property "GridLinesMgr.horizonLineDisplayed" Conversion.toBool),
   SetValueLine.mk "viewing/flag_horizon_parts" (SettingSource.property "GridLinesMgr.horizonPartsDisplayed" Conversion.toBool),
   SetValueLine.mk "viewing/flag_horizon_labels" (SettingSource.property "GridLinesMgr.horizonPartsLabeled" Conversion.toBool),
   SetValueLine.mk "viewing/flag_galactic_grid" (SettingSource.property "GridLinesMgr.galacticGridDisplayed" Conversion.toBool),
   SetValueLine.mk "viewing/flag_galactic_equator_line" (SettingSource.property "GridLinesMgr.galacticEquatorLineDisplayed" Conversion.toBool),
   SetValueLine.mk "viewing/flag_galactic_equator_parts" (SettingSource.property "GridLinesMgr.galacticEquatorPartsDisplayed" Conversion.toBool),
   SetValueLine.mk "viewing/flag_galactic_equator_labels" (SettingSource.property "GridLinesMgr.galacticEquatorPartsLabeled" Conversion.toBool),
   SetValueLine.mk "viewing/flag_cardinal_points" (SettingSource.property "LandscapeMgr.cardinalPointsDisplayed" Conversion.toBool),
   SetValueLine.mk "viewing/flag_ordinal_points" (SettingSource.property "LandscapeMgr.ordinalPointsDisplayed" Conversion.toBool),
   SetValueLine.mk "viewing/flag_16wcr_points" (SettingSource.property "LandscapeMgr.ordinal16WRPointsDisplayed" Conversion.toBool),
   SetValueLine.mk "viewing/flag_32wcr_points" (SettingSource.property "LandscapeMgr.ordinal32WRPointsDisplayed" Conversion.toBool),
   SetValueLine.mk "viewing/flag_compass_marks" (SettingSource.property "SpecialMarkersMgr.compassMarksDisplayed" Conversion.toBool),
   SetValueLine.mk "viewing/flag_prime_vertical_line" (SettingSource.property "GridLinesMgr.primeVerticalLineDisplayed" Conversion.toBool),
   SetValueLine.mk "viewing/flag_prime_vertical_parts" (SettingSource.property "GridLinesMgr.primeVerticalPartsDisplayed" Conversion.toBool),
   SetValueLine.mk "viewing/flag_prime_vertical_labels" (SettingSource.property "GridLinesMgr.primeVerticalPartsLabeled" Conversion.toBool),
   SetValueLine.mk "viewing/flag_current_vertical_line" (SettingSource.property "GridLinesMgr.currentVerticalLineDisplayed" Conversion.toBool),
   SetValueLine.mk "viewing/flag_current_vertical_parts" (SettingSource.property "GridLinesMgr.currentVerticalPartsDisplayed" Conversion.toBool),
   SetValueLine.mk "viewing/flag_current_vertical_labels" (SettingSource.property "GridLinesMgr.currentVerticalPartsLabeled" Conversion.toBool),
   SetValueLine.mk "viewing/flag_colure_lines" (SettingSource.property "GridLinesMgr.colureLinesDisplayed" Conversion.toBool),
   SetValueLine.mk "viewing/flag_colure_parts" (SettingSource.property "GridLinesMgr.colurePartsDisplayed" Conversion.toBool),
   SetValueLine.mk "viewing/flag_colure_labels" (SettingSource.property "GridLinesMgr.colurePartsLabeled" Conversion.toBool),
   SetValueLine.mk "viewing/flag_precession_circles" (SettingSource.property "GridLinesMgr.precessionCirclesDisplayed" Conversion.toBool),
   SetValueLine.mk "viewing/flag_precession_parts" (SettingSource.property "GridLinesMgr.precessionPartsDisplayed" Conversion.toBool),
   SetValueLine.mk "viewing/flag_precession_labels" (SettingSource.property "GridLinesMgr.precessionPartsLabeled" Conversion.toBool),
   SetValueLine.mk "viewing/flag_circumpolar_circles" (SettingSource.property "GridLinesMgr.circumpolarCirclesDisplayed" Conversion.toBool),
   SetValueLine.mk "viewing/flag_umbra_circle" (SettingSource.property "GridLinesMgr.umbraCircleDisplayed" Conversion.toBool),
   SetValueLine.mk "viewing/flag_umbra_center_point" (SettingSource.property "GridLinesMgr.umbraCenterPointDisplayed" Conversion.toBool),
   SetValueLine.mk "viewing/flag_penumbra_circle" (SettingSource.property "GridLinesMgr.penumbraCircleDisplayed" Conversion.toBool),
   SetValueLine.mk "viewing/flag_supergalactic_grid" (SettingSource.property "GridLinesMgr.supergalacticGridDisplayed" Conversion.toBool),
   SetValueLine.mk "viewing/flag_supergalactic_equator_line" (SettingSource.property "GridLinesMgr.supergalacticEquatorLineDisplayed" Conversion.toBool),
   SetValueLine.mk "viewing/flag_supergalactic_equator_parts" (SettingSource.property "GridLinesMgr.supergalacticEquatorPartsDisplayed" Conversion.toBool),
   SetValueLine.mk "viewing/flag_supergalactic_equator_labels" (SettingSource.property "GridLinesMgr.supergalacticEquatorPartsLabeled" Conversion.toBool),
   SetValueLine.mk "viewing/flag_celestial_J2000_poles" (SettingSource.property "GridLinesMgr.celestialJ2000PolesDisplayed" Conversion.toBool),
   SetValueLine.mk "viewing/flag_celestial_poles" (SettingSource.property "GridLinesMgr.celestialPolesDisplayed" Conversion.toBool),
   SetValueLine.mk "viewing/flag_zenith_nadir" (SettingSource.property "GridLinesMgr.zenithNadirDisplayed" Conversion.toBool),
   SetValueLine.mk "viewing/flag_ecliptic_J2000_poles" (SettingSource.property "GridLinesMgr.eclipticJ2000PolesDisplayed" Conversion.toBool),
   SetValueLine.mk "viewing/flag_ecliptic_poles" (SettingSource.property "GridLinesMgr.eclipticPolesDisplayed" Conversion.toBool),
   SetValueLine.mk "viewing/flag_galactic_poles" (SettingSource.property "GridLinesMgr.galacticPolesDisplayed" Conversion.toBool),
   SetValueLine.mk "viewing/flag_galactic_center" (SettingSource.property "GridLinesMgr.galacticCenterDisplayed" Conversion.toBool),
   SetValueLine.mk "viewing/flag_supergalactic_poles" (SettingSource.property "GridLinesMgr.supergalacticPolesDisplayed" Conversion.toBool),
   SetValueLine.mk "viewing/flag_equinox_J2000_points" (SettingSource.property "GridLinesMgr.equinoxJ2000PointsDisplayed" Conversion.toBool),
   SetValueLine.mk "viewing/flag_equinox_points" (SettingSource.property "GridLinesMgr.equinoxPointsDisplayed" Conversion.toBool),
   SetValueLine.mk "viewing/flag_solstice_J2000_points" (SettingSource.property "GridLinesMgr.solsticeJ2000PointsDisplayed" Conversion.toBool),
   SetValueLine.mk "viewing/flag_solstice_points" (SettingSource.property "GridLinesMgr.solsticePointsDisplayed" Conversion.toBool),
   SetValueLine.mk "viewing/flag_antisolar_point" (SettingSource.property "GridLinesMgr.antisolarPointDisplayed" Conversion.toBool),
   SetValueLine.mk "viewing/flag_apex_points" (SettingSource.property "GridLinesMgr.apexPointsDisplayed" Conversion.toBool),
   SetValueLine.mk "viewing/flag_fov_center_marker" (SettingSource.property "SpecialMarkersMgr.fovCenterMarkerDisplayed" Conversion.toBool),
   SetValueLine.mk "viewing/flag_fov_circular_marker" (SettingSource.property "SpecialMarkersMgr.fovCircularMarkerDisplayed" Conversion.toBool),
   SetValueLine.mk "viewing/size_fov_circular_marker" (SettingSource.property "SpecialMarkersMgr.fovCircularMarkerSize" (Conversion.number 2)),
   SetValueLine.mk "viewing/flag_fov_rectangular_marker" (SettingSource.property "SpecialMarkersMgr.fovRectangularMarkerDisplayed" Conversion.toBool),
   SetValueLine.mk "viewing/width_fov_rectangular_marker" (SettingSource.property "SpecialMarkersMgr.fovRectangularMarkerWidth" (Conversion.number 2)),
   SetValueLine.mk "viewing/height_fov_rectangular_marker" (SettingSource.property "SpecialMarkersMgr.fovRectangularMarkerHeight" (Conversion.number 2)),
   SetValueLine.mk "viewing/rot_fov_rectangular_marker" (SettingSource.property "SpecialMarkersMgr.fovRectangularMarkerRotationAngle" (Conversion.number 2)),
   SetValueLine.mk "viewing/line_thickness" (SettingSource.property "GridLinesMgr.lineThickness" Conversion.toInt),
   SetValueLine.mk "viewing/part_thickness" (SettingSource.property "GridLinesMgr.partThickness" Conversion.toInt),
   SetValueLine.mk "viewing/constellation_font_size" (SettingSource.property "ConstellationMgr.fontSize" Conversion.toInt),
   SetValueLine.mk "viewing/flag_constellation_drawing" (SettingSource.property "ConstellationMgr.linesDisplayed" Conversion.toBool),
   SetValueLine.mk "viewing/flag_constellation_name" (SettingSource.property "ConstellationMgr.namesDisplayed" Conversion.toBool),
   SetValueLine.mk "viewing/flag_constellation_boundaries" (SettingSource.property "ConstellationMgr.boundariesDisplayed" Conversion.toBool),
   SetValueLine.mk "viewing/flag_constellation_hulls" (SettingSource.property "ConstellationMgr.hullsDisplayed" Conversion.toBool),
   SetValueLine.mk "viewing/flag_constellation_art" (SettingSource.property "ConstellationMgr.artDisplayed" Conversion.toBool),
   SetValueLine.mk "viewing/flag_constellation_isolate_selected" (SettingSource.property "ConstellationMgr.isolateSelected" Conversion.toBool),
   SetValueLine.mk "viewing/flag_asterism_isolate_selected" (SettingSource.property "AsterismMgr.isolateAsterismSelected" Conversion.toBool),
   SetValueLine.mk "viewing/flag_landscape_autoselection" (SettingSource.property "LandscapeMgr.flagLandscapeAutoSelection" Conversion.toBool),
   SetValueLine.mk "viewing/flag_light_pollution_database" (SettingSource.property "LandscapeMgr.flagUseLightPollutionFromDatabase" Conversion.toBool),
   SetValueLine.mk "viewing/flag_environment_auto_enable" (SettingSource.property "LandscapeMgr.flagEnvironmentAutoEnabling" Conversion.toBool),
   SetValueLine.mk "viewing/constellation_art_intensity" (SettingSource.property "ConstellationMgr.artIntensity" Conversion.toFloat),
   SetValueLine.mk "viewing/constellation_line_thickness" (SettingSource.property "ConstellationMgr.constellationLineThickness" Conversion.toInt),
   SetValueLine.mk "viewing/constellation_boundaries_thickness" (SettingSource.property "ConstellationMgr.boundariesThickness" Conversion.toInt),
   SetValueLine.mk "viewing/constellation_hulls_thickness" (SettingSource.property "ConstellationMgr.hullsThickness" Conversion.toInt),
   SetValueLine.mk "viewing/constellation_art_fade_duration" (SettingSource.property "ConstellationMgr.artFadeDuration" (Conversion.number 1)),
   SetValueLine.mk "viewing/constellation_boundaries_fade_duration" (SettingSource.property "ConstellationMgr.boundariesFadeDuration" (Conversion.number 1)),
   SetValueLine.mk "viewing/constellation_hulls_fade_duration" (SettingSource.property "ConstellationMgr.hullsFadeDuration" (Conversion.number 1)),
   SetValueLine.mk "viewing/constellation_lines_fade_duration" (SettingSource.property "ConstellationMgr.linesFadeDuration" (Conversion.number 1)),
   SetValueLine.mk "viewing/constellation_labels_fade_duration" (SettingSource.property "ConstellationMgr.namesFadeDuration" (Conversion.number 1)),
   SetValueLine.mk "viewing/flag_skyculture_zodiac" (SettingSource.property "ConstellationMgr.zodiacDisplayed" Conversion.toBool),
   SetValueLine.mk "viewing/skyculture_zodiac_thickness" (SettingSource.property "ConstellationMgr.zodiacThickness" (Conversion.number 1)),
   SetValueLine.mk "viewing/skyculture_zodiac_fade_duration" (SettingSource.property "ConstellationMgr.zodiacFadeDuration" (Conversion.number 1)),
   SetValueLine.mk "viewing/flag_skyculture_lunarsystem" (SettingSource.property "ConstellationMgr.lunarSystemDisplayed" Conversion.toBool),
   SetValueLine.mk "viewing/skyculture_lunarsystem_thickness" (SettingSource.property "ConstellationMgr.lunarSystemThickness" (Conversion.number 1)),
   SetValueLine.mk "viewing/skyculture_lunarsystem_fade_duration" (SettingSource.property "ConstellationMgr.lunarSystemFadeDuration" (Conversion.number 1)),
   SetValueLine.mk "viewing/asterism_font_size" (SettingSource.property "AsterismMgr.fontSize" Conversion.toInt),
   SetValueLine.mk "viewing/flag_asterism_drawing" (SettingSource.property "AsterismMgr.linesDisplayed" Conversion.toBool),
   SetValueLine.mk "viewing/flag_asterism_name" (SettingSource.property "AsterismMgr.namesDisplayed" Conversion.toBool),
   SetValueLine.mk "viewing/asterism_line_thickness" (SettingSource.property "AsterismMgr.asterismLineThickness" Conversion.toInt),
   SetValueLine.mk "viewing/flag_rayhelper_drawing" (SettingSource.property "AsterismMgr.rayHelpersDisplayed" Conversion.toBool),
   SetValueLine.mk "viewing/rayhelper_line_thickness" (SettingSource.property "AsterismMgr.rayHelperThickness" Conversion.toInt),
   SetValueLine.mk "viewing/asterism_lines_fade_duration" (SettingSource.property "AsterismMgr.linesFadeDuration" (Conversion.number 1)),
   SetValueLine.mk "viewing/asterism_labels_fade_duration" (SettingSource.property "AsterismMgr.namesFadeDuration" (Conversion.number 1)),
   SetValueLine.mk "viewing/rayhelper_lines_fade_duration" (SettingSource.property "AsterismMgr.rayHelpersFadeDuration" (Conversion.number 1)),
   SetValueLine.mk "viewing/sky_brightness_label_threshold" (SettingSource.property "StelSkyDrawer.daylightLabelThreshold" Conversion.toFloat),
   SetValueLine.mk "viewing/flag_night" (SettingSource.getter "StelApp::getInstance().getVisionModeNight()"),
   SetValueLine.mk "astro/flag_stars" (SettingSource.property "StarMgr.flagStarsDisplayed" Conversion.toBool),
   SetValueLine.mk "astro/flag_star_name" (SettingSource.property "StarMgr.flagLabelsDisplayed" Conversion.toBool),
   SetValueLine.mk "astro/flag_star_additional_names" (SettingSource.property "StarMgr.flagAdditionalNamesDisplayed" Conversion.toBool),
   SetValueLine.mk "astro/flag_star_designation_usage" (SettingSource.property "StarMgr.flagDesignationLabels" Conversion.toBool),
   SetValueLine.mk "astro/flag_star_designation_dbl" (SettingSource.property "StarMgr.flagDblStarsDesignation" Conversion.toBool),
   SetValueLine.mk "astro/flag_star_designation_var" (SettingSource.property "StarMgr.flagVarStarsDesignation" Conversion.toBool),
   SetValueLine.mk "astro/flag_star_designation_hip" (SettingSource.property "StarMgr.flagHIPDesignation" Conversion.toBool),
   SetValueLine.mk "stars/labels_amount" (SettingSource.property "StarMgr.labelsAmount" Conversion.toDouble),
   SetValueLine.mk "astro/nebula_hints_amount" (SettingSource.property "NebulaMgr.hintsAmount" Conversion.toDouble),
   SetValueLine.mk "astro/nebula_labels_amount" (SettingSource.property "NebulaMgr.labelsAmount" Conversion.toDouble),
   SetValueLine.mk "astro/nebula_hints_brightness" (SettingSource.property "NebulaMgr.hintsBrightness" Conversion.toDouble),
   SetValueLine.mk "astro/nebula_labels_brightness" (SettingSource.property "NebulaMgr.labelsBrightness" Conversion.toDouble),
   SetValueLine.mk "astro/flag_nebula_hints_proportional" (SettingSource.property "NebulaMgr.hintsProportional" Conversion.toBool),
   SetValueLine.mk "astro/flag_surface_brightness_usage" (SettingSource.property "NebulaMgr.flagSurfaceBrightnessUsage" Conversion.toBool),
   SetValueLine.mk "gui/flag_surface_brightness_arcsec" (SettingSource.property "NebulaMgr.flagSurfaceBrightnessArcsecUsage" Conversion.toBool),
   SetValueLine.mk "gui/flag_surface_brightness_short" (SettingSource.property "NebulaMgr.flagSurfaceBrightnessShortNotationUsage" Conversion.toBool),
   SetValueLine.mk "astro/flag_dso_designation_usage" (SettingSource.property "NebulaMgr.flagDesignationLabels" Conversion.toBool),
   SetValueLine.mk "astro/flag_dso_outlines_usage" (SettingSource.property "NebulaMgr.flagOutlinesDisplayed" Conversion.toBool),
   SetValueLine.mk "astro/flag_dso_additional_names" (SettingSource.property "NebulaMgr.flagAdditionalNamesDisplayed" Conversion.toBool),
   SetValueLine.mk "astro/flag_nebula_name" (SettingSource.property "NebulaMgr.flagHintDisplayed" Conversion.toBool),
   SetValueLine.mk "astro/flag_use_type_filter" (SettingSource.property "NebulaMgr.flagTypeFiltersUsage" Conversion.toBool),
   SetValueLine.mk "astro/flag_nebula_display_no_texture" (SettingSource.property "StelSkyLayerMgr.flagShow" Conversion.notToBool),
   SetValueLine.mk "astro/flag_size_limits_usage" (SettingSource.property "NebulaMgr.flagUseSizeLimits" Conversion.toBool),
   SetValueLine.mk "astro/size_limit_min" (SettingSource.property "NebulaMgr.minSizeLimit" (Conversion.number 2)),
   SetValueLine.mk "astro/size_limit_max" (SettingSource.property "NebulaMgr.maxSizeLimit" (Conversion.number 2)),
   SetValueLine.mk "projection/type" (SettingSource.getter "core->getCurrentProjectionTypeKey()"),
   SetValueLine.mk "astro/flag_nutation" (SettingSource.getter "core->getUseNutation()"),
   SetValueLine.mk "astro/flag_aberration" (SettingSource.getter "core->getUseAberration()"),
   SetValueLine.mk "astro/aberration_factor" (SettingSource.getter "core->getAberrationFactor()"),
   SetValueLine.mk "astro/flag_parallax" (SettingSource.getter "core->getUseParallax()"),
   SetValueLine.mk "astro/parallax_factor" (SettingSource.getter "core->getParallaxFactor()"),
   SetValueLine.mk "astro/flag_topocentric_coordinates" (SettingSource.getter "core->getUseTopocentricCoordinates()"),
   SetValueLine.mk "astro/solar_system_threads" (SettingSource.property "SolarSystem.extraThreads" Conversion.toInt)]

/-- The `conf->setValue` lines of `saveAllSettings` inside the group `dso_type_filters`, in
order. -/
def saveAllSettingsLinesDsoTypeFilters : List SetValueLine :=
  [SetValueLine.mk "flag_show_galaxies" (SettingSource.getter "static_cast<bool>(tflags & Nebula::TypeGalaxies)"),
   SetValueLine.mk "flag_show_active_galaxies" (SettingSource.getter "static_cast<bool>(tflags & Nebula::TypeActiveGalaxies)"),
   SetValueLine.mk "flag_show_interacting_galaxies" (SettingSource.getter "static_cast<bool>(tflags & Nebula::TypeInteractingGalaxies)"),
   SetValueLine.mk "flag_show_open_clusters" (SettingSource.getter "static_cast<bool>(tflags & Nebula::TypeOpenStarClusters)"),
   SetValueLine.mk "flag_show_globular_clusters" (SettingSource.getter "static_cast<bool>(tflags & Nebula::TypeGlobularStarClusters)"),
   SetValueLine.mk "flag_show_bright_nebulae" (SettingSource.getter "static_cast<bool>(tflags & Nebula::TypeBrightNebulae)"),
   SetValueLine.mk "flag_show_dark_nebulae" (SettingSource.getter "static_cast<bool>(tflags & Nebula::TypeDarkNebulae)"),
   SetValueLine.mk "flag_show_planetary_nebulae" (SettingSource.getter "static_cast<bool>(tflags & Nebula::TypePlanetaryNebulae)"),
   SetValueLine.mk "flag_show_hydrogen_regions" (SettingSource.getter "static_cast<bool>(tflags & Nebula::TypeHydrogenRegions)"),
   SetValueLine.mk "flag_show_supernova_remnants" (SettingSource.getter "static_cast<bool>(tflags & Nebula::TypeSupernovaRemnants)"),
   SetValueLine.mk "flag_show_galaxy_clusters" (SettingSource.getter "static_cast<bool>(tflags & Nebula::TypeGalaxyClusters)"),
   SetValueLine.mk "flag_show_other" (SettingSource.getter "static_cast<bool>(tflags & Nebula::TypeOther)")]

/-- The `conf->setValue` lines of `saveAllSettings` for the landscape tab, in order. -/
def saveAllSettingsLinesLandscape : List SetValueLine :=
  [SetValueLine.mk "landscape/flag_landscape_sets_location" (SettingSource.property "LandscapeMgr.flagLandscapeSetsLocation" Conversion.toBool),
   SetValueLine.mk "landscape/flag_landscape" (SettingSource.property "LandscapeMgr.landscapeDisplayed" Conversion.toBool),
   SetValueLine.mk "landscape/flag_atmosphere" (SettingSource.property "LandscapeMgr.atmosphereDisplayed" Conversion.toBool),
   SetValueLine.mk "landscape/flag_fog" (SettingSource.property "LandscapeMgr.fogDisplayed" Conversion.toBool),
   SetValueLine.mk "landscape/flag_enable_illumination_layer" (SettingSource.property "LandscapeMgr.illuminationDisplayed" Conversion.toBool),
   SetValueLine.mk "landscape/flag_enable_labels" (SettingSource.property "LandscapeMgr.labelsDisplayed" Conversion.toBool),
   SetValueLine.mk "landscape/label_font_size" (SettingSource.property "LandscapeMgr.labelFontSize" Conversion.toInt),
   SetValueLine.mk "landscape/label_angle" (SettingSource.property "LandscapeMgr.labelAngle" Conversion.toInt),
   SetValueLine.mk "landscape/flag_minimal_brightness" (SettingSource.property "LandscapeMgr.flagLandscapeUseMinimalBrightness" Conversion.toBool),
   SetValueLine.mk "landscape/flag_landscape_sets_minimal_brightness" (SettingSource.property "LandscapeMgr.flagLandscapeSetsMinimalBrightness" Conversion.toBool),
   SetValueLine.mk "landscape/minimal_brightness" (SettingSource.property "LandscapeMgr.defaultMinimalBrightness" Conversion.toFloat),
   SetValueLine.mk "landscape/flag_transparency" (SettingSource.property "LandscapeMgr.flagLandscapeUseTransparency" Conversion.toBool),
   SetValueLine.mk "landscape/transparency" (SettingSource.property "LandscapeMgr.landscapeTransparency" Conversion.toFloat),
   SetValueLine.mk "landscape/flag_polyline_only" (SettingSource.property "LandscapeMgr.flagPolyLineDisplayedOnly" Conversion.toBool),
   SetValueLine.mk "landscape/polyline_thickness" (SettingSource.property "LandscapeMgr.polyLineThickness" Conversion.toInt),
   SetValueLine.mk "stars/init_light_pollution_luminance" (SettingSource.property "StelSkyDrawer.lightPollutionLuminance" Conversion.toFloat),
   SetValueLine.mk "landscape/atmospheric_extinction_coefficient" (SettingSource.property "StelSkyDrawer.extinctionCoefficient" Conversion.toFloat),
   SetValueLine.mk "landscape/pressure_mbar" (SettingSource.property "StelSkyDrawer.atmospherePressure" Conversion.toFloat),
   SetValueLine.mk "landscape/temperature_C" (SettingSource.property "StelSkyDrawer.atmosphereTemperature" Conversion.toFloat)]

/-- The `conf->setValue` lines of `saveAllSettings` from `gui/auto_hide_horizontal_toolbar`
to `localization/date_display_format`, in order. -/
def saveAllSettingsLinesToolbar : List SetValueLine :=
  [SetValueLine.mk "gui/auto_hide_horizontal_toolbar" (SettingSource.property "StelGui.autoHideHorizontalButtonBar" Conversion.toBool),
   SetValueLine.mk "gui/auto_hide_vertical_toolbar" (SettingSource.property "StelGui.autoHideVerticalButtonBar" Conversion.toBool),
   SetValueLine.mk "gui/flag_show_quit_button" (SettingSource.property "StelGui.flagShowQuitButton" Conversion.toBool),
   SetValueLine.mk "gui/flag_show_nebulae_background_button" (SettingSource.property "StelGui.flagShowNebulaBackgroundButton" Conversion.toBool),
   SetValueLine.mk "gui/flag_show_dss_button" (SettingSource.property "StelGui.flagShowDSSButton" Conversion.toBool),
   SetValueLine.mk "gui/flag_show_hips_button" (SettingSource.property "StelGui.flagShowHiPSButton" Conversion.toBool),
   SetValueLine.mk "gui/flag_show_goto_selected_button" (SettingSource.property "StelGui.flagShowGotoSelectedObjectButton" Conversion.toBool),
   SetValueLine.mk "gui/flag_show_nightmode_button" (SettingSource.property "StelGui.flagShowNightmodeButton" Conversion.toBool),
   SetValueLine.mk "gui/flag_show_fullscreen_button" (SettingSource.property "StelGui.flagShowFullscreenButton" Conversion.toBool),
   SetValueLine.mk "gui/flag_show_obslist_button" (SettingSource.property "StelGui.flagShowObsListButton" Conversion.toBool),
   SetValueLine.mk "gui/flag_show_icrs_grid_button" (SettingSource.property "StelGui.flagShowICRSGridButton" Conversion.toBool),
   SetValueLine.mk "gui/flag_show_galactic_grid_button" (SettingSource.property "StelGui.flagShowGalacticGridButton" Conversion.toBool),
   SetValueLine.mk "gui/flag_show_ecliptic_grid_button" (SettingSource.property "StelGui.flagShowEclipticGridButton" Conversion.toBool),
   SetValueLine.mk "gui/flag_show_boundaries_button" (SettingSource.property "StelGui.flagShowConstellationBoundariesButton" Conversion.toBool),
   SetValueLine.mk "gui/flag_show_constellation_arts_button" (SettingSource.property "StelGui.flagShowConstellationArtsButton" Conversion.toBool),
   SetValueLine.mk "gui/flag_show_asterism_lines_button" (SettingSource.property "StelGui.flagShowAsterismLinesButton" Conversion.toBool),
   SetValueLine.mk "gui/flag_show_asterism_labels_button" (SettingSource.property "StelGui.flagShowAsterismLabelsButton" Conversion.toBool),
   SetValueLine.mk "gui/flag_show_decimal_degrees" (SettingSource.property "StelApp.flagShowDecimalDegrees" Conversion.toBool),
   SetValueLine.mk "gui/flag_use_azimuth_from_south" (SettingSource.property "StelApp.flagUseAzimuthFromSouth" Conversion.toBool),
   SetValueLine.mk "gui/flag_use_formatting_output" (SettingSource.property "StelApp.flagUseFormattingOutput" Conversion.toBool),
   SetValueLine.mk "gui/flag_use_ccs_designations" (SettingSource.property "StelApp.flagUseCCSDesignation" Conversion.toBool),
   SetValueLine.mk "gui/flag_overwrite_info_color" (SettingSource.property "StelApp.flagOverwriteInfoColor" Conversion.toBool),
   SetValueLine.mk "gui/flag_time_jd" (SettingSource.getter "gui->getButtonBar()->getFlagTimeJd()"),
   SetValueLine.mk "gui/flag_show_buttons_background" (SettingSource.property "StelGui.flagUseButtonsBackground" Conversion.toBool),
   SetValueLine.mk "gui/flag_indication_mount_mode" (SettingSource.getter "mvmgr->getFlagIndicationMountMode()"),
   SetValueLine.mk "navigation/flag_enable_zoom_keys" (SettingSource.getter "mvmgr->getFlagEnableZoomKeys()"),
   SetValueLine.mk "navigation/flag_enable_mouse_navigation" (SettingSource.getter "mvmgr->getFlagEnableMouseNavigation()"),
   SetValueLine.mk "navigation/flag_enable_mouse_zooming" (SettingSource.getter "mvmgr->getFlagEnableMouseZooming()"),
   SetValueLine.mk "navigation/flag_enable_move_keys" (SettingSource.getter "mvmgr->getFlagEnableMoveKeys()"),
   SetValueLine.mk "navigation/startup_time_mode" (SettingSource.getter "core->getStartupTimeMode()"),
   SetValueLine.mk "navigation/startup_time_stop" (SettingSource.getter "core->getStartupTimeStop()"),
   SetValueLine.mk "navigation/today_time" (SettingSource.getter "core->getInitTodayTime()"),
   SetValueLine.mk "navigation/preset_sky_time" (SettingSource.getter "core->getPresetSkyTime()"),
   SetValueLine.mk "navigation/time_correction_algorithm" (SettingSource.getter "core->getCurrentDeltaTAlgorithmKey()"),
   SetValueLine.mk "localization/time_display_format" (SettingSource.getter "localeManager.getTimeFormatStr()"),
   SetValueLine.mk "localization/date_display_format" (SettingSource.getter "localeManager.getDateFormatStr()")]

/-- The `conf->setValue` lines of `saveAllSettings` from `gui/flag_show_flip_buttons` to
`gui/mouse_cursor_timeout`, in order. -/
def saveAllSettingsLinesTools : List SetValueLine :=
  [SetValueLine.mk "gui/flag_show_flip_buttons" (SettingSource.property "StelGui.flagShowFlipButtons" Conversion.toBool),
   SetValueLine.mk "video/viewport_effect" (SettingSource.getter "StelApp::getInstance().getViewportEffect()"),
   SetValueLine.mk "projection/viewport" (SettingSource.getter "StelProjector::maskTypeToString(proj->getMaskType())"),
   SetValueLine.mk "projection/viewport_center_offset_x" (SettingSource.getter "core->getCurrentStelProjectorParams().viewportCenterOffset[0]*100."),
   SetValueLine.mk "projection/viewport_center_offset_y" (SettingSource.getter "core->getCurrentStelProjectorParams().viewportCenterOffset[1]*100."),
   SetValueLine.mk "projection/flip_horz" (SettingSource.getter "core->getCurrentStelProjectorParams().flipHorz"),
   SetValueLine.mk "projection/flip_vert" (SettingSource.getter "core->getCurrentStelProjectorParams().flipVert"),
   SetValueLine.mk "navigation/max_fov" (SettingSource.getter "mvmgr->getUserMaxFov()"),
   SetValueLine.mk "viewing/flag_gravity_labels" (SettingSource.getter "proj->getFlagGravityLabels()"),
   SetValueLine.mk "navigation/auto_zoom_out_resets_direction" (SettingSource.getter "mvmgr->getFlagAutoZoomOutResetsDirection()"),
   SetValueLine.mk "gui/flag_mouse_cursor_timeout" (SettingSource.property "MainView.flagCursorTimeout" Conversion.toBool),
   SetValueLine.mk "gui/mouse_cursor_timeout" (SettingSource.property "MainView.cursorTimeout" Conversion.toFloat)]

/-- The `conf->setValue` lines of `saveAllSettings` from `gui/screen_button_scale` to
`main/screenshot_custom_height`, in order. -/
def saveAllSettingsLinesScreenshot : List SetValueLine :=
  [SetValueLine.mk "gui/screen_button_scale" (SettingSource.property "StelApp.screenButtonScale" Conversion.toDouble),
   SetValueLine.mk "video/minimum_fps" (SettingSource.property "MainView.minFps" Conversion.toInt),
   SetValueLine.mk "video/maximum_fps" (SettingSource.property "MainView.maxFps" Conversion.toInt),
   SetValueLine.mk "main/screenshot_dir" (SettingSource.getter "StelFileMgr::getScreenshotDir()"),
   SetValueLine.mk "main/invert_screenshots_colors" (SettingSource.property "MainView.flagInvertScreenShotColors" Conversion.toBool),
   SetValueLine.mk "main/screenshot_datetime_filename" (SettingSource.property "MainView.flagScreenshotDateFileName" Conversion.toBool),
   SetValueLine.mk "main/screenshot_datetime_filemask" (SettingSource.property "MainView.screenShotFileMask" Conversion.toString),
   SetValueLine.mk "main/screenshot_custom_size" (SettingSource.property "MainView.flagUseCustomScreenshotSize" Conversion.toBool),
   SetValueLine.mk "main/screenshot_custom_width" (SettingSource.property "MainView.customScreenshotWidth" Conversion.toInt),
   SetValueLine.mk "main/screenshot_custom_height" (SettingSource.property "MainView.customScreenshotHeight" Conversion.toInt)]

/-- The `conf->setValue` lines of `saveAllSettings` that store the window geometry when the
main window is not full screen, in order. -/
def saveAllSettingsLinesWindow : List SetValueLine :=
  [SetValueLine.mk "video/screen_w" (SettingSource.getter "int(std::lround(mainWindow.size().width() * mainWindow.devicePixelRatio()))"),
   SetValueLine.mk "video/screen_h" (SettingSource.getter "int(std::lround(mainWindow.size().height() * mainWindow.devicePixelRatio()))"),
   SetValueLine.mk "video/screen_x" (SettingSource.getter "int(std::lround((mainWindow.x() - screenGeom.x()) * mainWindow.devicePixelRatio()))"),
   SetValueLine.mk "video/screen_y" (SettingSource.getter "int(std::lround((mainWindow.y() - screenGeom.y()) * mainWindow.devicePixelRatio()))")]

/-- The `conf->setValue` lines of `storeFontSettings`, in order. -/
def storeFontSettingsLines : List SetValueLine :=
  [SetValueLine.mk "gui/base_font_name" (SettingSource.getter "QGuiApplication::font().family()"),
   SetValueLine.mk "gui/screen_font_size" (SettingSource.property "StelApp.screenFontSize" Conversion.toInt),
   SetValueLine.mk "gui/gui_font_size" (SettingSource.property "StelApp.guiFontSize" Conversion.toInt)]

/-- The `Q_PROPERTY` declarations of the class `GridLinesMgr`, in order: type, name, `READ`,
`WRITE` and `NOTIFY`. -/
def gridLinesMgrProperties : List QProperty :=
  [QProperty.mk "bool" "gridlinesDisplayed" "getFlagGridlines" "setFlagGridlines" "gridlinesDisplayedChanged",
   QProperty.mk "bool" "azimuthalGridDisplayed" "getFlagAzimuthalGrid" "setFlagAzimuthalGrid" "azimuthalGridDisplayedChanged",
   QProperty.mk "Vec3f" "azimuthalGridColor" "getColorAzimuthalGrid" "setColorAzimuthalGrid" "azimuthalGridColorChanged",
   QProperty.mk "bool" "equatorGridDisplayed" "getFlagEquatorGrid" "setFlagEquatorGrid" "equatorGridDisplayedChanged",
   QProperty.mk "Vec3f" "equatorGridColor" "getColorEquatorGrid" "setColorEquatorGrid" "equatorGridColorChanged",
   QProperty.mk "bool" "fixedEquatorGridDisplayed" "getFlagFixedEquatorGrid" "setFlagFixedEquatorGrid" "fixedEquatorGridDisplayedChanged",
   QProperty.mk "Vec3f" "fixedEquatorGridColor" "getColorFixedEquatorGrid" "setColorFixedEquatorGrid" "fixedEquatorGridColorChanged",
   QProperty.mk "bool" "equatorJ2000GridDisplayed" "getFlagEquatorJ2000Grid" "setFlagEquatorJ2000Grid" "equatorJ2000GridDisplayedChanged",
   QProperty.mk "Vec3f" "equatorJ2000GridColor" "getColorEquatorJ2000Grid" "setColorEquatorJ2000Grid" "equatorJ2000GridColorChanged",
   QProperty.mk "bool" "eclipticJ2000GridDisplayed" "getFlagEclipticJ2000Grid" "setFlagEclipticJ2000Grid" "eclipticJ2000GridDisplayedChanged",
   QProperty.mk "Vec3f" "eclipticJ2000GridColor" "getColorEclipticJ2000Grid" "setColorEclipticJ2000Grid" "eclipticJ2000GridColorChanged",
   QProperty.mk "bool" "eclipticGridDisplayed" "getFlagEclipticGrid" "setFlagEclipticGrid" "eclipticGridDisplayedChanged",
   QProperty.mk "Vec3f" "eclipticGridColor" "getColorEclipticGrid" "setColorEclipticGrid" "eclipticGridColorChanged",
   QProperty.mk "bool" "galacticGridDisplayed" "getFlagGalacticGrid" "setFlagGalacticGrid" "galacticGridDisplayedChanged",
   QProperty.mk "Vec3f" "galacticGridColor" "getColorGalacticGrid" "setColorGalacticGrid" "galacticGridColorChanged",
   QProperty.mk "bool" "supergalacticGridDisplayed" "getFlagSupergalacticGrid" "setFlagSupergalacticGrid" "supergalacticGridDisplayedChanged",
   QProperty.mk "Vec3f" "supergalacticGridColor" "getColorSupergalacticGrid" "setColorSupergalacticGrid" "supergalacticGridColorChanged",
   QProperty.mk "bool" "equatorLineDisplayed" "getFlagEquatorLine" "setFlagEquatorLine" "equatorLineDisplayedChanged",
   QProperty.mk "bool" "equatorPartsDisplayed" "getFlagEquatorParts" "setFlagEquatorParts" "equatorPartsDisplayedChanged",
   QProperty.mk "bool" "equatorPartsLabeled" "getFlagEquatorLabeled" "setFlagEquatorLabeled" "equatorPartsLabeledChanged",
   QProperty.mk "Vec3f" "equatorLineColor" "getColorEquatorLine" "setColorEquatorLine" "equatorLineColorChanged",
   QProperty.mk "bool" "equatorJ2000LineDisplayed" "getFlagEquatorJ2000Line" "setFlagEquatorJ2000Line" "equatorJ2000LineDisplayedChanged",
   QProperty.mk "bool" "equatorJ2000PartsDisplayed" "getFlagEquatorJ2000Parts" "setFlagEquatorJ2000Parts" "equatorJ2000PartsDisplayedChanged",
   QProperty.mk "bool" "equatorJ2000PartsLabeled" "getFlagEquatorJ2000Labeled" "setFlagEquatorJ2000Labeled" "equatorJ2000PartsLabeledChanged",
   QProperty.mk "Vec3f" "equatorJ2000LineColor" "getColorEquatorJ2000Line" "setColorEquatorJ2000Line" "equatorJ2000LineColorChanged",
   QProperty.mk "bool" "fixedEquatorLineDisplayed" "getFlagFixedEquatorLine" "setFlagFixedEquatorLine" "fixedEquatorLineDisplayedChanged",
   QProperty.mk "bool" "fixedEquatorPartsDisplayed" "getFlagFixedEquatorParts" "setFlagFixedEquatorParts" "fixedEquatorPartsDisplayedChanged",
   QProperty.mk "bool" "fixedEquatorPartsLabeled" "getFlagFixedEquatorLabeled" "setFlagFixedEquatorLabeled" "fixedEquatorPartsLabeledChanged",
   QProperty.mk "Vec3f" "fixedEquatorLineColor" "getColorFixedEquatorLine" "setColorFixedEquatorLine" "fixedEquatorLineColorChanged",
   QProperty.mk "bool" "eclipticLineDisplayed" "getFlagEclipticLine" "setFlagEclipticLine" "eclipticLineDisplayedChanged",
   QProperty.mk "bool" "eclipticPartsDisplayed" "getFlagEclipticParts" "setFlagEclipticParts" "eclipticPartsDisplayedChanged",
   QProperty.mk "bool" "eclipticPartsLabeled" "getFlagEclipticLabeled" "setFlagEclipticLabeled" "eclipticPartsLabeledChanged",
   QProperty.mk "bool" "eclipticDatesLabeled" "getFlagEclipticDatesLabeled" "setFlagEclipticDatesLabeled" "eclipticDatesLabeledChanged",
   QProperty.mk "Vec3f" "eclipticLineColor" "getColorEclipticLine" "setColorEclipticLine" "eclipticLineColorChanged",
   QProperty.mk "bool" "eclipticJ2000LineDisplayed" "getFlagEclipticJ2000Line" "setFlagEclipticJ2000Line" "eclipticJ2000LineDisplayedChanged",
   QProperty.mk "bool" "eclipticJ2000PartsDisplayed" "getFlagEclipticJ2000Parts" "setFlagEclipticJ2000Parts" "eclipticJ2000PartsDisplayedChanged",
   QProperty.mk "bool" "eclipticJ2000PartsLabeled" "getFlagEclipticJ2000Labeled" "setFlagEclipticJ2000Labeled" "eclipticJ2000PartsLabeledChanged",
   QProperty.mk "Vec3f" "eclipticJ2000LineColor" "getColorEclipticJ2000Line" "setColorEclipticJ2000Line" "eclipticJ2000LineColorChanged",
   QProperty.mk "bool" "invariablePlaneLineDisplayed" "getFlagInvariablePlaneLine" "setFlagInvariablePlaneLine" "invariablePlaneLineDisplayedChanged",
   QProperty.mk "Vec3f" "invariablePlaneLineColor" "getColorInvariablePlaneLine" "setColorInvariablePlaneLine" "invariablePlaneLineColorChanged",
   QProperty.mk "bool" "solarEquatorLineDisplayed" "getFlagSolarEquatorLine" "setFlagSolarEquatorLine" "solarEquatorLineDisplayedChanged",
   QProperty.mk "bool" "solarEquatorPartsDisplayed" "getFlagSolarEquatorParts" "setFlagSolarEquatorParts" "solarEquatorPartsDisplayedChanged",
   QProperty.mk "bool" "solarEquatorPartsLabeled" "getFlagSolarEquatorLabeled" "setFlagSolarEquatorLabeled" "solarEquatorPartsLabeledChanged",
   QProperty.mk "Vec3f" "solarEquatorLineColor" "getColorSolarEquatorLine" "setColorSolarEquatorLine" "solarEquatorLineColorChanged",
   QProperty.mk "bool" "precessionCirclesDisplayed" "getFlagPrecessionCircles" "setFlagPrecessionCircles" "precessionCirclesDisplayedChanged",
   QProperty.mk "bool" "precessionPartsDisplayed" "getFlagPrecessionParts" "setFlagPrecessionParts" "precessionPartsDisplayedChanged",
   QProperty.mk "bool" "precessionPartsLabeled" "getFlagPrecessionLabeled" "setFlagPrecessionLabeled" "precessionPartsLabeledChanged",
   QProperty.mk "Vec3f" "precessionCirclesColor" "getColorPrecessionCircles" "setColorPrecessionCircles" "precessionCirclesColorChanged",
   QProperty.mk "bool" "meridianLineDisplayed" "getFlagMeridianLine" "setFlagMeridianLine" "meridianLineDisplayedChanged",
   QProperty.mk "bool" "meridianPartsDisplayed" "getFlagMeridianParts" "setFlagMeridianParts" "meridianPartsDisplayedChanged",
   QProperty.mk "bool" "meridianPartsLabeled" "getFlagMeridianLabeled" "setFlagMeridianLabeled" "meridianPartsLabeledChanged",
   QProperty.mk "Vec3f" "meridianLineColor" "getColorMeridianLine" "setColorMeridianLine" "meridianLineColorChanged",
   QProperty.mk "bool" "longitudeLineDisplayed" "getFlagLongitudeLine" "setFlagLongitudeLine" "longitudeLineDisplayedChanged",
   QProperty.mk "bool" "longitudePartsDisplayed" "getFlagLongitudeParts" "setFlagLongitudeParts" "longitudePartsDisplayedChanged",
   QProperty.mk "bool" "longitudePartsLabeled" "getFlagLongitudeLabeled" "setFlagLongitudeLabeled" "longitudePartsLabeledChanged",
   QProperty.mk "Vec3f" "longitudeLineColor" "getColorLongitudeLine" "setColorLongitudeLine" "longitudeLineColorChanged",
   QProperty.mk "bool" "quadratureLineDisplayed" "getFlagQuadratureLine" "setFlagQuadratureLine" "quadratureLineDisplayedChanged",
   QProperty.mk "Vec3f" "quadratureLineColor" "getColorQuadratureLine" "setColorQuadratureLine" "quadratureLineColorChanged",
   QProperty.mk "bool" "horizonLineDisplayed" "getFlagHorizonLine" "setFlagHorizonLine" "horizonLineDisplayedChanged",
   QProperty.mk "bool" "horizonPartsDisplayed" "getFlagHorizonParts" "setFlagHorizonParts" "horizonPartsDisplayedChanged",
   QProperty.mk "bool" "horizonPartsLabeled" "getFlagHorizonLabeled" "setFlagHorizonLabeled" "horizonPartsLabeledChanged",
   QProperty.mk "Vec3f" "horizonLineColor" "getColorHorizonLine" "setColorHorizonLine" "horizonLineColorChanged",
   QProperty.mk "bool" "galacticEquatorLineDisplayed" "getFlagGalacticEquatorLine" "setFlagGalacticEquatorLine" "galacticEquatorLineDisplayedChanged",
   QProperty.mk "bool" "galacticEquatorPartsDisplayed" "getFlagGalacticEquatorParts" "setFlagGalacticEquatorParts" "galacticEquatorPartsDisplayedChanged",
   QProperty.mk "bool" "galacticEquatorPartsLabeled" "getFlagGalacticEquatorLabeled" "setFlagGalacticEquatorLabeled" "galacticEquatorPartsLabeledChanged",
   QProperty.mk "Vec3f" "galacticEquatorLineColor" "getColorGalacticEquatorLine" "setColorGalacticEquatorLine" "galacticEquatorLineColorChanged",
   QProperty.mk "bool" "supergalacticEquatorLineDisplayed" "getFlagSupergalacticEquatorLine" "setFlagSupergalacticEquatorLine" "supergalacticEquatorLineDisplayedChanged",
   QProperty.mk "bool" "supergalacticEquatorPartsDisplayed" "getFlagSupergalacticEquatorParts" "setFlagSupergalacticEquatorParts" "supergalacticEquatorPartsDisplayedChanged",
   QProperty.mk "bool" "supergalacticEquatorPartsLabeled" "getFlagSupergalacticEquatorLabeled" "setFlagSupergalacticEquatorLabeled" "supergalacticEquatorPartsLabeledChanged",
   QProperty.mk "Vec3f" "supergalacticEquatorLineColor" "getColorSupergalacticEquatorLine" "setColorSupergalacticEquatorLine" "supergalacticEquatorLineColorChanged",
   QProperty.mk "bool" "primeVerticalLineDisplayed" "getFlagPrimeVerticalLine" "setFlagPrimeVerticalLine" "primeVerticalLineDisplayedChanged",
   QProperty.mk "bool" "primeVerticalPartsDisplayed" "getFlagPrimeVerticalParts" "setFlagPrimeVerticalParts" "primeVerticalPartsDisplayedChanged",
   QProperty.mk "bool" "primeVerticalPartsLabeled" "getFlagPrimeVerticalLabeled" "setFlagPrimeVerticalLabeled" "primeVerticalPartsLabeledChanged",
   QProperty.mk "Vec3f" "primeVerticalLineColor" "getColorPrimeVerticalLine" "setColorPrimeVerticalLine" "primeVerticalLineColorChanged",
   QProperty.mk "bool" "currentVerticalLineDisplayed" "getFlagCurrentVerticalLine" "setFlagCurrentVerticalLine" "currentVerticalLineDisplayedChanged",
   QProperty.mk "bool" "currentVerticalPartsDisplayed" "getFlagCurrentVerticalParts" "setFlagCurrentVerticalParts" "currentVerticalPartsDisplayedChanged",
   QProperty.mk "bool" "currentVerticalPartsLabeled" "getFlagCurrentVerticalLabeled" "setFlagCurrentVerticalLabeled" "currentVerticalPartsLabeledChanged",
   QProperty.mk "Vec3f" "currentVerticalLineColor" "getColorCurrentVerticalLine" "setColorCurrentVerticalLine" "currentVerticalLineColorChanged",
   QProperty.mk "bool" "colureLinesDisplayed" "getFlagColureLines" "setFlagColureLines" "colureLinesDisplayedChanged",
   QProperty.mk "bool" "colurePartsDisplayed" "getFlagColureParts" "setFlagColureParts" "colurePartsDisplayedChanged",
   QProperty.mk "bool" "colurePartsLabeled" "getFlagColureLabeled" "setFlagColureLabeled" "colurePartsLabeledChanged",
   QProperty.mk "Vec3f" "colureLinesColor" "getColorColureLines" "setColorColureLines" "colureLinesColorChanged",
   QProperty.mk "bool" "circumpolarCirclesDisplayed" "getFlagCircumpolarCircles" "setFlagCircumpolarCircles" "circumpolarCirclesDisplayedChanged",
   QProperty.mk "Vec3f" "circumpolarCirclesColor" "getColorCircumpolarCircles" "setColorCircumpolarCircles" "circumpolarCirclesColorChanged",
   QProperty.mk "bool" "umbraCircleDisplayed" "getFlagUmbraCircle" "setFlagUmbraCircle" "umbraCircleDisplayedChanged",
   QProperty.mk "Vec3f" "umbraCircleColor" "getColorUmbraCircle" "setColorUmbraCircle" "umbraCircleColorChanged",
   QProperty.mk "bool" "penumbraCircleDisplayed" "getFlagPenumbraCircle" "setFlagPenumbraCircle" "penumbraCircleDisplayedChanged",
   QProperty.mk "Vec3f" "penumbraCircleColor" "getColorPenumbraCircle" "setColorPenumbraCircle" "penumbraCircleColorChanged",
   QProperty.mk "bool" "celestialJ2000PolesDisplayed" "getFlagCelestialJ2000Poles" "setFlagCelestialJ2000Poles" "celestialJ2000PolesDisplayedChanged",
   QProperty.mk "Vec3f" "celestialJ2000PolesColor" "getColorCelestialJ2000Poles" "setColorCelestialJ2000Poles" "celestialJ2000PolesColorChanged",
   QProperty.mk "bool" "celestialPolesDisplayed" "getFlagCelestialPoles" "setFlagCelestialPoles" "celestialPolesDisplayedChanged",
   QProperty.mk "Vec3f" "celestialPolesColor" "getColorCelestialPoles" "setColorCelestialPoles" "celestialPolesColorChanged",
   QProperty.mk "bool" "zenithNadirDisplayed" "getFlagZenithNadir" "setFlagZenithNadir" "zenithNadirDisplayedChanged",
   QProperty.mk "Vec3f" "zenithNadirColor" "getColorZenithNadir" "setColorZenithNadir" "zenithNadirColorChanged",
   QProperty.mk "bool" "eclipticJ2000PolesDisplayed" "getFlagEclipticJ2000Poles" "setFlagEclipticJ2000Poles" "eclipticJ2000PolesDisplayedChanged",
   QProperty.mk "Vec3f" "eclipticJ2000PolesColor" "getColorEclipticJ2000Poles" "setColorEclipticJ2000Poles" "eclipticJ2000PolesColorChanged",
   QProperty.mk "bool" "eclipticPolesDisplayed" "getFlagEclipticPoles" "setFlagEclipticPoles" "eclipticPolesDisplayedChanged",
   QProperty.mk "Vec3f" "eclipticPolesColor" "getColorEclipticPoles" "setColorEclipticPoles" "eclipticPolesColorChanged",
   QProperty.mk "bool" "galacticPolesDisplayed" "getFlagGalacticPoles" "setFlagGalacticPoles" "galacticPolesDisplayedChanged",
   QProperty.mk "Vec3f" "galacticPolesColor" "getColorGalacticPoles" "setColorGalacticPoles" "galacticPolesColorChanged",
   QProperty.mk "bool" "galacticCenterDisplayed" "getFlagGalacticCenter" "setFlagGalacticCenter" "galacticCenterDisplayedChanged",
   QProperty.mk "Vec3f" "galacticCenterColor" "getColorGalacticCenter" "setColorGalacticCenter" "galacticCenterColorChanged",
   QProperty.mk "bool" "supergalacticPolesDisplayed" "getFlagSupergalacticPoles" "setFlagSupergalacticPoles" "supergalacticPolesDisplayedChanged",
   QProperty.mk "Vec3f" "supergalacticPolesColor" "getColorSupergalacticPoles" "setColorSupergalacticPoles" "supergalacticPolesColorChanged",
   QProperty.mk "bool" "equinoxJ2000PointsDisplayed" "getFlagEquinoxJ2000Points" "setFlagEquinoxJ2000Points" "equinoxJ2000PointsDisplayedChanged",
   QProperty.mk "Vec3f" "equinoxJ2000PointsColor" "getColorEquinoxJ2000Points" "setColorEquinoxJ2000Points" "equinoxJ2000PointsColorChanged",
   QProperty.mk "bool" "equinoxPointsDisplayed" "getFlagEquinoxPoints" "setFlagEquinoxPoints" "equinoxPointsDisplayedChanged",
   QProperty.mk "Vec3f" "equinoxPointsColor" "getColorEquinoxPoints" "setColorEquinoxPoints" "equinoxPointsColorChanged",
   QProperty.mk "bool" "solsticeJ2000PointsDisplayed" "getFlagSolsticeJ2000Points" "setFlagSolsticeJ2000Points" "solsticeJ2000PointsDisplayedChanged",
   QProperty.mk "Vec3f" "solsticeJ2000PointsColor" "getColorSolsticeJ2000Points" "setColorSolsticeJ2000Points" "solsticeJ2000PointsColorChanged",
   QProperty.mk "bool" "solsticePointsDisplayed" "getFlagSolsticePoints" "setFlagSolsticePoints" "solsticePointsDisplayedChanged",
   QProperty.mk "Vec3f" "solsticePointsColor" "getColorSolsticePoints" "setColorSolsticePoints" "solsticePointsColorChanged",
   QProperty.mk "bool" "antisolarPointDisplayed" "getFlagAntisolarPoint" "setFlagAntisolarPoint" "antisolarPointDisplayedChanged",
   QProperty.mk "Vec3f" "antisolarPointColor" "getColorAntisolarPoint" "setColorAntisolarPoint" "antisolarPointColorChanged",
   QProperty.mk "bool" "umbraCenterPointDisplayed" "getFlagUmbraCenterPoint" "setFlagUmbraCenterPoint" "umbraCenterPointDisplayedChanged",
   QProperty.mk "bool" "apexPointsDisplayed" "getFlagApexPoints" "setFlagApexPoints" "apexPointsDisplayedChanged",
   QProperty.mk "Vec3f" "apexPointsColor" "getColorApexPoints" "setColorApexPoints" "apexPointsColorChanged",
   QProperty.mk "float" "lineThickness" "getLineThickness" "setLineThickness" "lineThicknessChanged",
   QProperty.mk "float" "partThickness" "getPartThickness" "setPartThickness" "partThicknessChanged"]

/-- The `connectBoolProperty(ui->widget, property)` calls of `createDialogContent`, in
order: widget and property name. -/
def connectBoolPropertyCalls : List BoolPropertyBinding :=
  [BoolPropertyBinding.mk "nutationCheckBox" "StelCore.flagUseNutation",
   BoolPropertyBinding.mk "aberrationCheckBox" "StelCore.flagUseAberration",
   BoolPropertyBinding.mk "parallaxCheckBox" "StelCore.flagUseParallax",
   BoolPropertyBinding.mk "topocentricCheckBox" "StelCore.flagUseTopocentricCoordinates",
   BoolPropertyBinding.mk "checkBoxUMSurfaceBrightness" "NebulaMgr.flagSurfaceBrightnessArcsecUsage",
   BoolPropertyBinding.mk "checkBoxUMShortNotationSurfaceBrightness" "NebulaMgr.flagSurfaceBrightnessShortNotationUsage",
   BoolPropertyBinding.mk "checkBoxUseFormattingOutput" "StelApp.flagUseFormattingOutput",
   BoolPropertyBinding.mk "checkBoxUseCCSDesignations" "StelApp.flagUseCCSDesignation",
   BoolPropertyBinding.mk "overwriteTextColorCheckBox" "StelApp.flagOverwriteInfoColor",
   BoolPropertyBinding.mk "enableMouseNavigationCheckBox" "StelMovementMgr.flagEnableMouseNavigation",
   BoolPropertyBinding.mk "enableMouseZoomingCheckBox" "StelMovementMgr.flagEnableMouseZooming",
   BoolPropertyBinding.mk "startupTimeStopCheckBox" "StelCore.startupTimeStop",
   BoolPropertyBinding.mk "gravityLabelCheckbox" "StelCore.flagGravityLabels",
   BoolPropertyBinding.mk "autoZoomResetsDirectionCheckbox" "StelMovementMgr.flagAutoZoomOutResetsDirection",
   BoolPropertyBinding.mk "showQuitButtonCheckBox" "StelGui.flagShowQuitButton",
   BoolPropertyBinding.mk "showFlipButtonsCheckbox" "StelGui.flagShowFlipButtons",
   BoolPropertyBinding.mk "showNebulaBgButtonCheckbox" "StelGui.flagShowNebulaBackgroundButton",
   BoolPropertyBinding.mk "showObsListButtonCheckBox" "StelGui.flagShowObsListButton",
   BoolPropertyBinding.mk "showICRSGridButtonCheckBox" "StelGui.flagShowICRSGridButton",
   BoolPropertyBinding.mk "showGalacticGridButtonCheckBox" "StelGui.flagShowGalacticGridButton",
   BoolPropertyBinding.mk "showEclipticGridButtonCheckBox" "StelGui.flagShowEclipticGridButton",
   BoolPropertyBinding.mk "showHipsButtonCheckBox" "StelGui.flagShowHiPSButton",
   BoolPropertyBinding.mk "showDSSButtonCheckbox" "StelGui.flagShowDSSButton",
   BoolPropertyBinding.mk "showGotoSelectedButtonCheckBox" "StelGui.flagShowGotoSelectedObjectButton",
   BoolPropertyBinding.mk "showNightmodeButtonCheckBox" "StelGui.flagShowNightmodeButton",
   BoolPropertyBinding.mk "showFullscreenButtonCheckBox" "StelGui.flagShowFullscreenButton",
   BoolPropertyBinding.mk "showCardinalButtonCheckBox" "StelGui.flagShowCardinalButton",
   BoolPropertyBinding.mk "showCompassButtonCheckBox" "StelGui.flagShowCompassButton",
   BoolPropertyBinding.mk "showConstellationBoundariesButtonCheckBox" "StelGui.flagShowConstellationBoundariesButton",
   BoolPropertyBinding.mk "showConstellationArtsButtonCheckBox" "StelGui.flagShowConstellationArtsButton",
   BoolPropertyBinding.mk "showAsterismLinesButtonCheckBox" "StelGui.flagShowAsterismLinesButton",
   BoolPropertyBinding.mk "showAsterismLabelsButtonCheckBox" "StelGui.flagShowAsterismLabelsButton",
   BoolPropertyBinding.mk "decimalDegreeCheckBox" "StelApp.flagShowDecimalDegrees",
   BoolPropertyBinding.mk "azimuthFromSouthcheckBox" "StelApp.flagUseAzimuthFromSouth",
   BoolPropertyBinding.mk "mouseTimeoutCheckbox" "MainView.flagCursorTimeout",
   BoolPropertyBinding.mk "useButtonsBackgroundCheckBox" "StelGui.flagUseButtonsBackground",
   BoolPropertyBinding.mk "indicationMountModeCheckBox" "StelMovementMgr.flagIndicationMountMode",
   BoolPropertyBinding.mk "kineticScrollingCheckBox" "StelGui.flagUseKineticScrolling",
   BoolPropertyBinding.mk "focusOnDaySpinnerCheckBox" "StelGui.flagEnableFocusOnDaySpinner",
   BoolPropertyBinding.mk "immediateSaveCheckBox" "StelApp.flagImmediateSave",
   BoolPropertyBinding.mk "invertScreenShotColorsCheckBox" "MainView.flagInvertScreenShotColors",
   BoolPropertyBinding.mk "useCustomScreenshotSizeCheckBox" "MainView.flagUseCustomScreenshotSize"]

/-- `GridLinesMgr::getModuleID()`. -/
def GridLinesMgr.getModuleID : String := "GridLinesMgr"

/-- The `conf->setValue` lines of `storeLanguageSettings`, in order; `langName`
is written out as the expression assigned to it. -/
def storeLanguageSettingsLines : List SetValueLine :=
  [SetValueLine.mk "localization/app_locale" (SettingSource.getter "StelTranslator::nativeNameToIso639_1Code(StelApp::getInstance().getLocaleMgr().getAppLanguage())"),
   SetValueLine.mk "localization/sky_locale" (SettingSource.getter "StelTranslator::nativeNameToIso639_1Code(StelApp::getInstance().getLocaleMgr().getSkyLanguage())")]

/-- `ConfigurationDialog::storeLanguageSettings()`. -/
def storeLanguageSettings (env : SaveEnv) (conf : QSettings) : QSettings :=
  writeLines env storeLanguageSettingsLines conf

/-- `ConfigurationDialog::storeFontSettings()`. -/
def storeFontSettings (env : SaveEnv) (conf : QSettings) : QSettings :=
  writeLines env storeFontSettingsLines conf

/-- The lookup `selectedObjectInfoMap.value(flags, "custom")` of
`saveAllSettings`; of two equal keys in the initialiser the later one counts. -/
def selectedObjectInfoName (e : StelObjectEnum) (flags : Nat) : String :=
  if flags = e.AllInfo then "all"
  else if flags = e.ShortInfo then "short"
  else if flags = e.DefaultInfo then "default"
  else if flags = e.None then "none"
  else "custom"

/-- `ConfigurationDialog::saveAllSettings()`: the settings after the call.
The calls `updateConfigLabels()` and `emit core->configurationDataSaved()` at
the end do not write settings in this file. -/
def saveAllSettings (env : SaveEnv) (conf : QSettings) : QSettings :=
  let conf := writeLines env saveAllSettingsLinesView conf
  -- view dialog / DSO tag settings
  let conf := env.storeCatalogFilters conf
  let conf := conf.beginGroup "dso_type_filters"
  let conf := writeLines env saveAllSettingsLinesDsoTypeFilters conf
  let conf := conf.endGroup
  -- view dialog / landscape tab settings
  let conf := writeLines env saveAllSettingsLinesLandscape conf
  -- view dialog / sky culture tab
  let conf := env.setDefaultSkyCultureID conf
  -- Save default location
  let conf := env.setDefaultLocationID conf
  -- configuration dialog / main tab
  let conf := storeLanguageSettings env conf
  -- configuration dialog / selected object info tab
  let selectedObjectInfo := selectedObjectInfoName env.stelObject env.infoTextFilters
  let conf := conf.setValue "gui/selected_object_info" (.string selectedObjectInfo)
  let conf :=
    if selectedObjectInfo = "custom" then
      writeCustomSelectedInfo env.stelObject env.infoTextFilters conf
    else conf
  -- toolbar auto-hide status, navigation tab, time tab
  let conf := writeLines env saveAllSettingsLinesToolbar conf
  let conf :=
    if (env.getter "mvmgr->getMountMode() == StelMovementMgr::MountAltAzimuthal").toBool then
      conf.setValue "navigation/viewing_mode" (.string "horizon")
    else
      conf.setValue "navigation/viewing_mode" (.string "equator")
  -- configuration dialog / tools tab
  let conf := writeLines env saveAllSettingsLinesTools conf
  let conf := storeFontSettings env conf
  let conf := writeLines env saveAllSettingsLinesScreenshot conf
  let conf := conf.setValue "video/screen_number" (env.getter "screenNum")
  -- full screen and window size
  let conf := conf.setValue "video/fullscreen"
    (env.getter "StelMainView::getInstance().isFullScreen()")
  let conf :=
    if !(env.getter "StelMainView::getInstance().isFullScreen()").toBool then
      writeLines env saveAllSettingsLinesWindow conf
    else conf
  -- clear the restore defaults flag if it is set.
  conf.setValue "main/restore_defaults" (.bool false)

/-- `ConfigurationDialog::setDefaultViewOptions()`: the settings after the
call; `askConfirmation` is the answer that `askConfirmation()` returns. -/
def setDefaultViewOptions (askConfirmation : Bool) (conf : QSettings) : QSettings :=
  if askConfirmation then
    let conf := conf.setValue "main/restore_defaults" (.bool true)
    -- reset all stored panel locations
    let conf := conf.beginGroup "DialogPositions"
    let conf := conf.remove ""
    conf.endGroup
  else conf

/-- Every `conf->setValue` line of `saveAllSettings` and of the helpers it
calls that takes its value from the property manager or from a getter, in the
order of execution (the lines guarded by a condition included). -/
def saveAllSettingsLines : List SetValueLine :=
  saveAllSettingsLinesView ++ saveAllSettingsLinesDsoTypeFilters ++
  saveAllSettingsLinesLandscape ++ storeLanguageSettingsLines ++
  saveAllSettingsLinesToolbar ++ saveAllSettingsLinesTools ++ storeFontSettingsLines ++
  saveAllSettingsLinesScreenshot ++ saveAllSettingsLinesWindow

/-- The property names that `saveAllSettings` hands to
`propMgr->getStelPropertyValue`, with the conversion applied and the key
written, in order. -/
def saveAllSettingsPropertyReads : List (String × Conversion × String) :=
  saveAllSettingsLines.filterMap (fun l =>
    match l.source with
    | .property name conv => some (name, conv, l.key)
    | _ => none)

/-- Whether `saveAllSettings` has a line that stores `property`, converted with
`toBool`, under a key that starts with `keyStart`. -/
def savedAsBool (property keyStart : String) : Bool :=
  saveAllSettingsPropertyReads.any (fun r =>
    r.1 == property && r.2.1 == Conversion.toBool && keyStart.data.isPrefixOf r.2.2.data)

/-- The names of the boolean properties declared by `GridLinesMgr` for which
`saveAllSettings` has no line storing the property under a `viewing/` key. -/
def gridLinesMgrBoolPropertiesNotSaved : List String :=
  (gridLinesMgrProperties.filter (fun p =>
    p.type == "bool" &&
      !savedAsBool (GridLinesMgr.getModuleID ++ "." ++ p.name) "viewing/")).map (·.name)

/-- The `StelGui.flagShow...` properties bound to a check box by
`createDialogContent` for which `saveAllSettings` has no line storing the
property under a `gui/` key. -/
def toolbarButtonPropertiesNotSaved : List String :=
  (connectBoolPropertyCalls.filter (fun b =>
    "StelGui.flagShow".data.isPrefixOf b.property.data &&
      !savedAsBool b.property "gui/")).map (·.property)

/-! ## Star catalog download -/

/-- A text shown by a widget: the message handed to the translator `q_` and the
arguments substituted for its place markers with `arg`. A text that is not
translated has the message itself and no argument. -/
structure UiText where
  msgid : String
  args : List String
  deriving DecidableEq, Repr

/-- One entry of `StarMgr::getCatalogsDescription()`: the fields of the map
that the dialog reads. -/
structure StarCatalog where
  id : String
  fileName : String
  url : String
  sizeMb : QVariant
  count : QVariant
  magRange : List QVariant
  checked : Bool
  deriving DecidableEq, Repr

/-- Whether the class `QNetworkReply` has the signal that a `connect` of the
dialog names. Qt 6 has removed the signal `error(QNetworkReply::NetworkError)`
and reports an error with `errorOccurred(QNetworkReply::NetworkError)`, which
the source asks for under Qt 6 only; `qt6` is
`QT_VERSION>=QT_VERSION_CHECK(6,0,0)`. -/
def QNetworkReply.hasSignal (qt6 : Bool) (signal : String) : Bool :=
  if signal = "error(QNetworkReply::NetworkError)" then !qt6
  else if signal = "errorOccurred(QNetworkReply::NetworkError)" then qt6
  else signal = "readyRead()" || signal = "finished()"

/-- A network reply as the dialog holds it: the URL requested, and whether the
slot `downloadError` is connected to the signal with which the reply reports an
error. The slots `newStarCatalogData` and `downloadFinished` are connected to
`readyRead()` and `finished()` of every reply the dialog creates. -/
structure QNetworkReply where
  url : String
  downloadErrorConnected : Bool
  deriving DecidableEq, Repr

/-- The members of `ConfigurationDialog` and the widget properties that the
star catalog handlers read and write. A pointer is `none` when it is
`Q_NULLPTR`; the map `nextStarCatalogToDownload` is `none` when it is empty. -/
structure StarCatalogControls where
  isDownloadingStarCatalog : Bool
  nextStarCatalogToDownloadIndex : Int
  starCatalogsCount : Int
  hasDownloadedStarCatalog : Bool
  nextStarCatalogToDownload : Option StarCatalog
  starCatalogDownloadReply : Option QNetworkReply
  /-- the file, by its path -/
  currentDownloadFile : Option String
  /-- the progress bar, by its value -/
  progressBar : Option Int
  getStarsButtonVisible : Bool
  getStarsButtonEnabled : Bool
  getStarsButtonText : UiText
  downloadCancelButtonVisible : Bool
  downloadRetryButtonVisible : Bool
  downloadLabel : UiText
  deriving DecidableEq, Repr

/-- What `downloadFinished` learns from the network reply and from `StarMgr`. -/
structure DownloadFinishedEnv where
  /-- `starCatalogDownloadReply->error() != QNetworkReply::NoError` -/
  replyHasError : Bool
  /-- the redirection target attribute of the reply, `none` when it is null -/
  redirect : Option String
  /-- the result of `checkAndLoadCatalog(nextStarCatalogToDownload, true)` -/
  checkAndLoadCatalog : Bool
  /-- `getCatalogsDescription()` when the controls are reset -/
  catalogsDescription : List StarCatalog

/-- The loop of `resetStarCatalogControls`: the counter `idx` after the loop and
the first catalog that is not checked, if any. -/
def firstUncheckedCatalog : List StarCatalog → Int → Int × Option StarCatalog
  | [], idx => (idx, none)
  | m :: rest, idx =>
    if m.checked then firstUncheckedCatalog rest (idx + 1) else (idx + 1, some m)

/-- `nextStarCatalogToDownload.value("id").toString()`. -/
def StarCatalogControls.nextId (s : StarCatalogControls) : String :=
  match s.nextStarCatalogToDownload with
  | some m => m.id
  | none => ""

/-- `ConfigurationDialog::updateStarCatalogControlsText()`. -/
def updateStarCatalogControlsText (qt : QtConversions) (s : StarCatalogControls) :
    StarCatalogControls :=
  match s.nextStarCatalogToDownload with
  | none =>
    if s.hasDownloadedStarCatalog then
      { s with downloadLabel :=
          ⟨"Finished downloading new star catalogs!\nRestart Stellarium to display them.", []⟩ }
    else
      { s with downloadLabel := ⟨"All available star catalogs have been installed.", []⟩ }
  | some m =>
    let s := { s with getStarsButtonText := ⟨"Get catalog %1 of %2",
      [toString s.nextStarCatalogToDownloadIndex, toString s.starCatalogsCount]⟩ }
    if s.isDownloadingStarCatalog then
      { s with downloadLabel := ⟨"Downloading %1...\n(You can close this window.)", [m.id]⟩ }
    else
      { s with downloadLabel :=
          ⟨"Download size: %1MB\nStar count: %2 Million\nMagnitude range: %3 - %4",
           [qt.toString m.sizeMb,
            qt.number (qt.toDouble m.count) 1,
            qt.number (qt.toDouble (m.magRange.head?.getD .invalid)) 2,
            qt.number (qt.toDouble (m.magRange.getLast?.getD .invalid)) 2]⟩ }

/-- `ConfigurationDialog::resetStarCatalogControls()`, with the list returned by
`getCatalogsDescription()`. -/
def resetStarCatalogControls (qt : QtConversions) (catalogConfig : List StarCatalog)
    (s : StarCatalogControls) : StarCatalogControls :=
  let found := firstUncheckedCatalog catalogConfig 0
  let idx := found.1
  let s := { s with nextStarCatalogToDownload := found.2 }
  let s := { s with downloadCancelButtonVisible := false }
  let s := { s with downloadRetryButtonVisible := false }
  if idx > catalogConfig.length ∧ ¬ s.hasDownloadedStarCatalog then
    let s := { s with getStarsButtonVisible := false }
    updateStarCatalogControlsText qt s
  else
    let s := { s with getStarsButtonEnabled := true }
    if s.nextStarCatalogToDownload.isSome then
      let s := { s with nextStarCatalogToDownloadIndex := idx }
      let s := { s with starCatalogsCount := catalogConfig.length }
      let s := updateStarCatalogControlsText qt s
      { s with getStarsButtonVisible := true }
    else
      let s := updateStarCatalogControlsText qt s
      { s with getStarsButtonVisible := false }

/-- The text `q_("Error downloading %1:\nFile is corrupted.").arg(id)`. -/
def fileIsCorruptedText (id : String) : UiText :=
  ⟨"Error downloading %1:\nFile is corrupted.", [id]⟩

/-- `ConfigurationDialog::downloadFinished()`. A `connect` that names a signal
which the reply does not have connects nothing. -/
def downloadFinished (qt : QtConversions) (qt6 : Bool) (env : DownloadFinishedEnv)
    (s : StarCatalogControls) : StarCatalogControls :=
  if env.replyHasError then
    { s with starCatalogDownloadReply := none, currentDownloadFile := none,
             progressBar := none }
  else
    match env.redirect with
    | some target =>
      -- We got a redirection, we need to follow
      let connected := QNetworkReply.hasSignal qt6 "error(QNetworkReply::NetworkError)"
      { s with starCatalogDownloadReply := some ⟨target, connected⟩ }
    | none =>
      let s := { s with isDownloadingStarCatalog := false }
      let s := { s with currentDownloadFile := none }
      let s := { s with starCatalogDownloadReply := none }
      let s := { s with progressBar := none }
      let s := { s with downloadLabel := ⟨"Verifying file integrity...", []⟩ }
      let s :=
        if env.checkAndLoadCatalog = false then
          let s := { s with getStarsButtonVisible := false }
          let s := { s with downloadLabel := fileIsCorruptedText s.nextId }
          let s := { s with downloadCancelButtonVisible := false }
          { s with downloadRetryButtonVisible := true }
        else
          let s := { s with hasDownloadedStarCatalog := true }
          let s := { s with getStarsButtonVisible := true }
          let s := { s with downloadCancelButtonVisible := false }
          { s with downloadRetryButtonVisible := false }
      resetStarCatalogControls qt env.catalogsDescription s

/-- `ConfigurationDialog::cancelDownload()`: the call
`starCatalogDownloadReply->abort()` changes no member and no widget; the reply
reports the abort as an error. -/
def cancelDownload (s : StarCatalogControls) : StarCatalogControls := s

/-- `ConfigurationDialog::newStarCatalogData()`; `redirected` tells whether
the redirection target attribute of the reply is not null, `size` is
`starCatalogDownloadReply->bytesAvailable()`. -/
def newStarCatalogData (redirected : Bool) (size : Nat) (s : StarCatalogControls) :
    StarCatalogControls :=
  -- Ignore data from redirection.
  if redirected then s
  else { s with progressBar := s.progressBar.map (fun value => value + ((size / 1024 : Nat) : Int)) }

/-- The text `q_("Error downloading %1:\n%2").arg(id, message)`. -/
def errorDownloadingText (id message : String) : UiText :=
  ⟨"Error downloading %1:\n%2", [id, message]⟩

/-- `ConfigurationDialog::downloadStars()`; `userDir` is
`StelFileMgr::getUserDir()`, `fileOpens` the result of
`currentDownloadFile->open(QIODevice::WriteOnly)`. -/
def downloadStars (qt : QtConversions) (qt6 : Bool) (userDir : String) (fileOpens : Bool)
    (s : StarCatalogControls) : StarCatalogControls :=
  let path := userDir ++ "/stars/hip_gaia3/" ++
    (match s.nextStarCatalogToDownload with | some m => m.fileName | none => "")
  let s := { s with currentDownloadFile := some path }
  if !fileOpens then
    let s := { s with currentDownloadFile := none }
    let message := "Can't open a writable file for storing new star catalog: " ++ path
    let s := { s with downloadLabel := errorDownloadingText s.nextId message }
    { s with downloadRetryButtonVisible := true }
  else
    let s := { s with isDownloadingStarCatalog := true }
    let s := updateStarCatalogControlsText qt s
    let s := { s with downloadCancelButtonVisible := true }
    let s := { s with downloadRetryButtonVisible := false }
    let s := { s with getStarsButtonVisible := true }
    let s := { s with getStarsButtonEnabled := false }
    let url := match s.nextStarCatalogToDownload with | some m => m.url | none => ""
    let connected :=
      if qt6 then QNetworkReply.hasSignal qt6 "errorOccurred(QNetworkReply::NetworkError)"
      else QNetworkReply.hasSignal qt6 "error(QNetworkReply::NetworkError)"
    let s := { s with starCatalogDownloadReply := some ⟨url, connected⟩ }
    { s with progressBar := some 0 }

/-- `ConfigurationDialog::downloadError(QNetworkReply::NetworkError)`;
`errorString` is `starCatalogDownloadReply->errorString()`. -/
def downloadError (errorString : String) (s : StarCatalogControls) : StarCatalogControls :=
  let s := { s with isDownloadingStarCatalog := false }
  let s := { s with downloadLabel := errorDownloadingText s.nextId errorString }
  let s := { s with downloadCancelButtonVisible := false }
  let s := { s with downloadRetryButtonVisible := true }
  let s := { s with getStarsButtonVisible := false }
  { s with getStarsButtonEnabled := true }

/-- The handlers of the star catalog download. -/
inductive DownloadHandler
  | cancelDownload
  | newStarCatalogData
  | downloadStars
  | downloadError
  | downloadFinished
  deriving DecidableEq, Repr

/-- The `Q_ASSERT` lines at the head of a handler: whether all of them hold in
the state in which the handler is entered. -/
def DownloadHandler.asserts : DownloadHandler → StarCatalogControls → Bool
  | .cancelDownload, s =>
    s.currentDownloadFile.isSome && s.starCatalogDownloadReply.isSome
  | .newStarCatalogData, s =>
    s.currentDownloadFile.isSome && s.starCatalogDownloadReply.isSome && s.progressBar.isSome
  | .downloadStars, s =>
    s.nextStarCatalogToDownload.isSome && !s.isDownloadingStarCatalog &&
      s.starCatalogDownloadReply.isNone && s.currentDownloadFile.isNone &&
      s.progressBar.isNone
  | .downloadError, s =>
    s.currentDownloadFile.isSome && s.starCatalogDownloadReply.isSome
  | .downloadFinished, s =>
    s.currentDownloadFile.isSome && s.starCatalogDownloadReply.isSome && s.progressBar.isSome

/-- What happens to the dialog during a download: a click on one of the three
buttons, or a signal of the reply. A reply that fails reports the error and
then finishes; `finished` stands for a reply that finishes without error. Each
event carries what the handlers learn from the environment. -/
inductive DownloadEvent
  | getStarsClicked (userDir : String) (fileOpens : Bool)
  | retryClicked (userDir : String) (fileOpens : Bool)
  | cancelClicked
  | readyRead (redirected : Bool) (size : Nat)
  | finished (redirect : Option String) (checkAndLoadCatalog : Bool)
      (catalogsDescription : List StarCatalog)
  | error (errorString : String)

/-- Whether the event can happen in a state: a button is clicked only when it
is visible, and the button that starts the download only when it is enabled; a
signal of the reply needs a reply. A reply finishes with a redirection target
only when redirections are left to the caller: `manualRedirects` tells whether
the network access manager does so. That is the default of Qt 5; Qt 6 follows a
redirection inside the reply unless the manual policy is asked for, which no
request of the dialog does. -/
def DownloadEvent.enabled (manualRedirects : Bool) (s : StarCatalogControls) :
    DownloadEvent → Bool
  | .getStarsClicked _ _ => s.getStarsButtonVisible && s.getStarsButtonEnabled
  | .retryClicked _ _ => s.downloadRetryButtonVisible
  | .cancelClicked => s.downloadCancelButtonVisible
  | .readyRead _ _ => s.starCatalogDownloadReply.isSome
  | .finished redirect _ _ =>
    s.starCatalogDownloadReply.isSome && (redirect.isNone || manualRedirects)
  | .error _ => s.starCatalogDownloadReply.isSome

/-- The handlers that an event runs, in order, as the `connect` lines of
`createDialogContent`, `downloadStars` and `downloadFinished` set them up. An
error of the reply runs `downloadError` when that slot is connected, and then
`downloadFinished`, which finds the error in the reply. -/
def DownloadEvent.handlers (qt : QtConversions) (qt6 : Bool) (s : StarCatalogControls) :
    DownloadEvent → List (DownloadHandler × (StarCatalogControls → StarCatalogControls))
  | .getStarsClicked userDir fileOpens =>
    [(.downloadStars, downloadStars qt qt6 userDir fileOpens)]
  | .retryClicked userDir fileOpens =>
    [(.downloadStars, downloadStars qt qt6 userDir fileOpens)]
  | .cancelClicked => [(.cancelDownload, cancelDownload)]
  | .readyRead redirected size => [(.newStarCatalogData, newStarCatalogData redirected size)]
  | .finished redirect check catalogs =>
    [(.downloadFinished, downloadFinished qt qt6 ⟨false, redirect, check, catalogs⟩)]
  | .error errorString =>
    let connected := match s.starCatalogDownloadReply with
      | some r => r.downloadErrorConnected
      | none => false
    (if connected then [(DownloadHandler.downloadError, downloadError errorString)] else []) ++
      [(.downloadFinished, downloadFinished qt qt6 ⟨true, none, false, []⟩)]

/-- Runs handlers in order; the result is the handler whose assertions do not
hold on entry, if there is one, and the state after the last handler
otherwise. -/
def runHandlers :
    List (DownloadHandler × (StarCatalogControls → StarCatalogControls)) →
    StarCatalogControls → Except DownloadHandler StarCatalogControls
  | [], s => .ok s
  | (h, body) :: rest, s => if h.asserts s then runHandlers rest (body s) else .error h

/-- The handlers of an event, run from state `s`. -/
def DownloadEvent.handle (qt : QtConversions) (qt6 : Bool) (s : StarCatalogControls)
    (ev : DownloadEvent) : Except DownloadHandler StarCatalogControls :=
  runHandlers (ev.handlers qt qt6 s) s

/-- The star catalog members and widgets when `createDialogContent` has run:
the members as the constructor initialises them, the widget properties as the
form `ui` sets them up, and then `resetStarCatalogControls()`. -/
def initialStarCatalogControls (qt : QtConversions) (catalogs : List StarCatalog)
    (ui : StarCatalogControls) : StarCatalogControls :=
  resetStarCatalogControls qt catalogs
    { ui with isDownloadingStarCatalog := false, nextStarCatalogToDownloadIndex := 0,
              starCatalogsCount := 0, hasDownloadedStarCatalog := false,
              nextStarCatalogToDownload := none, starCatalogDownloadReply := none,
              currentDownloadFile := none, progressBar := none }

/-- The states that the dialog reaches from its initial state by events that
can happen and whose handlers run without a failing assertion. -/
inductive DownloadReachable (qt : QtConversions) (qt6 manualRedirects : Bool) :
    StarCatalogControls → Prop
  | init (catalogs : List StarCatalog) (ui : StarCatalogControls) :
    DownloadReachable qt qt6 manualRedirects (initialStarCatalogControls qt catalogs ui)
  | step (s s' : StarCatalogControls) (ev : DownloadEvent) :
    DownloadReachable qt qt6 manualRedirects s → ev.enabled manualRedirects s = true →
    ev.handle qt qt6 s = .ok s' → DownloadReachable qt qt6 manualRedirects s'

/-- No download is running: the flag is off, the three pointers are null and
the cancel button is hidden; and when a button that starts a download can be
clicked, there is a catalog to download. -/
def downloadIdle (s : StarCatalogControls) : Bool :=
  !s.isDownloadingStarCatalog && s.starCatalogDownloadReply.isNone &&
    s.currentDownloadFile.isNone && s.progressBar.isNone &&
    !s.downloadCancelButtonVisible &&
    (!(s.getStarsButtonVisible && s.getStarsButtonEnabled || s.downloadRetryButtonVisible) ||
      s.nextStarCatalogToDownload.isSome)

/-- A download is running: the three pointers are set, there is a catalog to
download, no button that starts a download can be clicked, and the slot
`downloadError` is connected to the reply. -/
def downloadActive (s : StarCatalogControls) : Bool :=
  s.starCatalogDownloadReply.isSome && s.currentDownloadFile.isSome && s.progressBar.isSome &&
    s.nextStarCatalogToDownload.isSome && !s.downloadRetryButtonVisible &&
    !s.getStarsButtonEnabled &&
    (match s.starCatalogDownloadReply with
      | some r => r.downloadErrorConnected
      | none => false)

/-! ## Plug-in list -/

/-- The fields of `StelModuleMgr::PluginDescriptor` that `populatePluginsList`
reads: `info.id` and `info.displayedName`. -/
structure PluginDescriptor where
  id : String
  displayedName : String
  deriving DecidableEq, Repr

/-- A `QListWidgetItem`: its label and its `Qt::UserRole` data as a string. -/
structure QListWidgetItem where
  text : String
  data : String
  deriving DecidableEq, Repr

/-- A `QListWidget`: its items by row and its current row (`-1` when no item
is current). -/
structure QListWidget where
  items : List QListWidgetItem
  currentRow : Int
  deriving DecidableEq, Repr

/-- `QListWidget::currentItem()`. -/
def QListWidget.currentItem (w : QListWidget) : Option QListWidgetItem :=
  if 0 ≤ w.currentRow then w.items[w.currentRow.toNat]? else none

/-- Lexicographic comparison of two character sequences by character code. -/
def lessThanChars : List Char → List Char → Bool
  | _, [] => false
  | [], _ :: _ => true
  | a :: as, b :: bs =>
    if a.toNat < b.toNat then true
    else if b.toNat < a.toNat then false
    else lessThanChars as bs

/-- The comparison of two labels by character code. -/
def QString.lessThan (a b : String) : Bool := lessThanChars a.data b.data

/-- The order of `sortByCharCode`: `a` may stand before `b` when the label of
`b` is not less than the label of `a`. -/
def QListWidgetItem.le (a b : QListWidgetItem) : Prop := QString.lessThan b.text a.text = false

instance : DecidableRel QListWidgetItem.le :=
  fun a b => inferInstanceAs (Decidable (QString.lessThan b.text a.text = false))

/-- One order in which `sortItems` can leave the items: by label, labels
compared by character code, items with equal labels in the order they had. It
is used at concrete inputs only. -/
def sortByCharCode (items : List QListWidgetItem) : List QListWidgetItem :=
  items.insertionSort QListWidgetItem.le

/-- `QListWidget::sortItems(Qt::AscendingOrder)`. The order that Qt gives the
items depends on the collation in use (`QListWidgetItem::operator<` compares
the labels with it) and, for labels that compare equal, on the sorting
algorithm; `sort` is the rearrangement made. -/
def QListWidget.sortItems (sort : List QListWidgetItem → List QListWidgetItem)
    (w : QListWidget) : QListWidget :=
  { w with items := sort w.items }

/-- The row of `findItems(text, Qt::MatchExactly).at(0)`: the first row whose
label is `text`. -/
def firstRowWithText (text : String) : List QListWidgetItem → Option Nat
  | [] => none
  | it :: rest =>
    if it.text = text then some 0 else (firstRowWithText text rest).map (· + 1)

/-- `QListWidget::setCurrentRow(row)`: a row without item leaves no item
current. -/
def QListWidget.setCurrentRow (w : QListWidget) (row : Nat) : QListWidget :=
  { w with currentRow := if row < w.items.length then (row : Int) else -1 }

/-- The loop of `populatePluginsList`: for each descriptor an item is added,
and `selectedPluginName` becomes the label when the id is the one selected
before. The result is the widget and `selectedPluginName`. -/
def addPluginItems (q_ : String → String) (currentRow : Int) (selectedPluginId : String) :
    List PluginDescriptor → QListWidget × String → QListWidget × String
  | [], acc => acc
  | desc :: rest, (plugins, selectedPluginName) =>
    let label := q_ desc.displayedName
    let item : QListWidgetItem := ⟨label, desc.id⟩
    let plugins := { plugins with items := plugins.items ++ [item] }
    let selectedPluginName :=
      if currentRow > 0 ∧ item.data = selectedPluginId then label else selectedPluginName
    addPluginItems q_ currentRow selectedPluginId rest (plugins, selectedPluginName)

/-- `ConfigurationDialog::populatePluginsList()`: `q_` is the translator, `sort`
the rearrangement that `sortItems` makes, and `pluginsList` the result of
`getPluginsList()`. -/
def populatePluginsList (q_ : String → String)
    (sort : List QListWidgetItem → List QListWidgetItem)
    (pluginsList : List PluginDescriptor) (plugins : QListWidget) : QListWidget :=
  let currentRow := plugins.currentRow
  let selectedPluginId :=
    if currentRow > 0 then
      match plugins.currentItem with
      | some item => item.data
      | none => ""
    else ""
  -- plugins->clear()
  let plugins : QListWidget := ⟨[], -1⟩
  let added := addPluginItems q_ currentRow selectedPluginId pluginsList (plugins, "")
  let plugins := added.1
  let selectedPluginName := added.2
  let plugins := plugins.sortItems sort
  -- If we had a valid previous selection (i.e. not first time we populate), restore it
  if selectedPluginName ≠ "" then
    match firstRowWithText selectedPluginName plugins.items with
    | some row => { plugins with currentRow := row }
    | none => plugins
  else
    plugins.setCurrentRow 0

/-- A plug-in list widget with two items, the second one current. -/
def samplePluginsWidget : QListWidget :=
  ⟨[⟨"Alpha", "a"⟩, ⟨"Beta", "b"⟩], 1⟩

/-- A plug-in list in which two plug-ins with different ids have the same
displayed name. -/
def samplePluginsSameName : List PluginDescriptor :=
  [⟨"a", "Alpha"⟩, ⟨"c", "Beta"⟩, ⟨"b", "Beta"⟩]

/-- A plug-in list whose first plug-in is displayed under another name than in
`samplePluginsWidget` (as after a change of language). -/
def samplePluginsRenamed : List PluginDescriptor :=
  [⟨"a", "Zeta"⟩, ⟨"b", "Beta"⟩]

/-! ## Combo boxes of formats and algorithms -/

/-- A `QComboBox`: the text and the user data (`Qt::UserRole`) of each entry,
and the current index (`-1` when no entry is current). -/
structure QComboBox where
  items : List (String × QVariant)
  currentIndex : Int
  deriving DecidableEq, Repr

/-- `QComboBox::itemData(index)`: an invalid `QVariant` when there is no such
entry. -/
def QComboBox.itemData (c : QComboBox) (index : Int) : QVariant :=
  if 0 ≤ index then
    match c.items[index.toNat]? with
    | some it => it.2
    | none => .invalid
  else .invalid

/-- The first position of a list whose entry has the user data `data`. -/
def findDataFrom (data : QVariant) : List (String × QVariant) → Option Nat
  | [] => none
  | it :: rest => if it.2 = data then some 0 else (findDataFrom data rest).map (· + 1)

/-- `QComboBox::findData(data, Qt::UserRole, Qt::MatchCaseSensitive)`: the flags
passed select the exact comparison of the `QVariant`s; `-1` when no entry
matches. -/
def QComboBox.findData (c : QComboBox) (data : QVariant) : Int :=
  match findDataFrom data c.items with
  | some i => (i : Int)
  | none => -1

/-- `QComboBox::clear()`. -/
def QComboBox.clear (_c : QComboBox) : QComboBox := ⟨[], -1⟩

/-- `QComboBox::addItem(text, userData)`: the entry is appended. (Qt makes the
first entry of an empty box current; each function below sets the current
index itself after the last `addItem`.) -/
def QComboBox.addItem (c : QComboBox) (text : String) (userData : QVariant) : QComboBox :=
  { c with items := c.items ++ [(text, userData)] }

/-- `QComboBox::setCurrentIndex(index)`: an index without entry leaves no entry
current. -/
def QComboBox.setCurrentIndex (c : QComboBox) (index : Int) : QComboBox :=
  { c with currentIndex := if 0 ≤ index ∧ index < c.items.length then index else -1 }

/-- `QString::arg(a)` for a text with the single place marker `%1`. -/
def QString.arg (s a : String) : String := s.replace "%1" a

/-- The `addItem` calls of `populateDateFormatsList`, in order: the text and the
user data of each entry; `q_` is the translator. -/
def dateFormatsListItems (q_ : String → String) : List (String × QVariant) :=
  [(q_ "System default", QVariant.string "system_default"),
   (q_ "yyyy-mm-dd (ISO 8601)", QVariant.string "yyyymmdd"),
   (q_ "dd-mm-yyyy", QVariant.string "ddmmyyyy"),
   (q_ "mm-dd-yyyy", QVariant.string "mmddyyyy"),
   (q_ "ww, yyyy-mm-dd", QVariant.string "wwyyyymmdd"),
   (q_ "ww, dd-mm-yyyy", QVariant.string "wwddmmyyyy"),
   (q_ "ww, mm-dd-yyyy", QVariant.string "wwmmddyyyy")]

/-- `ConfigurationDialog::populateDateFormatsList()`. -/
def populateDateFormatsList (q_ : String → String) (dfmts : QComboBox) : QComboBox :=
  -- Save the current selection to be restored later
  let index := dfmts.currentIndex
  let selectedDateFormat := dfmts.itemData index
  let dfmts := dfmts.clear
  let dfmts := (dateFormatsListItems q_).foldl (fun c it => c.addItem it.1 it.2) dfmts
  -- Restore the selection
  let index := dfmts.findData selectedDateFormat
  dfmts.setCurrentIndex index

/-- The `addItem` calls of `populateTimeFormatsList`, in order. -/
def timeFormatsListItems (q_ : String → String) : List (String × QVariant) :=
  [(q_ "System default", QVariant.string "system_default"),
   (q_ "12-hour format", QVariant.string "12h"),
   (q_ "24-hour format", QVariant.string "24h")]

/-- `ConfigurationDialog::populateTimeFormatsList()`. -/
def populateTimeFormatsList (q_ : String → String) (tfmts : QComboBox) : QComboBox :=
  -- Save the current selection to be restored later
  let index := tfmts.currentIndex
  let selectedTimeFormat := tfmts.itemData index
  let tfmts := tfmts.clear
  let tfmts := (timeFormatsListItems q_).foldl (fun c it => c.addItem it.1 it.2) tfmts
  -- Restore the selection
  let index := tfmts.findData selectedTimeFormat
  tfmts.setCurrentIndex index

/-- The `addItem` calls of `populateDeltaTAlgorithmsList`, in order; `ndebug`
tells whether `NDEBUG` is defined, in which case the entry between `#ifndef
NDEBUG` and `#endif` is left out. -/
def deltaTAlgorithmsListItems (q_ : String → String) (ndebug : Bool) :
    List (String × QVariant) :=
  [(q_ "Without correction", QVariant.string "WithoutCorrection"),
   (q_ "Schoch (1931)", QVariant.string "Schoch"),
   (q_ "Clemence (1948)", QVariant.string "Clemence"),
   (q_ "IAU (1952)", QVariant.string "IAU"),
   (q_ "Astronomical Ephemeris (1960)", QVariant.string "AstronomicalEphemeris"),
   (q_ "Tuckerman (1962, 1964) & Goldstine (1973)", QVariant.string "TuckermanGoldstine"),
   (q_ "Muller & Stephenson (1975)", QVariant.string "MullerStephenson"),
   (q_ "Stephenson (1978)", QVariant.string "Stephenson1978"),
   (q_ "Schmadel & Zech (1979)", QVariant.string "SchmadelZech1979"),
   (q_ "Morrison & Stephenson (1982)", QVariant.string "MorrisonStephenson1982"),
   (q_ "Stephenson & Morrison (1984)", QVariant.string "StephensonMorrison1984"),
   (q_ "Stephenson & Houlden (1986)", QVariant.string "StephensonHoulden"),
   (q_ "Espenak (1987, 1989)", QVariant.string "Espenak"),
   (q_ "Borkowski (1988)", QVariant.string "Borkowski"),
   (q_ "Schmadel & Zech (1988)", QVariant.string "SchmadelZech1988"),
   (q_ "Chapront-Touze & Chapront (1991)", QVariant.string "ChaprontTouze"),
   (q_ "Stephenson & Morrison (1995)", QVariant.string "StephensonMorrison1995"),
   (q_ "Stephenson (1997)", QVariant.string "Stephenson1997"),
   (q_ "Meeus (1998) (with Chapront, Chapront-Touze & Francou (1997))", QVariant.string "ChaprontMeeus"),
   (q_ "JPL Horizons", QVariant.string "JPLHorizons"),
   (q_ "Meeus & Simons (2000)", QVariant.string "MeeusSimons"),
   (q_ "Montenbruck & Pfleger (2000)", QVariant.string "MontenbruckPfleger"),
   (q_ "Reingold & Dershowitz (2002, 2007, 2018)", QVariant.string "ReingoldDershowitz"),
   (q_ "Morrison & Stephenson (2004, 2005)", QVariant.string "MorrisonStephenson2004"),
   (q_ "Espenak & Meeus (2006, 2014)", QVariant.string "EspenakMeeus")] ++
  (if ndebug then [] else
  [(q_ "Espenak & Meeus (2006, 2014) no extra moon acceleration", QVariant.string "EspenakMeeusZeroMoonAccel")]) ++
  [(q_ "Modified Espenak & Meeus (2006, 2014, 2023)" ++ " *", QVariant.string "EspenakMeeusModified"),
   (q_ "Reijs (2006)", QVariant.string "Reijs"),
   (q_ "Banjevic (2006)", QVariant.string "Banjevic"),
   (q_ "Islam, Sadiq & Qureshi (2008, 2013)", QVariant.string "IslamSadiqQureshi"),
   (q_ "Khalid, Sultana & Zaidi (2014)", QVariant.string "KhalidSultanaZaidi"),
   (q_ "Stephenson, Morrison & Hohenkerk (2016, 2021)", QVariant.string "StephensonMorrisonHohenkerk2016"),
   (q_ "Henriksson (2017)", QVariant.string "Henriksson2017"),
   (QString.arg (q_ "Custom equation of %1T") "Δ", QVariant.string "Custom")]

/-- `ConfigurationDialog::populateDeltaTAlgorithmsList()`, as far as the combo
box goes. -/
def populateDeltaTAlgorithmsList (q_ : String → String) (ndebug : Bool)
    (algorithms : QComboBox) : QComboBox :=
  -- Save the current selection to be restored later
  let index := algorithms.currentIndex
  let selectedAlgorithmId := algorithms.itemData index
  let algorithms := algorithms.clear
  let algorithms :=
    (deltaTAlgorithmsListItems q_ ndebug).foldl (fun c it => c.addItem it.1 it.2) algorithms
  -- Restore the selection
  let index := algorithms.findData selectedAlgorithmId
  algorithms.setCurrentIndex index

/-- The index that `createDialogContent` computes for a combo box after it was
populated: `findData(stored)`, and `findData(fallback)` when that is `-1`. -/
def startIndex (c : QComboBox) (stored fallback : String) : Int :=
  let idx := c.findData (.string stored)
  if idx = -1 then c.findData (.string fallback) else idx

/-- The lines of `createDialogContent` that fill `dateFormatsComboBox` and set
its current index; `stored` is `localeManager.getDateFormatStr()`. -/
def createDateFormatsComboBox (q_ : String → String) (stored : String)
    (dateFormatsComboBox : QComboBox) : QComboBox :=
  let c := populateDateFormatsList q_ dateFormatsComboBox
  -- Use system_default as default
  c.setCurrentIndex (startIndex c stored "system_default")

/-- The lines of `createDialogContent` that fill `timeFormatsComboBox` and set
its current index; `stored` is `localeManager.getTimeFormatStr()`. -/
def createTimeFormatsComboBox (q_ : String → String) (stored : String)
    (timeFormatsComboBox : QComboBox) : QComboBox :=
  let c := populateTimeFormatsList q_ timeFormatsComboBox
  -- Use system_default as default
  c.setCurrentIndex (startIndex c stored "system_default")

/-- The lines of `createDialogContent` that fill `deltaTAlgorithmComboBox` and
set its current index; `stored` is `core->getCurrentDeltaTAlgorithmKey()`. -/
def createDeltaTAlgorithmComboBox (q_ : String → String) (ndebug : Bool) (stored : String)
    (deltaTAlgorithmComboBox : QComboBox) : QComboBox :=
  let c := populateDeltaTAlgorithmsList q_ ndebug deltaTAlgorithmComboBox
  -- Use Modified Espenak & Meeus (2006) as default
  c.setCurrentIndex (startIndex c stored "EspenakMeeusModified")

/-! ## Screenshot directory -/

/-- `QString::right(n)`: the last `n` characters. -/
def QString.right (s : String) (n : Nat) : String := ⟨s.data.drop (s.data.length - n)⟩

/-- `QString::left(n)`: the first `n` characters, the whole string when `n` is
negative or not less than the length. -/
def QString.left (s : String) (n : Int) : String :=
  if n < 0 ∨ n ≥ s.data.length then s else ⟨s.data.take n.toNat⟩

/-- What the screenshot directory handlers read and write. -/
structure ScreenshotDirControls where
  /-- `ui->screenshotDirEdit->text()` -/
  screenshotDirEdit : String
  /-- `StelFileMgr::getScreenshotDir()` -/
  screenshotDir : String
  deriving DecidableEq, Repr

/-- `ConfigurationDialog::selectScreenshotDir()`. The function
`StelFileMgr::setScreenshotDir` is not among the sources: `setScreenshotDir dir`
is the directory it installs, or `none` when it throws. -/
def selectScreenshotDir (setScreenshotDir : String → Option String)
    (s : ScreenshotDirControls) : ScreenshotDirControls :=
  let dir := s.screenshotDirEdit
  match setScreenshotDir dir with
  | some installed => { s with screenshotDir := installed }
  | none => s

/-- `ConfigurationDialog::browseForScreenshotDir()`; `chosen` is the string
returned by `QFileDialog::getExistingDirectory`. -/
def browseForScreenshotDir (setScreenshotDir : String → Option String) (chosen : String)
    (s : ScreenshotDirControls) : ScreenshotDirControls :=
  let newScreenshotDir := chosen
  if newScreenshotDir.data ≠ [] then
    -- remove trailing slash
    let newScreenshotDir :=
      if QString.right newScreenshotDir 1 = "/" then
        QString.left newScreenshotDir ((newScreenshotDir.data.length : Int) - 1)
      else newScreenshotDir
    let s := { s with screenshotDirEdit := newScreenshotDir }
    selectScreenshotDir setScreenshotDir s
  else s

/-! ## SkyLine -/

/-- The enumeration `SkyLine::SKY_LINE_TYPE`. -/
inductive SKY_LINE_TYPE
  | EQUATOR_J2000
  | EQUATOR_OF_DATE
  | FIXED_EQUATOR
  | ECLIPTIC_J2000
  | ECLIPTIC_OF_DATE
  | ECLIPTIC_WITH_DATE
  | PRECESSIONCIRCLE_N
  | PRECESSIONCIRCLE_S
  | MERIDIAN
  | HORIZON
  | GALACTICEQUATOR
  | SUPERGALACTICEQUATOR
  | LONGITUDE
  | QUADRATURE
  | PRIME_VERTICAL
  | CURRENT_VERTICAL
  | COLURE_1
  | COLURE_2
  | CIRCUMPOLARCIRCLE_N
  | CIRCUMPOLARCIRCLE_S
  | INVARIABLEPLANE
  | SOLAR_EQUATOR
  | EARTH_UMBRA
  | EARTH_PENUMBRA
  | ECLIPTIC_CULTURAL
  | EQUATORIAL_CULTURAL
  deriving DecidableEq, Repr

/-- The class `Vec3f`: three components of the type that stands for `float`. -/
structure Vec3f (float : Type) where
  v0 : float
  v1 : float
  v2 : float
  deriving DecidableEq, Repr

/-- The members of a `SkyLine` object, over the types that stand for `float`
and `double`. The members `frameType`, `fader` and `font`, whose classes are
declared in other files, are left out: the accessors embedded below do not
touch them. -/
structure SkyLine (float double : Type) where
  line_type : SKY_LINE_TYPE
  color : Vec3f float
  label : String
  lineThickness : float
  partThickness : float
  showPartitions : Bool
  showLabel : Bool
  culturalPartitions : List (List double)
  culturalOffset : double

section SkyLineAccessors
variable {float double : Type}

/-- `SkyLine::setColor(c)`. -/
def SkyLine.setColor (l : SkyLine float double) (c : Vec3f float) : SkyLine float double :=
  { l with color := c }

/-- `SkyLine::setPartitions(visible)`. -/
def SkyLine.setPartitions (l : SkyLine float double) (visible : Bool) : SkyLine float double :=
  { l with showPartitions := visible }

/-- `SkyLine::showsPartitions()`. -/
def SkyLine.showsPartitions (l : SkyLine float double) : Bool := l.showPartitions

/-- `SkyLine::getColor()`. -/
def SkyLine.getColor (l : SkyLine float double) : Vec3f float := l.color

/-- `SkyLine::setLabeled(displayed)`. -/
def SkyLine.setLabeled (l : SkyLine float double) (displayed : Bool) : SkyLine float double :=
  { l with showLabel := displayed }

/-- `SkyLine::isLabeled()`. -/
def SkyLine.isLabeled (l : SkyLine float double) : Bool := l.showLabel

/-- `SkyLine::setLineThickness(thickness)`. -/
def SkyLine.setLineThickness (l : SkyLine float double) (thickness : float) :
    SkyLine float double :=
  { l with lineThickness := thickness }

/-- `SkyLine::getLineThickness()`. -/
def SkyLine.getLineThickness (l : SkyLine float double) : float := l.lineThickness

/-- `SkyLine::setPartThickness(thickness)`. -/
def SkyLine.setPartThickness (l : SkyLine float double) (thickness : float) :
    SkyLine float double :=
  { l with partThickness := thickness }

/-- `SkyLine::getPartThickness()`. -/
def SkyLine.getPartThickness (l : SkyLine float double) : float := l.partThickness

/-- `SkyLine::setCulturalPartitions(cParts)`. -/
def SkyLine.setCulturalPartitions (l : SkyLine float double) (cParts : List (List double)) :
    SkyLine float double :=
  { l with culturalPartitions := cParts }

/-- `SkyLine::setCulturalOffset(offset)`. -/
def SkyLine.setCulturalOffset (l : SkyLine float double) (offset : double) :
    SkyLine float double :=
  { l with culturalOffset := offset }

end SkyLineAccessors

/-! ## Theorems -/

theorem qBound_mem (lo v hi : Int) (h : lo ≤ hi) :
    lo ≤ qBound lo v hi ∧ qBound lo v hi ≤ hi := by
  unfold qBound qMax qMin
  split_ifs <;> constructor <;> omega

theorem digitChar_lt_ten (k : Nat) (hk : k < 10) :
    (Nat.digitChar k).isDigit = true ∧ (Nat.digitChar k).toNat - '0'.toNat = k ∧
    isSpaceChar (Nat.digitChar k) = false ∧ Nat.digitChar k ≠ '-' ∧ Nat.digitChar k ≠ '+' := by
  interval_cases k <;> decide

/-- The digits produced by `Nat.toDigits 10`: a non-empty run of decimal digits
whose value is the number. -/
theorem toDigitsCore_spec (fuel n : Nat) (ds : List Char) (h : n < fuel) :
    ∃ pre : List Char, Nat.toDigitsCore 10 fuel n ds = pre ++ ds ∧ pre ≠ [] ∧
      (∀ c ∈ pre, c.isDigit = true ∧ isSpaceChar c = false ∧ c ≠ '-' ∧ c ≠ '+') ∧
      pre.foldl (fun acc c => 10 * acc + (c.toNat - '0'.toNat)) 0 = n := by
  induction fuel generalizing n ds with
  | zero => omega
  | succ fuel ih =>
    have hd := digitChar_lt_ten (n % 10) (Nat.mod_lt _ (by decide))
    unfold Nat.toDigitsCore
    simp only
    by_cases h0 : n / 10 = 0
    · rw [if_pos h0]
      refine ⟨[Nat.digitChar (n % 10)], rfl, by simp, ?_, ?_⟩
      · intro c hc
        rw [List.mem_singleton] at hc
        subst hc
        exact ⟨hd.1, hd.2.2.1, hd.2.2.2.1, hd.2.2.2.2⟩
      · simp only [List.foldl_cons, List.foldl_nil, Nat.mul_zero, Nat.zero_add]
        rw [hd.2.1]
        omega
    · rw [if_neg h0]
      have hlt : n / 10 < fuel := by omega
      obtain ⟨pre, hpre, hne, hall, hval⟩ := ih (n / 10) (Nat.digitChar (n % 10) :: ds) hlt
      refine ⟨pre ++ [Nat.digitChar (n % 10)], ?_, by simp, ?_, ?_⟩
      · rw [hpre]; simp
      · intro c hc
        rcases List.mem_append.1 hc with hc | hc
        · exact hall c hc
        · rw [List.mem_singleton] at hc
          subst hc
          exact ⟨hd.1, hd.2.2.1, hd.2.2.2.1, hd.2.2.2.2⟩
      · rw [List.foldl_append, hval]
        simp only [List.foldl_cons, List.foldl_nil]
        rw [hd.2.1]
        omega

theorem toDigits_spec (n : Nat) :
    Nat.toDigits 10 n ≠ [] ∧
    (∀ c ∈ Nat.toDigits 10 n, c.isDigit = true ∧ isSpaceChar c = false ∧ c ≠ '-' ∧ c ≠ '+') ∧
    (Nat.toDigits 10 n).foldl (fun acc c => 10 * acc + (c.toNat - '0'.toNat)) 0 = n := by
  obtain ⟨pre, hpre, hne, hall, hval⟩ := toDigitsCore_spec (n + 1) n [] (Nat.lt_succ_self n)
  unfold Nat.toDigits
  rw [hpre, List.append_nil]
  exact ⟨hne, hall, hval⟩

theorem dropWhile_of_head_false (p : Char → Bool) (c : Char) (cs : List Char)
    (h : p c = false) : (c :: cs).dropWhile p = c :: cs := by
  simp [List.dropWhile, h]

theorem trim_no_space (l : List Char) (hne : l ≠ [])
    (hfirst : ∀ c, l.head? = some c → isSpaceChar c = false)
    (hlast : ∀ c, l.getLast? = some c → isSpaceChar c = false) :
    ((l.dropWhile isSpaceChar).reverse.dropWhile isSpaceChar).reverse = l := by
  cases l with
  | nil => exact absurd rfl hne
  | cons c cs =>
    rw [dropWhile_of_head_false _ _ _ (hfirst c rfl)]
    cases hr : (c :: cs).reverse with
    | nil => simp at hr
    | cons d ds =>
      have hd : (c :: cs).getLast? = some d := by
        rw [List.getLast?_eq_head?_reverse, hr]; rfl
      rw [dropWhile_of_head_false _ _ _ (hlast d hd), ← hr, List.reverse_reverse]

theorem parseDigits_toDigits (n : Nat) : parseDigits (Nat.toDigits 10 n) = some n := by
  obtain ⟨hne, hall, hval⟩ := toDigits_spec n
  have hall' : (Nat.toDigits 10 n).all Char.isDigit = true := by
    rw [List.all_eq_true]
    intro x hx
    exact (hall x hx).1
  unfold parseDigits
  rw [if_pos ⟨hne, hall'⟩, hval]

theorem parseSigned_of_digit (c : Char) (cs : List Char) (h1 : c ≠ '-') (h2 : c ≠ '+') :
    parseSigned (c :: cs) = (parseDigits (c :: cs)).map (fun n => (n : Int)) := by
  unfold parseSigned
  split
  · rename_i heq; simp only [List.cons.injEq] at heq; exact absurd heq.1 h1
  · rename_i heq; simp only [List.cons.injEq] at heq; exact absurd heq.1 h2
  · rfl

/-- Reading back the text written by `setNum`: a number that fits an `int` is
recovered by `toInt`. -/
theorem toInt_setNum (n : Int) (hlo : intMin ≤ n) (hhi : n ≤ intMax) :
    QString.toInt (QString.setNum n) = n := by
  cases n with
  | ofNat m =>
    obtain ⟨hne, hall, _⟩ := toDigits_spec m
    have hdata : (QString.setNum (Int.ofNat m)).data = Nat.toDigits 10 m := rfl
    have htrim := trim_no_space (Nat.toDigits 10 m) hne
      (fun c hc => (hall c (List.mem_of_mem_head? hc)).2.1)
      (fun c hc => (hall c (List.mem_of_mem_getLast? hc)).2.1)
    have hp := parseDigits_toDigits m
    have hs : parseSigned (Nat.toDigits 10 m) = some (Int.ofNat m) := by
      cases hd : Nat.toDigits 10 m with
      | nil => exact absurd hd hne
      | cons c cs =>
        have hc := hall c (hd ▸ List.mem_cons_self c cs)
        rw [parseSigned_of_digit c cs hc.2.2.1 hc.2.2.2, ← hd, hp]
        rfl
    unfold QString.toInt
    simp only [hdata, htrim, hs]
    rw [if_pos ⟨hlo, hhi⟩]
  | negSucc m =>
    obtain ⟨hne, hall, _⟩ := toDigits_spec (m + 1)
    have hdata : (QString.setNum (Int.negSucc m)).data = '-' :: Nat.toDigits 10 (m + 1) := rfl
    have htrim := trim_no_space ('-' :: Nat.toDigits 10 (m + 1)) (by simp)
      (fun c hc => by
        simp only [List.head?_cons, Option.some.injEq] at hc
        subst hc; decide)
      (fun c hc => by
        cases hd : Nat.toDigits 10 (m + 1) with
        | nil => exact absurd hd hne
        | cons x xs =>
          rw [hd, List.getLast?_cons_cons, ← hd] at hc
          exact (hall c (List.mem_of_mem_getLast? hc)).2.1)
    have hs : parseSigned ('-' :: Nat.toDigits 10 (m + 1)) = some (Int.negSucc m) := by
      show (parseDigits (Nat.toDigits 10 (m + 1))).map (fun n => -(n : Int)) = _
      rw [parseDigits_toDigits]
      rfl
    unfold QString.toInt
    simp only [hdata, htrim, hs]
    rw [if_pos ⟨hlo, hhi⟩]

/-- C1: for a validator with `bottom ≤ top` and any input, `fixup` leaves the
decimal rendering of an integer `n` with `bottom ≤ n ≤ top`, and when the
bounds are C++ `int`s that text reads back (`toInt`) as a number between
`bottom` and `top`; for the 128..16384 validator of the custom screenshot size
fields the result is always the rendering of a number between 128 and 16384. -/
theorem fixup_in_range :
    (∀ (v : MinMaxIntValidator) (input : String), v.bottom ≤ v.top →
      ∃ n : Int, v.fixup input = QString.setNum n ∧ v.bottom ≤ n ∧ n ≤ v.top) ∧
    (∀ (v : MinMaxIntValidator) (input : String), v.bottom ≤ v.top →
      intMin ≤ v.bottom → v.top ≤ intMax →
      v.bottom ≤ QString.toInt (v.fixup input) ∧ QString.toInt (v.fixup input) ≤ v.top) ∧
    (∀ input : String, ∃ n : Int,
      customScreenshotSizeValidator.fixup input = QString.setNum n ∧ 128 ≤ n ∧ n ≤ 16384 ∧
      QString.toInt (customScreenshotSizeValidator.fixup input) = n) := by
  refine ⟨fun v input h => ?_, fun v input h hlo hhi => ?_, fun input => ?_⟩
  · exact ⟨_, rfl, qBound_mem _ _ _ h⟩
  · have hb := qBound_mem v.bottom (QString.toInt input) v.top h
    have hr : QString.toInt (v.fixup input) = qBound v.bottom (QString.toInt input) v.top :=
      toInt_setNum _ (le_trans hlo hb.1) (le_trans hb.2 hhi)
    rw [hr]
    exact hb
  · have hb := qBound_mem 128 (QString.toInt input) 16384 (by decide)
    refine ⟨_, rfl, hb.1, hb.2, ?_⟩
    exact toInt_setNum _ (le_trans (by decide) hb.1) (le_trans hb.2 (by decide))

/-- C1 at concrete inputs: text that is not a number becomes `128`, a too
large number becomes `16384` and reads back as 16384, and a number in range
is kept. -/
theorem fixup_in_range_witness :
    (128 : Int) ≤ 16384 ∧ intMin ≤ 128 ∧ (16384 : Int) ≤ intMax ∧
    (∃ n : Int, (MinMaxIntValidator.mk 128 16384).fixup "99999" = QString.setNum n
      ∧ 128 ≤ n ∧ n ≤ 16384) ∧
    (128 ≤ QString.toInt ((MinMaxIntValidator.mk 128 16384).fixup "99999") ∧
      QString.toInt ((MinMaxIntValidator.mk 128 16384).fixup "99999") ≤ 16384) ∧
    customScreenshotSizeValidator.fixup "abc" = "128" ∧
    customScreenshotSizeValidator.fixup "99999" = "16384" ∧
    customScreenshotSizeValidator.fixup " 1024 " = "1024" :=
  ⟨by decide, by decide, by decide,
   fixup_in_range.1 ⟨128, 16384⟩ "99999" (by decide),
   fixup_in_range.2.1 ⟨128, 16384⟩ "99999" (by decide) (by decide) (by decide),
   by decide, by decide, by decide⟩

theorem string_append_left_cancel (g a b : String) (h : g ++ a = g ++ b) : a = b := by
  have h2 := congrArg String.data h
  simp only [String.data_append, List.append_cancel_left_eq] at h2
  exact String.ext h2

theorem QSettings.fullKey_inj (c : QSettings) (a b : String)
    (h : c.fullKey a = c.fullKey b) : a = b := by
  unfold QSettings.fullKey at h
  generalize c.groups = gs at h
  induction gs generalizing a b with
  | nil => exact h
  | cons g gs ih =>
    simp only [List.foldl_cons] at h
    have h3 := ih _ _ h
    rw [String.append_assoc, String.append_assoc] at h3
    exact string_append_left_cancel _ _ _ (string_append_left_cancel _ _ _ h3)

theorem QSettings.fullKey_beginGroup (c : QSettings) (g k : String) :
    (c.beginGroup g).fullKey k = c.fullKey (g ++ "/" ++ k) := rfl

section writes
variable {β : Type} (val : β → QVariant)

theorem groups_foldl_setValue (L : List (String × β)) (c : QSettings) :
    (L.foldl (fun c p => c.setValue p.1 (val p.2)) c).groups = c.groups := by
  induction L generalizing c with
  | nil => rfl
  | cons q L ih => simp only [List.foldl_cons]; rw [ih]; rfl

theorem store_foldl_setValue_of_not_mem (L : List (String × β)) (c : QSettings) (k : String)
    (hk : ∀ p ∈ L, c.fullKey p.1 ≠ k) :
    (L.foldl (fun c p => c.setValue p.1 (val p.2)) c).store k = c.store k := by
  induction L generalizing c with
  | nil => rfl
  | cons q L ih =>
    simp only [List.foldl_cons]
    rw [ih]
    · have hq := hk q (List.mem_cons_self _ _)
      simp only [QSettings.setValue]
      rw [if_neg (fun h => hq h.symm)]
    · intro p hp
      exact hk p (List.mem_cons_of_mem _ hp)

theorem store_foldl_setValue_of_mem (L : List (String × β)) (c : QSettings)
    (hnd : (L.map Prod.fst).Nodup) (p : String × β) (hp : p ∈ L) :
    (L.foldl (fun c p => c.setValue p.1 (val p.2)) c).store (c.fullKey p.1)
      = some (val p.2) := by
  induction L generalizing c with
  | nil => cases hp
  | cons q L ih =>
    simp only [List.foldl_cons]
    simp only [List.map_cons, List.nodup_cons] at hnd
    rcases List.mem_cons.1 hp with rfl | hmem
    · rw [store_foldl_setValue_of_not_mem]
      · simp [QSettings.setValue]
      · intro r hr heq
        have : r.1 = p.1 := QSettings.fullKey_inj c _ _ heq
        exact hnd.1 (this ▸ List.mem_map_of_mem Prod.fst hr)
    · exact ih (c.setValue q.1 (val q.2)) hnd.2 hmem

end writes

theorem and_two_pow_ne_zero_ite (F a k : Nat) :
    (if (F &&& 2 ^ k != 0) = true then a ||| 2 ^ k else a) = a ||| (F &&& 2 ^ k) := by
  apply Nat.eq_of_testBit_eq
  intro i
  by_cases hk : F.testBit k
  · have h1 : F &&& 2 ^ k = 2 ^ k := by
      apply Nat.eq_of_testBit_eq
      intro j
      rw [Nat.testBit_and, Nat.testBit_two_pow]
      by_cases hj : k = j
      · subst hj; simp [hk]
      · simp [hj]
    have h2 : (F &&& 2 ^ k != 0) = true := by
      rw [h1]; simp
    rw [if_pos h2, h1]
  · have h1 : F &&& 2 ^ k = 0 := by
      apply Nat.eq_of_testBit_eq
      intro j
      rw [Nat.testBit_and, Nat.testBit_two_pow]
      by_cases hj : k = j
      · subst hj; simp [hk]
      · simp [hj]
    have h2 : ¬ (F &&& 2 ^ k != 0) = true := by
      rw [h1]; simp
    rw [if_neg h2, h1]; simp

section flagfold
variable {α : Type} (fl : α → Nat)

theorem foldl_or_eq (L : List α) (m : Nat) :
    L.foldl (fun m p => m ||| fl p) m = m ||| L.foldl (fun m p => m ||| fl p) 0 := by
  induction L generalizing m with
  | nil => simp
  | cons q L ih =>
    simp only [List.foldl_cons]
    rw [ih (m ||| fl q), ih (0 ||| fl q), Nat.zero_or, Nat.or_assoc]

theorem foldl_select_flags (F : Nat) (L : List α) (hbit : ∀ p ∈ L, ∃ k, fl p = 2 ^ k)
    (a : Nat) :
    L.foldl (fun acc p => if (F &&& fl p != 0) = true then acc ||| fl p else acc) a
      = a ||| (F &&& L.foldl (fun m p => m ||| fl p) 0) := by
  induction L generalizing a with
  | nil => simp
  | cons q L ih =>
    simp only [List.foldl_cons]
    obtain ⟨k, hk⟩ := hbit q (List.mem_cons_self _ _)
    rw [ih (fun p hp => hbit p (List.mem_cons_of_mem _ hp)), foldl_or_eq fl L (0 ||| fl q),
      Nat.zero_or, hk, and_two_pow_ne_zero_ite, Nat.and_or_distrib_left, Nat.or_assoc]

end flagfold

theorem setCustomSelectedInfoFields_eq :
    setCustomSelectedInfoFields
      = saveCustomSelectedInfoFields.map (fun p => ("custom_selected_info" ++ "/" ++ p.1, p.2)) := by
  decide

theorem saveCustomSelectedInfoFields_nodup :
    (saveCustomSelectedInfoFields.map Prod.fst).Nodup := by
  decide

theorem readCustom_writeCustom (e : StelObjectEnum) (hbit : ∀ f, ∃ k, e.flag f = 2 ^ k)
    (F : Nat) (conf : QSettings) :
    readCustomSelectedInfo e (writeCustomSelectedInfo e F conf) = F &&& configurableFields e := by
  unfold readCustomSelectedInfo configurableFields
  rw [setCustomSelectedInfoFields_eq, List.foldl_map]
  have hval : ∀ p ∈ saveCustomSelectedInfoFields,
      ((writeCustomSelectedInfo e F conf).value ("custom_selected_info" ++ "/" ++ p.1)
        (.bool false)).toBool = (F &&& e.flag p.2 != 0) := by
    intro p hp
    have hstore := store_foldl_setValue_of_mem (fun f => QVariant.bool (F &&& e.flag f != 0))
      saveCustomSelectedInfoFields (conf.beginGroup "custom_selected_info")
      saveCustomSelectedInfoFields_nodup p hp
    have hgroups := groups_foldl_setValue (fun f => QVariant.bool (F &&& e.flag f != 0))
      saveCustomSelectedInfoFields (conf.beginGroup "custom_selected_info")
    have hkey : (writeCustomSelectedInfo e F conf).fullKey ("custom_selected_info" ++ "/" ++ p.1)
        = (conf.beginGroup "custom_selected_info").fullKey p.1 := by
      simp only [writeCustomSelectedInfo, QSettings.fullKey, QSettings.endGroup, hgroups]
      rfl
    unfold QSettings.value
    rw [hkey]
    have hst : (writeCustomSelectedInfo e F conf).store
        = (saveCustomSelectedInfoFields.foldl
            (fun c p => c.setValue p.1 (QVariant.bool (F &&& e.flag p.2 != 0)))
            (conf.beginGroup "custom_selected_info")).store := rfl
    rw [hst, hstore]
    rfl
  rw [List.foldl_ext _ (fun acc p => if (F &&& e.flag p.2 != 0) = true then acc ||| e.flag p.2
    else acc) _ (fun a p hp => by simp only [hval p hp])]
  rw [foldl_select_flags (fun p : String × InfoStringGroupFlags => e.flag p.2) F _
    (fun p _ => hbit p.2)]
  simp [StelObjectEnum.None]

theorem infoTextFilters_updateSelectedInfoCheckBoxes (e : StelObjectEnum) (d : SelectedInfoTab) :
    (updateSelectedInfoCheckBoxes e d).infoTextFilters = d.infoTextFilters := by
  have hfold : ∀ (L : List (InfoCheckBox × InfoStringGroupFlags)) (F : Nat) (d : SelectedInfoTab),
      (L.foldl (fun d p => { d with checkBox := fun b =>
        if b = p.1 then F &&& e.flag p.2 != 0 else d.checkBox b }) d).infoTextFilters
        = d.infoTextFilters := by
    intro L F
    induction L with
    | nil => intro d; rfl
    | cons q L ih => intro d; simp only [List.foldl_cons]; rw [ih]
  unfold updateSelectedInfoCheckBoxes
  simp only
  split
  · simp only [saveCustomSelectedInfo]; rw [hfold]
  · rw [hfold]

/-- C2: when every field flag is a single bit, `saveCustomSelectedInfo` run
with GUI filter `F` followed by `setCustomSelectedInfo` installs `F` restricted
to the configurable fields, hence `F` itself when `F` holds only such fields;
and the keys read by the load are, field by field, the keys written by the
save inside the group `custom_selected_info`. The flags need not even be
pairwise distinct. -/
theorem saveCustom_setCustom_roundtrip (e : StelObjectEnum)
    (hbit : ∀ f, ∃ k, e.flag f = 2 ^ k) (d : SelectedInfoTab) :
    (setCustomSelectedInfo e (saveCustomSelectedInfo e d)).infoTextFilters
        = d.infoTextFilters &&& configurableFields e ∧
    (d.infoTextFilters &&& configurableFields e = d.infoTextFilters →
      (setCustomSelectedInfo e (saveCustomSelectedInfo e d)).infoTextFilters
        = d.infoTextFilters) ∧
    setCustomSelectedInfoFields
      = saveCustomSelectedInfoFields.map
          (fun p => ("custom_selected_info" ++ "/" ++ p.1, p.2)) := by
  have h : (setCustomSelectedInfo e (saveCustomSelectedInfo e d)).infoTextFilters
      = d.infoTextFilters &&& configurableFields e := by
    unfold setCustomSelectedInfo
    simp only [infoTextFilters_updateSelectedInfoCheckBoxes, saveCustomSelectedInfo]
    exact readCustom_writeCustom e hbit _ _
  exact ⟨h, fun hF => h.trans hF, setCustomSelectedInfoFields_eq⟩

/-- C2 at a concrete input: with field `i` valued `2 ^ i`, the filter made of
`Name`, `Magnitude` and `Size` comes back unchanged. -/
theorem saveCustom_setCustom_roundtrip_witness :
    (∀ f, ∃ k, sampleStelObjectEnum.flag f = 2 ^ k) ∧
    (4101 &&& configurableFields sampleStelObjectEnum = 4101) ∧
    (setCustomSelectedInfo sampleStelObjectEnum
      (saveCustomSelectedInfo sampleStelObjectEnum
        { sampleSelectedInfoTab with infoTextFilters := 4101 })).infoTextFilters = 4101 :=
  ⟨fun f => ⟨f.toCtorIdx, rfl⟩, by decide,
   (saveCustom_setCustom_roundtrip sampleStelObjectEnum (fun f => ⟨f.toCtorIdx, rfl⟩)
      { sampleSelectedInfoTab with infoTextFilters := 4101 }).2.1 (by decide)⟩

theorem groups_writeCustomSelectedInfo (e : StelObjectEnum) (F : Nat) (c : QSettings) :
    (writeCustomSelectedInfo e F c).groups = c.groups := by
  simp only [writeCustomSelectedInfo, QSettings.endGroup, groups_foldl_setValue]
  rfl

theorem value_writeCustomSelectedInfo_of_ne (e : StelObjectEnum) (F : Nat) (c : QSettings)
    (k : String) (dv : QVariant)
    (hk : ∀ p ∈ saveCustomSelectedInfoFields, "custom_selected_info" ++ "/" ++ p.1 ≠ k) :
    (writeCustomSelectedInfo e F c).value k dv = c.value k dv := by
  have hkey : (writeCustomSelectedInfo e F c).fullKey k = c.fullKey k := by
    simp only [QSettings.fullKey, groups_writeCustomSelectedInfo]
  have hst : (writeCustomSelectedInfo e F c).store
      = (saveCustomSelectedInfoFields.foldl
          (fun c p => c.setValue p.1 (QVariant.bool (F &&& e.flag p.2 != 0)))
          (c.beginGroup "custom_selected_info")).store := rfl
  unfold QSettings.value
  rw [hkey, hst,
    store_foldl_setValue_of_not_mem (fun f => QVariant.bool (F &&& e.flag f != 0))]
  · rfl
  · intro p hp heq
    rw [QSettings.fullKey_beginGroup] at heq
    exact hk p hp (QSettings.fullKey_inj c _ _ heq)

theorem foldl_setChecked_eq (e : StelObjectEnum) (F : Nat)
    (L : List (InfoCheckBox × InfoStringGroupFlags)) (d : SelectedInfoTab) :
    ∃ cb : InfoCheckBox → Bool, L.foldl (fun d p => { d with checkBox := fun b =>
        if b = p.1 then (F &&& e.flag p.2 != 0) else d.checkBox b }) d
      = { d with checkBox := cb } := by
  induction L generalizing d with
  | nil => exact ⟨d.checkBox, rfl⟩
  | cons q L ih =>
    simp only [List.foldl_cons]
    obtain ⟨cb, h⟩ := ih { d with checkBox := fun b =>
        if b = q.1 then (F &&& e.flag q.2 != 0) else d.checkBox b }
    exact ⟨cb, h⟩

theorem updateSelectedInfoCheckBoxes_eq (e : StelObjectEnum) (d : SelectedInfoTab) :
    ∃ cb, updateSelectedInfoCheckBoxes e d
      = { d with checkBox := cb,
                 conf := if d.flagImmediateSave then
                     writeCustomSelectedInfo e d.infoTextFilters d.conf
                   else d.conf } := by
  obtain ⟨cb, h⟩ := foldl_setChecked_eq e d.infoTextFilters updateSelectedInfoCheckBoxesFields d
  refine ⟨cb, ?_⟩
  unfold updateSelectedInfoCheckBoxes
  simp only [h]
  cases hf : d.flagImmediateSave <;> simp [saveCustomSelectedInfo]

theorem customKeys_ne_mode :
    ∀ p ∈ saveCustomSelectedInfoFields,
      "custom_selected_info" ++ "/" ++ p.1 ≠ "gui/selected_object_info" := by
  decide

/-- With immediate saving on, from any state of the selected-info page: after
a click on the radio button "all", a click on the radio button "custom" and a
click on any check box, the custom radio button is checked and the settings
key `gui/selected_object_info` holds `all`. -/
theorem all_custom_toggle_keeps_all (e : StelObjectEnum) (d : SelectedInfoTab) (b : InfoCheckBox) :
    let s := selectedInfoRun e { d with flagImmediateSave := true }
      [.radioReleased .allSelectedInfoRadio, .radioReleased .customSelectedInfoRadio,
       .checkBoxClicked b]
    s.flagImmediateSave = true ∧ s.radio = some .customSelectedInfoRadio ∧
      s.conf.value "gui/selected_object_info" .invalid = .string "all" := by
  intro s
  obtain ⟨cb1, h1⟩ := updateSelectedInfoCheckBoxes_eq e
    { d with flagImmediateSave := true, radio := some .allSelectedInfoRadio,
             infoTextFilters := e.AllInfo,
             conf := immediateSave true d.conf "gui/selected_object_info" (.string "all") }
  have hs1 : selectedInfoStep e { d with flagImmediateSave := true }
      (.radioReleased .allSelectedInfoRadio) = _ := h1
  obtain ⟨cb2, h2⟩ := updateSelectedInfoCheckBoxes_eq e
    { selectedInfoStep e { d with flagImmediateSave := true }
        (.radioReleased .allSelectedInfoRadio) with
      radio := some .customSelectedInfoRadio,
      infoTextFilters := readCustomSelectedInfo e
        (selectedInfoStep e { d with flagImmediateSave := true }
          (.radioReleased .allSelectedInfoRadio)).conf }
  have hs2 : selectedInfoStep e (selectedInfoStep e { d with flagImmediateSave := true }
      (.radioReleased .allSelectedInfoRadio)) (.radioReleased .customSelectedInfoRadio) = _ := h2
  have hs : s = selectedInfoStep e (selectedInfoStep e (selectedInfoStep e
      { d with flagImmediateSave := true } (.radioReleased .allSelectedInfoRadio))
      (.radioReleased .customSelectedInfoRadio)) (.checkBoxClicked b) := rfl
  rw [hs, hs2, hs1]
  simp only [selectedInfoStep, setSelectedInfoFromCheckBoxes, saveCustomSelectedInfo,
    ne_eq, not_true_eq_false, if_false, if_true, immediateSave]
  refine ⟨trivial, trivial, ?_⟩
  rw [value_writeCustomSelectedInfo_of_ne _ _ _ _ _ customKeys_ne_mode,
    value_writeCustomSelectedInfo_of_ne _ _ _ _ _ customKeys_ne_mode,
    value_writeCustomSelectedInfo_of_ne _ _ _ _ _ customKeys_ne_mode]
  simp [QSettings.value, QSettings.setValue, QSettings.fullKey]


/-- C5 (the code at the failing input): immediate saving is on, the stored
mode is `all` and the stored custom selection is the name alone. A click on
the radio button "custom" and then on the check box of the catalogue numbers
leaves the custom radio button checked and the filter set from the check
boxes, but the settings key `gui/selected_object_info` still holds `all`:
neither `setCustomSelectedInfo` nor the check-box handler stored `custom`. The
same happens from any state after the clicks "all", "custom", check box. -/
theorem custom_mode_not_saved :
    ((selectedInfoRun sampleStelObjectEnum sampleSelectedInfoTab
        [.radioReleased .customSelectedInfoRadio,
         .checkBoxClicked .checkBoxCatalogNumbers]).flagImmediateSave = true ∧
      (selectedInfoRun sampleStelObjectEnum sampleSelectedInfoTab
        [.radioReleased .customSelectedInfoRadio,
         .checkBoxClicked .checkBoxCatalogNumbers]).radio = some .customSelectedInfoRadio ∧
      (selectedInfoRun sampleStelObjectEnum sampleSelectedInfoTab
        [.radioReleased .customSelectedInfoRadio,
         .checkBoxClicked .checkBoxCatalogNumbers]).infoTextFilters = 3 ∧
      (selectedInfoRun sampleStelObjectEnum sampleSelectedInfoTab
        [.radioReleased .customSelectedInfoRadio,
         .checkBoxClicked .checkBoxCatalogNumbers]).conf.value
          "gui/selected_object_info" .invalid = .string "all") ∧
    ∀ (e : StelObjectEnum) (d : SelectedInfoTab) (b : InfoCheckBox),
      (selectedInfoRun e { d with flagImmediateSave := true }
        [.radioReleased .allSelectedInfoRadio, .radioReleased .customSelectedInfoRadio,
         .checkBoxClicked b]).radio = some .customSelectedInfoRadio ∧
      (selectedInfoRun e { d with flagImmediateSave := true }
        [.radioReleased .allSelectedInfoRadio, .radioReleased .customSelectedInfoRadio,
         .checkBoxClicked b]).conf.value "gui/selected_object_info" .invalid
          = .string "all" :=
  ⟨by decide, fun e d b =>
    ⟨(all_custom_toggle_keeps_all e d b).2.1, (all_custom_toggle_keeps_all e d b).2.2⟩⟩

theorem writeLines_congr (env env2 : SaveEnv) (lines : List SetValueLine)
    (h : ∀ l ∈ lines, l.source.eval env2 = l.source.eval env) (conf : QSettings) :
    writeLines env2 lines conf = writeLines env lines conf := by
  unfold writeLines
  exact List.foldl_ext _ _ _ (fun c l hl => by rw [h l hl])

theorem eval_of_propMgr_agree (env : SaveEnv) (pm : String → QVariant) (l : SetValueLine)
    (hl : l ∈ saveAllSettingsLines)
    (h : ∀ r ∈ saveAllSettingsPropertyReads, pm r.1 = env.propMgr r.1) :
    l.source.eval { env with propMgr := pm } = l.source.eval env := by
  cases hs : l.source with
  | property name conv =>
    have hmem : (name, conv, l.key) ∈ saveAllSettingsPropertyReads := by
      unfold saveAllSettingsPropertyReads
      exact List.mem_filterMap.2 ⟨l, hl, by rw [hs]⟩
    simp only [SettingSource.eval]
    rw [h _ hmem]
  | getter expr => rfl
  | literal v => rfl

/-- The settings written by `saveAllSettings` depend on the property manager
only through the properties named in its `getStelPropertyValue` calls. -/
theorem saveAllSettings_propMgr_congr (env : SaveEnv) (pm : String → QVariant)
    (h : ∀ r ∈ saveAllSettingsPropertyReads, pm r.1 = env.propMgr r.1) (conf : QSettings) :
    saveAllSettings { env with propMgr := pm } conf = saveAllSettings env conf := by
  have hb : ∀ (lines : List SetValueLine), (∀ l ∈ lines, l ∈ saveAllSettingsLines) →
      ∀ c, writeLines { env with propMgr := pm } lines c = writeLines env lines c :=
    fun lines hsub c =>
      writeLines_congr env _ lines (fun l hl => eval_of_propMgr_agree env pm l (hsub l hl) h) c
  have h1 := hb saveAllSettingsLinesView (fun l hl => by
    simp only [saveAllSettingsLines, List.mem_append]; tauto)
  have h2 := hb saveAllSettingsLinesDsoTypeFilters (fun l hl => by
    simp only [saveAllSettingsLines, List.mem_append]; tauto)
  have h3 := hb saveAllSettingsLinesLandscape (fun l hl => by
    simp only [saveAllSettingsLines, List.mem_append]; tauto)
  have h4 := hb storeLanguageSettingsLines (fun l hl => by
    simp only [saveAllSettingsLines, List.mem_append]; tauto)
  have h5 := hb saveAllSettingsLinesToolbar (fun l hl => by
    simp only [saveAllSettingsLines, List.mem_append]; tauto)
  have h6 := hb saveAllSettingsLinesTools (fun l hl => by
    simp only [saveAllSettingsLines, List.mem_append]; tauto)
  have h7 := hb storeFontSettingsLines (fun l hl => by
    simp only [saveAllSettingsLines, List.mem_append]; tauto)
  have h8 := hb saveAllSettingsLinesScreenshot (fun l hl => by
    simp only [saveAllSettingsLines, List.mem_append]; tauto)
  have h9 := hb saveAllSettingsLinesWindow (fun l hl => by
    simp only [saveAllSettingsLines, List.mem_append]; tauto)
  simp only [saveAllSettings, storeLanguageSettings, storeFontSettings, h1, h2, h3, h4, h5,
    h6, h7, h8, h9]

set_option maxRecDepth 1000000 in
theorem quadratureLineDisplayed_not_read :
    ∀ r ∈ saveAllSettingsPropertyReads, r.1 ≠ "GridLinesMgr.quadratureLineDisplayed" := by
  decide

set_option maxRecDepth 1000000 in
theorem gridLinesMgrBoolPropertiesNotSaved_eq :
    gridLinesMgrBoolPropertiesNotSaved = ["quadratureLineDisplayed"] := by
  decide

/-- C3 (the code at the failing input): of the boolean properties declared by
`GridLinesMgr`, `quadratureLineDisplayed` is the one that `saveAllSettings`
stores under no `viewing/` key; no line reads it, and the settings written are
the same whatever the value of that property. Every other boolean property has
its line. -/
theorem saveAllSettings_skips_quadratureLineDisplayed :
    gridLinesMgrBoolPropertiesNotSaved = ["quadratureLineDisplayed"] ∧
    (∀ r ∈ saveAllSettingsPropertyReads, r.1 ≠ "GridLinesMgr.quadratureLineDisplayed") ∧
    ∀ (env : SaveEnv) (conf : QSettings) (v : QVariant),
      saveAllSettings { env with propMgr := fun n =>
        if n = "GridLinesMgr.quadratureLineDisplayed" then v else env.propMgr n } conf
        = saveAllSettings env conf := by
  refine ⟨gridLinesMgrBoolPropertiesNotSaved_eq, quadratureLineDisplayed_not_read, ?_⟩
  intro env conf v
  apply saveAllSettings_propMgr_congr
  intro r hr
  rw [if_neg (quadratureLineDisplayed_not_read r hr)]

set_option maxRecDepth 1000000 in
theorem cardinal_compass_not_read :
    ∀ r ∈ saveAllSettingsPropertyReads,
      r.1 ≠ "StelGui.flagShowCardinalButton" ∧ r.1 ≠ "StelGui.flagShowCompassButton" := by
  decide

set_option maxRecDepth 1000000 in
theorem toolbarButtonPropertiesNotSaved_eq :
    toolbarButtonPropertiesNotSaved
      = ["StelGui.flagShowCardinalButton", "StelGui.flagShowCompassButton"] := by
  decide

/-- C6 (the code at the failing input): of the `StelGui.flagShow...` properties
that `createDialogContent` binds to a check box, `flagShowCardinalButton` and
`flagShowCompassButton` are stored by `saveAllSettings` under no `gui/` key; no
line reads them, and the settings written are the same whatever their values.
Every other bound `StelGui.flagShow...` property has its line. -/
theorem saveAllSettings_skips_cardinal_compass_buttons :
    toolbarButtonPropertiesNotSaved
      = ["StelGui.flagShowCardinalButton", "StelGui.flagShowCompassButton"] ∧
    (∀ r ∈ saveAllSettingsPropertyReads,
      r.1 ≠ "StelGui.flagShowCardinalButton" ∧ r.1 ≠ "StelGui.flagShowCompassButton") ∧
    ∀ (env : SaveEnv) (conf : QSettings) (v w : QVariant),
      saveAllSettings { env with propMgr := fun n =>
        if n = "StelGui.flagShowCardinalButton" then v
        else if n = "StelGui.flagShowCompassButton" then w else env.propMgr n } conf
        = saveAllSettings env conf := by
  refine ⟨toolbarButtonPropertiesNotSaved_eq, cardinal_compass_not_read, ?_⟩
  intro env conf v w
  apply saveAllSettings_propMgr_congr
  intro r hr
  rw [if_neg (cardinal_compass_not_read r hr).1, if_neg (cardinal_compass_not_read r hr).2]

theorem updateStarCatalogControlsText_retry (qt : QtConversions) (s : StarCatalogControls) :
    (updateStarCatalogControlsText qt s).downloadRetryButtonVisible
      = s.downloadRetryButtonVisible := by
  unfold updateStarCatalogControlsText
  split
  · split <;> rfl
  · simp only; split <;> rfl

theorem updateStarCatalogControlsText_label (qt : QtConversions) (s : StarCatalogControls)
    (id : String) :
    (updateStarCatalogControlsText qt s).downloadLabel ≠ fileIsCorruptedText id := by
  unfold updateStarCatalogControlsText fileIsCorruptedText
  split
  · split <;> simp
  · simp only; split <;> simp

theorem resetStarCatalogControls_retry (qt : QtConversions) (cfg : List StarCatalog)
    (s : StarCatalogControls) :
    (resetStarCatalogControls qt cfg s).downloadRetryButtonVisible = false := by
  unfold resetStarCatalogControls
  simp only
  split
  · rw [updateStarCatalogControlsText_retry]
  · split
    · simp only [updateStarCatalogControlsText_retry]
    · simp only [updateStarCatalogControlsText_retry]

theorem resetStarCatalogControls_label (qt : QtConversions) (cfg : List StarCatalog)
    (s : StarCatalogControls) (id : String) :
    (resetStarCatalogControls qt cfg s).downloadLabel ≠ fileIsCorruptedText id := by
  unfold resetStarCatalogControls
  simp only
  split
  · exact updateStarCatalogControlsText_label _ _ _
  · split
    · exact updateStarCatalogControlsText_label _ _ _
    · exact updateStarCatalogControlsText_label _ _ _

/-- C4 (the code at the failing input): when the reply has no error and no
redirection and `checkAndLoadCatalog` returns false, `downloadFinished` ends,
whatever the state and the catalog list, with the retry button hidden and with
a label that is not the "file is corrupted" text: the unconditional
`resetStarCatalogControls()` at the end overwrites both. -/
theorem downloadFinished_corrupted_resets_controls (qt : QtConversions) (qt6 : Bool)
    (s : StarCatalogControls) (catalogs : List StarCatalog) (id : String) :
    (downloadFinished qt qt6 ⟨false, none, false, catalogs⟩ s).downloadRetryButtonVisible
      = false ∧
    (downloadFinished qt qt6 ⟨false, none, false, catalogs⟩ s).downloadLabel
      ≠ fileIsCorruptedText id := by
  unfold downloadFinished
  simp only [Bool.false_eq_true, if_false, if_true]
  exact ⟨resetStarCatalogControls_retry _ _ _, resetStarCatalogControls_label _ _ _ _⟩

theorem addPluginItems_items (q_ : String → String) (cr : Int) (sel : String)
    (L : List PluginDescriptor) (w : QListWidget) (name : String) :
    (addPluginItems q_ cr sel L (w, name)).1
      = { w with items := w.items ++ L.map (fun d => ⟨q_ d.displayedName, d.id⟩) } := by
  induction L generalizing w name with
  | nil => simp [addPluginItems]
  | cons d L ih =>
    simp only [addPluginItems]
    rw [ih]
    simp

theorem addPluginItems_name (q_ : String → String) (cr : Int) (sel : String) (hcr : cr > 0)
    (L : List PluginDescriptor) (w : QListWidget) (name : String) :
    (∃ d ∈ L, d.id = sel ∧ (addPluginItems q_ cr sel L (w, name)).2 = q_ d.displayedName) ∨
    ((∀ d ∈ L, d.id ≠ sel) ∧ (addPluginItems q_ cr sel L (w, name)).2 = name) := by
  induction L generalizing w name with
  | nil => right; simp [addPluginItems]
  | cons d L ih =>
    simp only [addPluginItems]
    rcases ih { w with items := w.items ++ [⟨q_ d.displayedName, d.id⟩] }
      (if cr > 0 ∧ d.id = sel then q_ d.displayedName else name) with ⟨d', hd', hid, hn⟩ | ⟨hall, hn⟩
    · exact Or.inl ⟨d', List.mem_cons_of_mem _ hd', hid, hn⟩
    · by_cases hd : d.id = sel
      · left
        refine ⟨d, List.mem_cons_self _ _, hd, ?_⟩
        rw [hn, if_pos ⟨hcr, hd⟩]
      · right
        refine ⟨?_, ?_⟩
        · intro x hx
          rcases List.mem_cons.1 hx with rfl | hx
          · exact hd
          · exact hall x hx
        · rw [hn, if_neg (fun h => hd h.2)]

theorem firstRowWithText_spec (t : String) (items : List QListWidgetItem)
    (h : ∃ x ∈ items, x.text = t) :
    ∃ r x, firstRowWithText t items = some r ∧ items[r]? = some x ∧ x.text = t := by
  induction items with
  | nil => obtain ⟨x, hx, _⟩ := h; cases hx
  | cons it rest ih =>
    by_cases hit : it.text = t
    · exact ⟨0, it, by simp [firstRowWithText, hit], by simp, hit⟩
    · obtain ⟨x, hx, hxt⟩ := h
      rcases List.mem_cons.1 hx with rfl | hx
      · exact absurd hxt hit
      · obtain ⟨r, y, hr, hy, hyt⟩ := ih ⟨x, hx, hxt⟩
        exact ⟨r + 1, y, by simp [firstRowWithText, hit, hr], by simpa using hy, hyt⟩

/-- C7, as amended: whatever the order in which `sortItems` leaves the items,
when the row selected before the call is greater than 0, the plug-in selected
before (by its id) is still in the plug-in list, its translated displayed name
is not empty, and no plug-in with another id has the same translated displayed
name, the item selected after `populatePluginsList` carries the same plug-in
id. -/
theorem populatePluginsList_restores_selection (q_ : String → String)
    (sort : List QListWidgetItem → List QListWidgetItem)
    (pluginsList : List PluginDescriptor) (plugins : QListWidget) (item : QListWidgetItem)
    (hsort : ∀ l, (sort l).Perm l)
    (hrow : plugins.currentRow > 0)
    (hitem : plugins.currentItem = some item)
    (hmem : ∃ d ∈ pluginsList, d.id = item.data)
    (hname : ∀ d ∈ pluginsList, d.id = item.data → q_ d.displayedName ≠ "")
    (huniq : ∀ d ∈ pluginsList, ∀ d' ∈ pluginsList, d.id = item.data →
      q_ d'.displayedName = q_ d.displayedName → d'.id = item.data) :
    ∃ item', (populatePluginsList q_ sort pluginsList plugins).currentItem = some item' ∧
      item'.data = item.data := by
  obtain ⟨d0, hd0, hid0⟩ := hmem
  have hname2 := addPluginItems_name q_ plugins.currentRow item.data hrow pluginsList ⟨[], -1⟩ ""
  rcases hname2 with ⟨d, hd, hid, hn⟩ | ⟨hall, _⟩
  swap
  · exact absurd hid0 (hall d0 hd0)
  have hitems := addPluginItems_items q_ plugins.currentRow item.data pluginsList ⟨[], -1⟩ ""
  -- every item of the sorted list comes from a descriptor
  have hfrom : ∀ x ∈ sort (pluginsList.map
      (fun d => (⟨q_ d.displayedName, d.id⟩ : QListWidgetItem))),
      x.text = q_ d.displayedName → x.data = item.data := by
    intro x hx hxt
    rw [(hsort _).mem_iff] at hx
    obtain ⟨d', hd', rfl⟩ := List.mem_map.1 hx
    exact huniq d hd d' hd' hid hxt
  have hex : ∃ x ∈ sort (pluginsList.map
      (fun d => (⟨q_ d.displayedName, d.id⟩ : QListWidgetItem))),
      x.text = q_ d.displayedName :=
    ⟨⟨q_ d.displayedName, d.id⟩, (hsort _).mem_iff.2 (List.mem_map.2 ⟨d, hd, rfl⟩), rfl⟩
  have hne : q_ d.displayedName ≠ "" := hname d hd hid
  unfold populatePluginsList
  simp only [hrow, if_true, hitem, hitems, hn, QListWidget.sortItems, List.nil_append]
  rw [if_pos (by simpa using hne)]
  obtain ⟨r, x, hr, hx, hxt⟩ := firstRowWithText_spec _ _ hex
  rw [hr]
  refine ⟨x, ?_, hfrom x (List.getElem?_mem hx) hxt⟩
  simp [QListWidget.currentItem, hx]

/-- C7 as stated fails at two inputs. First, row 1 holds the plug-in `b`, which
is still in the plug-in list, but another plug-in `c` has the same displayed
name and sorts before it: `findItems(name).at(0)` selects the item of `c`.
Second, row 0 holds the plug-in `a`, which is still in the list under a new
displayed name: the guard `currentRow>0` skips the lookup and row 0 of the
sorted list, the item of `b`, is selected. -/
theorem populatePluginsList_selection_not_restored :
    (samplePluginsWidget.currentItem = some ⟨"Beta", "b"⟩ ∧
      (∃ d ∈ samplePluginsSameName, d.id = "b") ∧
      (populatePluginsList id sortByCharCode samplePluginsSameName
        samplePluginsWidget).currentItem = some ⟨"Beta", "c"⟩) ∧
    (({ samplePluginsWidget with currentRow := 0 } : QListWidget).currentItem
        = some ⟨"Alpha", "a"⟩ ∧
      (∃ d ∈ samplePluginsRenamed, d.id = "a") ∧
      (populatePluginsList id sortByCharCode samplePluginsRenamed
        { samplePluginsWidget with currentRow := 0 }).currentItem = some ⟨"Beta", "b"⟩) := by
  decide

/-- C7 as amended, at a concrete input: the plug-in of row 1 is found again
after the first plug-in was renamed. -/
theorem populatePluginsList_restores_selection_witness :
    ∃ item', (populatePluginsList id sortByCharCode samplePluginsRenamed
        samplePluginsWidget).currentItem = some item' ∧ item'.data = "b" :=
  populatePluginsList_restores_selection id sortByCharCode samplePluginsRenamed
    samplePluginsWidget ⟨"Beta", "b"⟩ (fun l => List.perm_insertionSort _ l)
    (by decide) (by decide) (by decide) (by decide) (by decide)

theorem findDataFrom_spec (v : QVariant) (items : List (String × QVariant)) (i : Nat)
    (h : findDataFrom v items = some i) : ∃ it, items[i]? = some it ∧ it.2 = v := by
  induction items generalizing i with
  | nil => simp [findDataFrom] at h
  | cons it rest ih =>
    by_cases hit : it.2 = v
    · simp only [findDataFrom, hit, if_true, Option.some.injEq] at h
      subst h
      exact ⟨it, by simp, hit⟩
    · simp only [findDataFrom, hit, if_false, Option.map_eq_some'] at h
      obtain ⟨j, hj, rfl⟩ := h
      obtain ⟨x, hx, hxv⟩ := ih j hj
      exact ⟨x, by simpa using hx, hxv⟩

theorem findDataFrom_of_mem (v : QVariant) (items : List (String × QVariant))
    (h : v ∈ items.map Prod.snd) : ∃ i, findDataFrom v items = some i := by
  induction items with
  | nil => simp at h
  | cons it rest ih =>
    by_cases hit : it.2 = v
    · exact ⟨0, by simp [findDataFrom, hit]⟩
    · have : v ∈ rest.map Prod.snd := by
        simp only [List.map_cons, List.mem_cons] at h
        rcases h with h | h
        · exact absurd h.symm hit
        · exact h
      obtain ⟨i, hi⟩ := ih this
      exact ⟨i + 1, by simp [findDataFrom, hit, hi]⟩

theorem findDataFrom_of_not_mem (v : QVariant) (items : List (String × QVariant))
    (h : v ∉ items.map Prod.snd) : findDataFrom v items = none := by
  cases hf : findDataFrom v items with
  | none => rfl
  | some i =>
    obtain ⟨it, hit, hv⟩ := findDataFrom_spec v items i hf
    exact absurd (List.mem_map.2 ⟨it, List.getElem?_mem hit, hv⟩) h

/-- A combo box that was cleared, filled with `items` and given the index
`findData(selected)`: its current index, and the user data at that index. -/
theorem restored_current (items : List (String × QVariant)) (selected : QVariant) :
    (selected ∈ items.map Prod.snd ∧
      0 ≤ ((⟨items, -1⟩ : QComboBox).setCurrentIndex
        ((⟨items, -1⟩ : QComboBox).findData selected)).currentIndex ∧
      ((⟨items, -1⟩ : QComboBox).setCurrentIndex
        ((⟨items, -1⟩ : QComboBox).findData selected)).currentIndex
          = (⟨items, -1⟩ : QComboBox).findData selected ∧
      ((⟨items, -1⟩ : QComboBox).setCurrentIndex
        ((⟨items, -1⟩ : QComboBox).findData selected)).itemData
          ((⟨items, -1⟩ : QComboBox).setCurrentIndex
            ((⟨items, -1⟩ : QComboBox).findData selected)).currentIndex = selected) ∨
    (selected ∉ items.map Prod.snd ∧
      (⟨items, -1⟩ : QComboBox).findData selected = -1 ∧
      ((⟨items, -1⟩ : QComboBox).setCurrentIndex
        ((⟨items, -1⟩ : QComboBox).findData selected)).currentIndex = -1) := by
  by_cases hmem : selected ∈ items.map Prod.snd
  · left
    obtain ⟨i, hi⟩ := findDataFrom_of_mem selected items hmem
    obtain ⟨it, hit, hv⟩ := findDataFrom_spec selected items i hi
    have hlt : i < items.length := (List.getElem?_eq_some.1 hit).1
    have hidx : ((⟨items, -1⟩ : QComboBox).setCurrentIndex
        ((⟨items, -1⟩ : QComboBox).findData selected)).currentIndex = (i : Int) := by
      simp [QComboBox.setCurrentIndex, QComboBox.findData, hi, hlt]
    refine ⟨hmem, ?_, ?_, ?_⟩
    · rw [hidx]; exact Int.ofNat_nonneg i
    · rw [hidx]; simp [QComboBox.findData, hi]
    · rw [hidx]
      simp [QComboBox.itemData, QComboBox.setCurrentIndex, hit, hv]
  · right
    have hn := findDataFrom_of_not_mem selected items hmem
    refine ⟨hmem, ?_, ?_⟩
    · simp [QComboBox.findData, hn]
    · simp [QComboBox.setCurrentIndex, QComboBox.findData, hn]

theorem restored_idem (items : List (String × QVariant)) (selected : QVariant)
    (hinv : QVariant.invalid ∉ items.map Prod.snd) :
    (⟨items, -1⟩ : QComboBox).setCurrentIndex ((⟨items, -1⟩ : QComboBox).findData
      (((⟨items, -1⟩ : QComboBox).setCurrentIndex
        ((⟨items, -1⟩ : QComboBox).findData selected)).itemData
          ((⟨items, -1⟩ : QComboBox).setCurrentIndex
            ((⟨items, -1⟩ : QComboBox).findData selected)).currentIndex))
      = (⟨items, -1⟩ : QComboBox).setCurrentIndex
          ((⟨items, -1⟩ : QComboBox).findData selected) := by
  rcases restored_current items selected with ⟨_, _, _, hdata⟩ | ⟨_, hfind, hcur⟩
  · rw [hdata]
  · rw [hcur, hfind]
    have h1 : ((⟨items, -1⟩ : QComboBox).setCurrentIndex (-1)).itemData (-1) = .invalid := by
      simp [QComboBox.itemData]
    rw [h1]
    have hn := findDataFrom_of_not_mem _ items hinv
    simp [QComboBox.findData, hn]

theorem foldl_addItem (L : List (String × QVariant)) (c : QComboBox) :
    L.foldl (fun c it => c.addItem it.1 it.2) c = { c with items := c.items ++ L } := by
  induction L generalizing c with
  | nil => simp
  | cons it L ih => simp only [List.foldl_cons]; rw [ih]; simp [QComboBox.addItem]

theorem populateDateFormatsList_eq (q_ : String → String) (c : QComboBox) :
    populateDateFormatsList q_ c
      = (⟨dateFormatsListItems q_, -1⟩ : QComboBox).setCurrentIndex
          ((⟨dateFormatsListItems q_, -1⟩ : QComboBox).findData
            (c.itemData c.currentIndex)) := by
  simp [populateDateFormatsList, foldl_addItem, QComboBox.clear]

theorem populateTimeFormatsList_eq (q_ : String → String) (c : QComboBox) :
    populateTimeFormatsList q_ c
      = (⟨timeFormatsListItems q_, -1⟩ : QComboBox).setCurrentIndex
          ((⟨timeFormatsListItems q_, -1⟩ : QComboBox).findData
            (c.itemData c.currentIndex)) := by
  simp [populateTimeFormatsList, foldl_addItem, QComboBox.clear]

theorem populateDeltaTAlgorithmsList_eq (q_ : String → String) (ndebug : Bool)
    (c : QComboBox) :
    populateDeltaTAlgorithmsList q_ ndebug c
      = (⟨deltaTAlgorithmsListItems q_ ndebug, -1⟩ : QComboBox).setCurrentIndex
          ((⟨deltaTAlgorithmsListItems q_ ndebug, -1⟩ : QComboBox).findData
            (c.itemData c.currentIndex)) := by
  simp [populateDeltaTAlgorithmsList, foldl_addItem, QComboBox.clear]

theorem dateFormatsListItems_no_invalid (q_ : String → String) :
    QVariant.invalid ∉ (dateFormatsListItems q_).map Prod.snd := by
  simp [dateFormatsListItems]

theorem timeFormatsListItems_no_invalid (q_ : String → String) :
    QVariant.invalid ∉ (timeFormatsListItems q_).map Prod.snd := by
  simp [timeFormatsListItems]

theorem deltaTAlgorithmsListItems_no_invalid (q_ : String → String) (ndebug : Bool) :
    QVariant.invalid ∉ (deltaTAlgorithmsListItems q_ ndebug).map Prod.snd := by
  cases ndebug <;> simp [deltaTAlgorithmsListItems]

/-- C8: each of `populateDateFormatsList`, `populateTimeFormatsList` and
`populateDeltaTAlgorithmsList` keeps the selection: when the current entry
before the call has the key `k` and `k` is the user data of one of the
entries that the function inserts, the current entry after the call has the
key `k`; and a second call changes neither the entries nor the current index. -/
theorem populate_lists_restore_selection (q_ : String → String) (ndebug : Bool) :
    (∀ (c : QComboBox) (k : String), c.itemData c.currentIndex = .string k →
      QVariant.string k ∈ (dateFormatsListItems q_).map Prod.snd →
      (populateDateFormatsList q_ c).itemData (populateDateFormatsList q_ c).currentIndex
        = .string k) ∧
    (∀ c : QComboBox,
      populateDateFormatsList q_ (populateDateFormatsList q_ c) = populateDateFormatsList q_ c) ∧
    (∀ (c : QComboBox) (k : String), c.itemData c.currentIndex = .string k →
      QVariant.string k ∈ (timeFormatsListItems q_).map Prod.snd →
      (populateTimeFormatsList q_ c).itemData (populateTimeFormatsList q_ c).currentIndex
        = .string k) ∧
    (∀ c : QComboBox,
      populateTimeFormatsList q_ (populateTimeFormatsList q_ c) = populateTimeFormatsList q_ c) ∧
    (∀ (c : QComboBox) (k : String), c.itemData c.currentIndex = .string k →
      QVariant.string k ∈ (deltaTAlgorithmsListItems q_ ndebug).map Prod.snd →
      (populateDeltaTAlgorithmsList q_ ndebug c).itemData
        (populateDeltaTAlgorithmsList q_ ndebug c).currentIndex = .string k) ∧
    (∀ c : QComboBox,
      populateDeltaTAlgorithmsList q_ ndebug (populateDeltaTAlgorithmsList q_ ndebug c)
        = populateDeltaTAlgorithmsList q_ ndebug c) := by
  have key : ∀ (items : List (String × QVariant)) (sel : QVariant), sel ∈ items.map Prod.snd →
      ((⟨items, -1⟩ : QComboBox).setCurrentIndex
        ((⟨items, -1⟩ : QComboBox).findData sel)).itemData
          ((⟨items, -1⟩ : QComboBox).setCurrentIndex
            ((⟨items, -1⟩ : QComboBox).findData sel)).currentIndex = sel := by
    intro items sel hmem
    rcases restored_current items sel with ⟨_, _, _, h⟩ | ⟨hn, _, _⟩
    · exact h
    · exact absurd hmem hn
  refine ⟨?_, ?_, ?_, ?_, ?_, ?_⟩
  · intro c k hk hmem
    rw [populateDateFormatsList_eq, hk]
    exact key _ _ hmem
  · intro c
    rw [populateDateFormatsList_eq q_ (populateDateFormatsList q_ c),
      populateDateFormatsList_eq q_ c]
    exact restored_idem _ _ (dateFormatsListItems_no_invalid q_)
  · intro c k hk hmem
    rw [populateTimeFormatsList_eq, hk]
    exact key _ _ hmem
  · intro c
    rw [populateTimeFormatsList_eq q_ (populateTimeFormatsList q_ c),
      populateTimeFormatsList_eq q_ c]
    exact restored_idem _ _ (timeFormatsListItems_no_invalid q_)
  · intro c k hk hmem
    rw [populateDeltaTAlgorithmsList_eq, hk]
    exact key _ _ hmem
  · intro c
    rw [populateDeltaTAlgorithmsList_eq q_ ndebug (populateDeltaTAlgorithmsList q_ ndebug c),
      populateDeltaTAlgorithmsList_eq q_ ndebug c]
    exact restored_idem _ _ (deltaTAlgorithmsListItems_no_invalid q_ ndebug)

/-- C8 at concrete inputs: a box whose current entry has the key `ddmmyyyy`,
`24h` or `Reijs` has that key current after the call. -/
theorem populate_lists_restore_selection_witness :
    (populateDateFormatsList id ⟨[("old", .string "ddmmyyyy")], 0⟩).itemData
      (populateDateFormatsList id ⟨[("old", .string "ddmmyyyy")], 0⟩).currentIndex
        = .string "ddmmyyyy" ∧
    (populateTimeFormatsList id ⟨[("old", .string "24h")], 0⟩).itemData
      (populateTimeFormatsList id ⟨[("old", .string "24h")], 0⟩).currentIndex
        = .string "24h" ∧
    (populateDeltaTAlgorithmsList id true ⟨[("old", .string "Reijs")], 0⟩).itemData
      (populateDeltaTAlgorithmsList id true ⟨[("old", .string "Reijs")], 0⟩).currentIndex
        = .string "Reijs" :=
  ⟨(populate_lists_restore_selection id true).1 ⟨[("old", .string "ddmmyyyy")], 0⟩ "ddmmyyyy"
      (by decide) (by decide),
   (populate_lists_restore_selection id true).2.2.1 ⟨[("old", .string "24h")], 0⟩ "24h"
      (by decide) (by decide),
   (populate_lists_restore_selection id true).2.2.2.2.1 ⟨[("old", .string "Reijs")], 0⟩ "Reijs"
      (by decide) (by decide)⟩

theorem findData_spec (c : QComboBox) (v : QVariant) :
    (v ∈ c.items.map Prod.snd ∧ 0 ≤ c.findData v ∧ c.findData v < c.items.length ∧
      c.itemData (c.findData v) = v) ∨
    (v ∉ c.items.map Prod.snd ∧ c.findData v = -1) := by
  by_cases hmem : v ∈ c.items.map Prod.snd
  · left
    obtain ⟨i, hi⟩ := findDataFrom_of_mem v c.items hmem
    obtain ⟨it, hit, hv⟩ := findDataFrom_spec v c.items i hi
    have hlt : i < c.items.length := (List.getElem?_eq_some.1 hit).1
    have hf : c.findData v = (i : Int) := by simp [QComboBox.findData, hi]
    refine ⟨hmem, ?_, ?_, ?_⟩
    · rw [hf]; exact Int.ofNat_nonneg i
    · rw [hf]; exact_mod_cast hlt
    · rw [hf]; simp [QComboBox.itemData, hit, hv]
  · right
    exact ⟨hmem, by simp [QComboBox.findData, findDataFrom_of_not_mem v c.items hmem]⟩

theorem startIndex_spec (c : QComboBox) (stored fallback : String)
    (hfb : QVariant.string fallback ∈ c.items.map Prod.snd) :
    0 ≤ startIndex c stored fallback ∧ startIndex c stored fallback < c.items.length ∧
    c.itemData (startIndex c stored fallback)
      = .string (if QVariant.string stored ∈ c.items.map Prod.snd then stored else fallback) ∧
    (c.setCurrentIndex (startIndex c stored fallback)).currentIndex
      = startIndex c stored fallback := by
  have hmain : 0 ≤ startIndex c stored fallback ∧
      startIndex c stored fallback < c.items.length ∧
      c.itemData (startIndex c stored fallback)
        = .string (if QVariant.string stored ∈ c.items.map Prod.snd then stored
            else fallback) := by
    unfold startIndex
    rcases findData_spec c (.string stored) with ⟨hm, h0, hlt, hd⟩ | ⟨hm, hneg⟩
    · have hne : c.findData (.string stored) ≠ -1 := by omega
      simp only [hne, if_false, hm, if_true]
      exact ⟨h0, hlt, hd⟩
    · simp only [hneg, if_true, hm, if_false]
      rcases findData_spec c (.string fallback) with ⟨_, h0, hlt, hd⟩ | ⟨hm2, _⟩
      · exact ⟨h0, hlt, hd⟩
      · exact absurd hfb hm2
  refine ⟨hmain.1, hmain.2.1, hmain.2.2, ?_⟩
  simp [QComboBox.setCurrentIndex, hmain.1, hmain.2.1]

theorem populateDateFormatsList_items (q_ : String → String) (c : QComboBox) :
    (populateDateFormatsList q_ c).items = dateFormatsListItems q_ := by
  rw [populateDateFormatsList_eq]; rfl

theorem populateTimeFormatsList_items (q_ : String → String) (c : QComboBox) :
    (populateTimeFormatsList q_ c).items = timeFormatsListItems q_ := by
  rw [populateTimeFormatsList_eq]; rfl

theorem populateDeltaTAlgorithmsList_items (q_ : String → String) (ndebug : Bool)
    (c : QComboBox) :
    (populateDeltaTAlgorithmsList q_ ndebug c).items = deltaTAlgorithmsListItems q_ ndebug := by
  rw [populateDeltaTAlgorithmsList_eq]; rfl

/-- C9: for every stored date format, time format and Delta-T algorithm key,
the index that `createDialogContent` hands to `setCurrentIndex` is the index of
an entry (at least 0 and less than the number of entries); the key of that
entry is the stored value when one of the inserted entries has it, and
otherwise `system_default` (date and time formats) or `EspenakMeeusModified`
(Delta-T); and it is the current index of the box afterwards. -/
theorem createDialogContent_start_index (q_ : String → String) (ndebug : Bool)
    (stored : String) (c : QComboBox) :
    (0 ≤ startIndex (populateDateFormatsList q_ c) stored "system_default" ∧
      startIndex (populateDateFormatsList q_ c) stored "system_default"
        < (dateFormatsListItems q_).length ∧
      (populateDateFormatsList q_ c).itemData
        (startIndex (populateDateFormatsList q_ c) stored "system_default")
        = .string (if QVariant.string stored ∈ (dateFormatsListItems q_).map Prod.snd
            then stored else "system_default") ∧
      (createDateFormatsComboBox q_ stored c).currentIndex
        = startIndex (populateDateFormatsList q_ c) stored "system_default") ∧
    (0 ≤ startIndex (populateTimeFormatsList q_ c) stored "system_default" ∧
      startIndex (populateTimeFormatsList q_ c) stored "system_default"
        < (timeFormatsListItems q_).length ∧
      (populateTimeFormatsList q_ c).itemData
        (startIndex (populateTimeFormatsList q_ c) stored "system_default")
        = .string (if QVariant.string stored ∈ (timeFormatsListItems q_).map Prod.snd
            then stored else "system_default") ∧
      (createTimeFormatsComboBox q_ stored c).currentIndex
        = startIndex (populateTimeFormatsList q_ c) stored "system_default") ∧
    (0 ≤ startIndex (populateDeltaTAlgorithmsList q_ ndebug c) stored "EspenakMeeusModified" ∧
      startIndex (populateDeltaTAlgorithmsList q_ ndebug c) stored "EspenakMeeusModified"
        < (deltaTAlgorithmsListItems q_ ndebug).length ∧
      (populateDeltaTAlgorithmsList q_ ndebug c).itemData
        (startIndex (populateDeltaTAlgorithmsList q_ ndebug c) stored "EspenakMeeusModified")
        = .string (if QVariant.string stored ∈ (deltaTAlgorithmsListItems q_ ndebug).map Prod.snd
            then stored else "EspenakMeeusModified") ∧
      (createDeltaTAlgorithmComboBox q_ ndebug stored c).currentIndex
        = startIndex (populateDeltaTAlgorithmsList q_ ndebug c) stored
            "EspenakMeeusModified") := by
  refine ⟨?_, ?_, ?_⟩
  · have h := startIndex_spec (populateDateFormatsList q_ c) stored "system_default"
      (by rw [populateDateFormatsList_items]; simp [dateFormatsListItems])
    rw [populateDateFormatsList_items] at h
    exact h
  · have h := startIndex_spec (populateTimeFormatsList q_ c) stored "system_default"
      (by rw [populateTimeFormatsList_items]; simp [timeFormatsListItems])
    rw [populateTimeFormatsList_items] at h
    exact h
  · have h := startIndex_spec (populateDeltaTAlgorithmsList q_ ndebug c) stored
      "EspenakMeeusModified"
      (by rw [populateDeltaTAlgorithmsList_items]; cases ndebug <;>
        simp [deltaTAlgorithmsListItems])
    rw [populateDeltaTAlgorithmsList_items] at h
    exact h

theorem selectScreenshotDir_edit (setDir : String → Option String)
    (s : ScreenshotDirControls) :
    (selectScreenshotDir setDir s).screenshotDirEdit = s.screenshotDirEdit := by
  unfold selectScreenshotDir
  simp only
  split <;> rfl

theorem right_one_eq_slash_iff (d : String) :
    QString.right d 1 = "/" ↔ ∃ init : List Char, d.data = init ++ ['/'] := by
  constructor
  · intro h
    have h2 : d.data.drop (d.data.length - 1) = ['/'] := congrArg String.data h
    refine ⟨d.data.take (d.data.length - 1), ?_⟩
    rw [← h2, List.take_append_drop]
  · rintro ⟨init, h⟩
    apply String.ext
    show d.data.drop (d.data.length - 1) = ['/']
    rw [h]
    simp

/-- C10: for a non-empty directory returned by the file dialog,
`browseForScreenshotDir` puts the directory itself into the field when it does
not end in a slash, and the directory without its last character when it
does; for an empty string the field and the screenshot directory stay as they
are. -/
theorem browseForScreenshotDir_removes_trailing_slash
    (setDir : String → Option String) (s : ScreenshotDirControls) :
    (∀ d : String, d ≠ "" →
      ((∀ init : List Char, d.data ≠ init ++ ['/']) →
        (browseForScreenshotDir setDir d s).screenshotDirEdit = d) ∧
      (∀ init : List Char, d.data = init ++ ['/'] →
        (browseForScreenshotDir setDir d s).screenshotDirEdit = ⟨init⟩)) ∧
    browseForScreenshotDir setDir "" s = s := by
  refine ⟨?_, rfl⟩
  intro d hd
  have hne : d.data ≠ [] := fun h => hd (String.ext h)
  constructor
  · intro hno
    have hr : ¬ QString.right d 1 = "/" := by
      rw [right_one_eq_slash_iff]
      rintro ⟨init, h⟩
      exact hno init h
    simp only [browseForScreenshotDir, hne, ne_eq, not_false_eq_true, if_true, hr, if_false,
      selectScreenshotDir_edit]
  · intro init hinit
    have hr : QString.right d 1 = "/" := (right_one_eq_slash_iff d).2 ⟨init, hinit⟩
    have hlen : d.data.length = init.length + 1 := by rw [hinit]; simp
    have hl : QString.left d ((d.data.length : Int) - 1) = ⟨init⟩ := by
      unfold QString.left
      rw [hlen]
      have h1 : ¬ (((init.length + 1 : Nat) : Int) - 1 < 0 ∨
          ((init.length + 1 : Nat) : Int) - 1 ≥ ((init.length + 1 : Nat) : Int)) := by omega
      rw [if_neg h1]
      have h2 : (((init.length + 1 : Nat) : Int) - 1).toNat = init.length := by omega
      rw [h2, hinit]
      simp
    simp only [browseForScreenshotDir, hne, ne_eq, not_false_eq_true, if_true, hr,
      selectScreenshotDir_edit, hl]

/-- C10 at concrete inputs: the trailing slash of `/home/user/shots/` is
removed, `/home/user/shots` is kept. -/
theorem browseForScreenshotDir_removes_trailing_slash_witness :
    "/home/user/shots/" ≠ "" ∧
    (browseForScreenshotDir some "/home/user/shots/" ⟨"old", "old"⟩).screenshotDirEdit
      = "/home/user/shots" ∧
    (browseForScreenshotDir some "/home/user/shots" ⟨"old", "old"⟩).screenshotDirEdit
      = "/home/user/shots" :=
  ⟨by decide,
   ((browseForScreenshotDir_removes_trailing_slash some ⟨"old", "old"⟩).1
      "/home/user/shots/" (by decide)).2 "/home/user/shots".data (by decide),
   ((browseForScreenshotDir_removes_trailing_slash some ⟨"old", "old"⟩).1
      "/home/user/shots" (by decide)).1 (fun init h => by
        have h2 := congrArg List.getLast? h
        simp at h2)⟩

theorem QSettings.fullKey_eq_append (c : QSettings) (k : String) :
    c.fullKey k = c.fullKey "" ++ k := by
  unfold QSettings.fullKey
  generalize c.groups = gs
  induction gs generalizing k with
  | nil => simp
  | cons g gs ih =>
    simp only [List.foldl_cons]
    rw [ih (g ++ "/" ++ k), ih (g ++ "/" ++ "")]
    simp [String.append_assoc]

theorem QSettings.fullKey_prefix_iff (c : QSettings) (p K : String) :
    (c.fullKey p).data.isPrefixOf K.data = true ↔ ∃ k, K = c.fullKey (p ++ k) := by
  rw [List.isPrefixOf_iff_prefix]
  constructor
  · rintro ⟨t, ht⟩
    refine ⟨String.mk t, ?_⟩
    rw [QSettings.fullKey_eq_append c (p ++ String.mk t), ← String.append_assoc,
      ← QSettings.fullKey_eq_append]
    exact String.ext (by simp [String.data_append, ht])
  · rintro ⟨k, rfl⟩
    rw [QSettings.fullKey_eq_append c (p ++ k), ← String.append_assoc,
      ← QSettings.fullKey_eq_append]
    exact ⟨k.data, by simp [String.data_append]⟩

theorem QSettings.value_setValue_self (c : QSettings) (key : String) (v d : QVariant) :
    (c.setValue key v).value key d = v := by
  have hg : (c.setValue key v).fullKey key = c.fullKey key := rfl
  rw [QSettings.value, hg, QSettings.setValue]
  simp

theorem QSettings.fullKey_ne_empty (c : QSettings) (k : String) (hk : k ≠ "") :
    c.fullKey k ≠ "" := by
  rw [QSettings.fullKey_eq_append]
  intro h
  have h2 : (c.fullKey "").data ++ k.data = [] := by
    simpa [String.data_append] using congrArg String.data h
  exact hk (String.ext (List.append_eq_nil.1 h2).2)

theorem QSettings.groups_remove (c : QSettings) (key : String) :
    (c.remove key).groups = c.groups := by
  unfold QSettings.remove
  simp only
  split <;> split <;> rfl

theorem setDefaultViewOptions_groups (conf : QSettings) :
    (setDefaultViewOptions true conf).groups = conf.groups := by
  simp only [setDefaultViewOptions, if_true, QSettings.endGroup, QSettings.groups_remove]
  rfl

theorem setDefaultViewOptions_store (conf : QSettings) (K : String) :
    (setDefaultViewOptions true conf).store K
      = if K = conf.fullKey "DialogPositions" ∨
          (conf.fullKey "DialogPositions/").data.isPrefixOf K.data then none
        else if K = conf.fullKey "main/restore_defaults" then some (.bool true)
        else conf.store K := by
  have hgroup : ((conf.setValue "main/restore_defaults" (.bool true)).beginGroup
      "DialogPositions").group = conf.fullKey "DialogPositions" := rfl
  have hne : conf.fullKey "DialogPositions" ≠ "" :=
    QSettings.fullKey_ne_empty conf _ (by decide)
  have hslash : conf.fullKey "DialogPositions" ++ "/" = conf.fullKey "DialogPositions/" := by
    rw [QSettings.fullKey_eq_append conf "DialogPositions",
      QSettings.fullKey_eq_append conf "DialogPositions/", String.append_assoc]
    rfl
  simp only [setDefaultViewOptions, if_true, QSettings.remove, hgroup, if_neg hne, hslash,
    QSettings.endGroup]
  rfl

theorem restore_defaults_not_in_DialogPositions (conf : QSettings) :
    ¬ (conf.fullKey "main/restore_defaults" = conf.fullKey "DialogPositions" ∨
      (conf.fullKey "DialogPositions/").data.isPrefixOf
        (conf.fullKey "main/restore_defaults").data = true) := by
  rintro (h | h)
  · exact absurd (QSettings.fullKey_inj _ _ _ h) (by decide)
  · rw [QSettings.fullKey_prefix_iff] at h
    obtain ⟨k, hk⟩ := h
    have h2 := congrArg String.data (QSettings.fullKey_inj _ _ _ hk)
    simp [String.data_append] at h2

theorem setDefaultViewOptions_restore_defaults (conf : QSettings) (d : QVariant) :
    (setDefaultViewOptions true conf).value "main/restore_defaults" d = .bool true := by
  have hg : (setDefaultViewOptions true conf).fullKey "main/restore_defaults"
      = conf.fullKey "main/restore_defaults" := by
    unfold QSettings.fullKey
    rw [setDefaultViewOptions_groups]
  rw [QSettings.value, hg, setDefaultViewOptions_store,
    if_neg (restore_defaults_not_in_DialogPositions conf), if_pos rfl]
  rfl

/-- C11, as amended: `setDefaultViewOptions` changes the settings only on
confirmation. When the user declines, the settings are the same as before.
When the user confirms, the open groups are as before, `main/restore_defaults`
holds true, the key `DialogPositions` and every key of the group
`DialogPositions` are stored no more, and every other key holds what it held
before. -/
theorem setDefaultViewOptions_settings (conf : QSettings) :
    setDefaultViewOptions false conf = conf ∧
    (setDefaultViewOptions true conf).groups = conf.groups ∧
    (∀ d, (setDefaultViewOptions true conf).value "main/restore_defaults" d = .bool true) ∧
    (setDefaultViewOptions true conf).store (conf.fullKey "DialogPositions") = none ∧
    (∀ k, (setDefaultViewOptions true conf).store (conf.fullKey ("DialogPositions/" ++ k))
        = none) ∧
    (∀ K, K ≠ conf.fullKey "main/restore_defaults" →
      K ≠ conf.fullKey "DialogPositions" →
      (∀ k, K ≠ conf.fullKey ("DialogPositions/" ++ k)) →
      (setDefaultViewOptions true conf).store K = conf.store K) := by
  refine ⟨rfl, setDefaultViewOptions_groups conf,
    setDefaultViewOptions_restore_defaults conf, ?_, ?_, ?_⟩
  · rw [setDefaultViewOptions_store, if_pos (Or.inl rfl)]
  · intro k
    rw [setDefaultViewOptions_store,
      if_pos (Or.inr ((QSettings.fullKey_prefix_iff _ _ _).2 ⟨k, rfl⟩))]
  · intro K h1 h2 h3
    rw [setDefaultViewOptions_store, if_neg, if_neg h1]
    rintro (hp | hp)
    · exact h2 hp
    · obtain ⟨k, hk⟩ := (QSettings.fullKey_prefix_iff _ _ _).1 hp
      exact h3 k hk

/-- C11 as stated fails for the key `DialogPositions` itself: it is not a key
of the group `DialogPositions` (its name does not start with
`DialogPositions/`) and it is not `main/restore_defaults`, it is stored before
a confirmed `setDefaultViewOptions`, and it is stored no more afterwards. -/
theorem setDefaultViewOptions_removes_group_key :
    "DialogPositions/".data.isPrefixOf "DialogPositions".data = false ∧
    "DialogPositions" ≠ "main/restore_defaults" ∧
    sampleSettingsGroupKey.store "DialogPositions" = some (.int 1) ∧
    (setDefaultViewOptions true sampleSettingsGroupKey).store "DialogPositions" = none := by
  decide

/-- C12: after `saveAllSettings`, whatever the settings and the environment
were, the key `main/restore_defaults` holds false; this is so as well when a
confirmed `setDefaultViewOptions`, after which the key holds true, came
before. -/
theorem saveAllSettings_clears_restore_defaults (env : SaveEnv) (conf : QSettings)
    (d : QVariant) :
    (saveAllSettings env conf).value "main/restore_defaults" d = .bool false ∧
    (setDefaultViewOptions true conf).value "main/restore_defaults" d = .bool true ∧
    (saveAllSettings env (setDefaultViewOptions true conf)).value "main/restore_defaults" d
      = .bool false := by
  have h : ∀ c : QSettings, (saveAllSettings env c).value "main/restore_defaults" d
      = .bool false := by
    intro c
    exact QSettings.value_setValue_self _ _ _ _
  exact ⟨h conf, setDefaultViewOptions_restore_defaults conf d, h _⟩

/-- C13: a `SkyLine` stores what its setters are given. For every line and
every value, `getColor` after `setColor c` returns `c`, `showsPartitions`
after `setPartitions b` returns `b`, `isLabeled` after `setLabeled b` returns
`b`, `getLineThickness` after `setLineThickness t` returns `t` and
`getPartThickness` after `setPartThickness t` returns `t`; and each of these
setters leaves what the other four getters return as it was. -/
theorem SkyLine.setters_store_values {float double : Type} (l : SkyLine float double)
    (c : Vec3f float) (b : Bool) (t : float) :
    ((l.setColor c).getColor = c ∧
      (l.setColor c).showsPartitions = l.showsPartitions ∧
      (l.setColor c).isLabeled = l.isLabeled ∧
      (l.setColor c).getLineThickness = l.getLineThickness ∧
      (l.setColor c).getPartThickness = l.getPartThickness) ∧
    ((l.setPartitions b).showsPartitions = b ∧
      (l.setPartitions b).getColor = l.getColor ∧
      (l.setPartitions b).isLabeled = l.isLabeled ∧
      (l.setPartitions b).getLineThickness = l.getLineThickness ∧
      (l.setPartitions b).getPartThickness = l.getPartThickness) ∧
    ((l.setLabeled b).isLabeled = b ∧
      (l.setLabeled b).getColor = l.getColor ∧
      (l.setLabeled b).showsPartitions = l.showsPartitions ∧
      (l.setLabeled b).getLineThickness = l.getLineThickness ∧
      (l.setLabeled b).getPartThickness = l.getPartThickness) ∧
    ((l.setLineThickness t).getLineThickness = t ∧
      (l.setLineThickness t).getColor = l.getColor ∧
      (l.setLineThickness t).showsPartitions = l.showsPartitions ∧
      (l.setLineThickness t).isLabeled = l.isLabeled ∧
      (l.setLineThickness t).getPartThickness = l.getPartThickness) ∧
    ((l.setPartThickness t).getPartThickness = t ∧
      (l.setPartThickness t).getColor = l.getColor ∧
      (l.setPartThickness t).showsPartitions = l.showsPartitions ∧
      (l.setPartThickness t).isLabeled = l.isLabeled ∧
      (l.setPartThickness t).getLineThickness = l.getLineThickness) :=
  ⟨⟨rfl, rfl, rfl, rfl, rfl⟩, ⟨rfl, rfl, rfl, rfl, rfl⟩, ⟨rfl, rfl, rfl, rfl, rfl⟩,
   ⟨rfl, rfl, rfl, rfl, rfl⟩, ⟨rfl, rfl, rfl, rfl, rfl⟩⟩

/-- C14: `GridLinesMgr::getModuleID` returns the string `GridLinesMgr`; the
function reads no member of the manager, so this is the value for every state
of the manager. Every property name that `saveAllSettings` looks up and that
starts with `GridLinesMgr.` is the module ID, a dot and the text after these 13
characters; there are 76 such lookups. -/
theorem getModuleID_prefix_of_saved_properties :
    GridLinesMgr.getModuleID = "GridLinesMgr" ∧
    (∀ r ∈ saveAllSettingsPropertyReads, "GridLinesMgr.".data.isPrefixOf r.1.data = true →
      r.1 = GridLinesMgr.getModuleID ++ "." ++ String.mk (r.1.data.drop 13)) ∧
    (saveAllSettingsPropertyReads.filter
      (fun r => "GridLinesMgr.".data.isPrefixOf r.1.data)).length = 76 := by
  refine ⟨rfl, ?_, ?_⟩
  · intro r _ h
    rw [List.isPrefixOf_iff_prefix] at h
    obtain ⟨t, ht⟩ := h
    apply String.ext
    rw [← ht]
    simp [GridLinesMgr.getModuleID, String.data_append]
  · decide

set_option maxRecDepth 1000000 in
theorem gridLinesMgr_reads_check :
    saveAllSettingsPropertyReads.all (fun r =>
      !("GridLinesMgr.".data.isPrefixOf r.1.data) ||
        gridLinesMgrProperties.any (fun p =>
          r.1 == "GridLinesMgr." ++ p.name && p.read != "" &&
            (p.type != "bool" || r.2.1 == Conversion.toBool))) = true := by
  decide

set_option maxRecDepth 1000000 in
set_option maxHeartbeats 4000000 in
theorem gridLinesMgrProperties_nodup : (gridLinesMgrProperties.map (·.name)).Nodup := by
  decide

/-- C16: every property name of the form `GridLinesMgr.<name>` that
`saveAllSettings` reads is the name of a `Q_PROPERTY` that `GridLinesMgr`
declares with a `READ` accessor, and when the declared type is `bool` the
value read is converted with `toBool`. No two of the declared properties have
the same name. -/
theorem saveAllSettings_reads_declared_properties :
    (∀ r ∈ saveAllSettingsPropertyReads, "GridLinesMgr.".data.isPrefixOf r.1.data = true →
      ∃ p ∈ gridLinesMgrProperties,
        r.1 = "GridLinesMgr." ++ p.name ∧ p.read ≠ "" ∧
        (p.type = "bool" → r.2.1 = Conversion.toBool)) ∧
    (gridLinesMgrProperties.map (·.name)).Nodup := by
  refine ⟨?_, gridLinesMgrProperties_nodup⟩
  intro r hr hp
  have h := List.all_eq_true.1 gridLinesMgr_reads_check r hr
  rw [hp] at h
  simp only [Bool.not_true, Bool.false_or, List.any_eq_true] at h
  obtain ⟨p, hpm, hc⟩ := h
  simp only [Bool.and_eq_true, Bool.or_eq_true, beq_iff_eq, bne_iff_ne, ne_eq] at hc
  refine ⟨p, hpm, hc.1.1, hc.1.2, ?_⟩
  intro hb
  rcases hc.2 with h1 | h1
  · exact absurd hb h1
  · exact h1

theorem updateStarCatalogControlsText_eq (qt : QtConversions) (s : StarCatalogControls) :
    ∃ t l, updateStarCatalogControlsText qt s
      = { s with getStarsButtonText := t, downloadLabel := l } := by
  unfold updateStarCatalogControlsText
  split
  · split <;> exact ⟨_, _, rfl⟩
  · simp only; split <;> exact ⟨_, _, rfl⟩

theorem resetStarCatalogControls_eq (qt : QtConversions) (cfg : List StarCatalog)
    (s : StarCatalogControls) :
    ∃ idx cnt t l e v, resetStarCatalogControls qt cfg s
      = { s with nextStarCatalogToDownload := (firstUncheckedCatalog cfg 0).2,
                 downloadCancelButtonVisible := false, downloadRetryButtonVisible := false,
                 nextStarCatalogToDownloadIndex := idx, starCatalogsCount := cnt,
                 getStarsButtonText := t, downloadLabel := l,
                 getStarsButtonEnabled := e, getStarsButtonVisible := v } ∧
      (v = true → (firstUncheckedCatalog cfg 0).2.isSome = true) := by
  unfold resetStarCatalogControls
  simp only
  split
  · obtain ⟨t, l, h⟩ := updateStarCatalogControlsText_eq qt
      { s with nextStarCatalogToDownload := (firstUncheckedCatalog cfg 0).2,
               downloadCancelButtonVisible := false, downloadRetryButtonVisible := false,
               getStarsButtonVisible := false }
    exact ⟨_, _, t, l, _, false, by rw [h], by simp⟩
  · split
    · rename_i hsome
      obtain ⟨t, l, h⟩ := updateStarCatalogControlsText_eq qt
        { s with nextStarCatalogToDownload := (firstUncheckedCatalog cfg 0).2,
                 downloadCancelButtonVisible := false, downloadRetryButtonVisible := false,
                 getStarsButtonEnabled := true,
                 nextStarCatalogToDownloadIndex := (firstUncheckedCatalog cfg 0).1,
                 starCatalogsCount := cfg.length }
      exact ⟨_, _, t, l, _, true, by rw [h], fun _ => hsome⟩
    · obtain ⟨t, l, h⟩ := updateStarCatalogControlsText_eq qt
        { s with nextStarCatalogToDownload := (firstUncheckedCatalog cfg 0).2,
                 downloadCancelButtonVisible := false, downloadRetryButtonVisible := false,
                 getStarsButtonEnabled := true }
      exact ⟨_, _, t, l, _, false, by rw [h], by simp⟩
theorem downloadStars_eq (qt : QtConversions) (qt6 : Bool) (userDir : String)
    (s : StarCatalogControls) :
    ∃ path url t l, downloadStars qt qt6 userDir true s
      = { s with currentDownloadFile := some path, isDownloadingStarCatalog := true,
                 getStarsButtonText := t, downloadLabel := l,
                 downloadCancelButtonVisible := true, downloadRetryButtonVisible := false,
                 getStarsButtonVisible := true, getStarsButtonEnabled := false,
                 starCatalogDownloadReply := some ⟨url, true⟩, progressBar := some 0 } := by
  obtain ⟨t, l, h⟩ := updateStarCatalogControlsText_eq qt
    { s with currentDownloadFile := some (userDir ++ "/stars/hip_gaia3/" ++
               (match s.nextStarCatalogToDownload with | some m => m.fileName | none => "")),
             isDownloadingStarCatalog := true }
  refine ⟨userDir ++ "/stars/hip_gaia3/" ++
      (match s.nextStarCatalogToDownload with | some m => m.fileName | none => ""),
    (match s.nextStarCatalogToDownload with | some m => m.url | none => ""), t, l, ?_⟩
  unfold downloadStars
  simp only [Bool.not_true, Bool.false_eq_true, if_false]
  rw [h]
  cases qt6 <;> rfl

theorem downloadFinished_eq (qt : QtConversions) (qt6 : Bool) (check : Bool)
    (cfg : List StarCatalog) (s : StarCatalogControls) :
    ∃ had idx cnt t l e v, downloadFinished qt qt6 ⟨false, none, check, cfg⟩ s
      = { s with isDownloadingStarCatalog := false, currentDownloadFile := none,
                 starCatalogDownloadReply := none, progressBar := none,
                 hasDownloadedStarCatalog := had,
                 nextStarCatalogToDownload := (firstUncheckedCatalog cfg 0).2,
                 downloadCancelButtonVisible := false, downloadRetryButtonVisible := false,
                 nextStarCatalogToDownloadIndex := idx, starCatalogsCount := cnt,
                 getStarsButtonText := t, downloadLabel := l,
                 getStarsButtonEnabled := e, getStarsButtonVisible := v } ∧
      (v = true → (firstUncheckedCatalog cfg 0).2.isSome = true) := by
  unfold downloadFinished
  simp only [Bool.false_eq_true, if_false]
  cases check
  · simp only [if_true]
    obtain ⟨idx, cnt, t, l, e, v, h, hv⟩ := resetStarCatalogControls_eq qt cfg
      { s with isDownloadingStarCatalog := false, currentDownloadFile := none,
               starCatalogDownloadReply := none, progressBar := none,
               getStarsButtonVisible := false,
               downloadLabel := fileIsCorruptedText s.nextId,
               downloadCancelButtonVisible := false, downloadRetryButtonVisible := true }
    exact ⟨_, idx, cnt, t, l, e, v, h, hv⟩
  · simp only [Bool.true_eq_false, if_false]
    obtain ⟨idx, cnt, t, l, e, v, h, hv⟩ := resetStarCatalogControls_eq qt cfg
      { s with isDownloadingStarCatalog := false, currentDownloadFile := none,
               starCatalogDownloadReply := none, progressBar := none,
               downloadLabel := ⟨"Verifying file integrity...", []⟩,
               hasDownloadedStarCatalog := true, getStarsButtonVisible := true,
               downloadCancelButtonVisible := false, downloadRetryButtonVisible := false }
    exact ⟨_, idx, cnt, t, l, e, v, h, hv⟩

theorem downloadInv_initial (qt : QtConversions) (catalogs : List StarCatalog)
    (ui : StarCatalogControls) :
    downloadIdle (initialStarCatalogControls qt catalogs ui) = true := by
  unfold initialStarCatalogControls
  obtain ⟨idx, cnt, t, l, e, v, h, hv⟩ := resetStarCatalogControls_eq qt catalogs
    { ui with isDownloadingStarCatalog := false, nextStarCatalogToDownloadIndex := 0,
              starCatalogsCount := 0, hasDownloadedStarCatalog := false,
              nextStarCatalogToDownload := none, starCatalogDownloadReply := none,
              currentDownloadFile := none, progressBar := none }
  rw [h]
  cases v
  · simp [downloadIdle]
  · simp [downloadIdle, hv rfl]

theorem downloadInv_step (qt : QtConversions) (qt6 manualRedirects : Bool)
    (hq : qt6 = false ∨ manualRedirects = false) (s : StarCatalogControls)
    (ev : DownloadEvent)
    (hinv : (downloadIdle s || downloadActive s) = true)
    (hen : ev.enabled manualRedirects s = true) :
    ∃ s', ev.handle qt qt6 s = .ok s' ∧ (downloadIdle s' || downloadActive s') = true := by
  obtain ⟨isD, idx, cnt, hasD, next, reply, file, pb, gv, ge, gt, cv, rv, lbl⟩ := s
  cases ev with
  | cancelClicked =>
    refine ⟨_, ?_, hinv⟩
    simp only [DownloadEvent.enabled] at hen
    subst hen
    cases reply <;> cases file <;>
      simp_all [downloadIdle, downloadActive, DownloadEvent.handle, DownloadEvent.handlers,
        runHandlers, DownloadHandler.asserts, cancelDownload]
  | readyRead redirected size =>
    simp only [DownloadEvent.enabled] at hen
    cases reply <;> cases file <;> cases pb <;> cases redirected <;>
      simp_all [downloadIdle, downloadActive, DownloadEvent.handle, DownloadEvent.handlers,
        runHandlers, DownloadHandler.asserts, newStarCatalogData]
  | error msg =>
    simp only [DownloadEvent.enabled] at hen
    cases reply <;> cases file <;> cases pb <;> cases next <;>
      simp_all [downloadIdle, downloadActive, DownloadEvent.handle, DownloadEvent.handlers,
        runHandlers, DownloadHandler.asserts, downloadError, downloadFinished]
  | getStarsClicked userDir fileOpens =>
    simp only [DownloadEvent.enabled, Bool.and_eq_true] at hen
    obtain ⟨h1, h2⟩ := hen
    subst h1 h2
    cases fileOpens
    · cases reply <;> cases file <;> cases pb <;> cases next <;> cases isD <;>
        simp_all [downloadIdle, downloadActive, DownloadEvent.handle, DownloadEvent.handlers,
          runHandlers, DownloadHandler.asserts, downloadStars]
    · obtain ⟨path, url, t, l, h⟩ := downloadStars_eq qt qt6 userDir
        ⟨isD, idx, cnt, hasD, next, reply, file, pb, true, true, gt, cv, rv, lbl⟩
      cases reply <;> cases file <;> cases pb <;> cases next <;> cases isD <;>
        simp_all [downloadIdle, downloadActive, DownloadEvent.handle, DownloadEvent.handlers,
          runHandlers, DownloadHandler.asserts]
  | retryClicked userDir fileOpens =>
    simp only [DownloadEvent.enabled] at hen
    subst hen
    cases fileOpens
    · cases reply <;> cases file <;> cases pb <;> cases next <;> cases isD <;>
        simp_all [downloadIdle, downloadActive, DownloadEvent.handle, DownloadEvent.handlers,
          runHandlers, DownloadHandler.asserts, downloadStars]
    · obtain ⟨path, url, t, l, h⟩ := downloadStars_eq qt qt6 userDir
        ⟨isD, idx, cnt, hasD, next, reply, file, pb, gv, ge, gt, cv, true, lbl⟩
      cases reply <;> cases file <;> cases pb <;> cases next <;> cases isD <;>
        simp_all [downloadIdle, downloadActive, DownloadEvent.handle, DownloadEvent.handlers,
          runHandlers, DownloadHandler.asserts]
  | finished redirect check catalogs =>
    simp only [DownloadEvent.enabled] at hen
    cases redirect with
    | some target =>
      have hm : manualRedirects = true := by
        cases manualRedirects
        · simp at hen
        · rfl
      have h6 : qt6 = false := by
        rcases hq with h | h
        · exact h
        · rw [hm] at h; cases h
      subst h6
      cases reply <;> cases file <;> cases pb <;> cases next <;>
        simp_all [downloadIdle, downloadActive, DownloadEvent.handle, DownloadEvent.handlers,
          runHandlers, DownloadHandler.asserts, downloadFinished, QNetworkReply.hasSignal]
    | none =>
      obtain ⟨had, idx2, cnt2, t, l, e, v, h, hv⟩ := downloadFinished_eq qt qt6 check catalogs
        ⟨isD, idx, cnt, hasD, next, reply, file, pb, gv, ge, gt, cv, rv, lbl⟩
      cases v <;> cases reply <;> cases file <;> cases pb <;> cases next <;>
        simp_all [downloadIdle, downloadActive, DownloadEvent.handle, DownloadEvent.handlers,
          runHandlers, DownloadHandler.asserts]

theorem downloadInv_reachable (qt : QtConversions) (qt6 manualRedirects : Bool)
    (hq : qt6 = false ∨ manualRedirects = false) (s : StarCatalogControls)
    (h : DownloadReachable qt qt6 manualRedirects s) :
    (downloadIdle s || downloadActive s) = true := by
  induction h with
  | init catalogs ui => rw [downloadInv_initial]; rfl
  | step s s' ev _ hen hs ih =>
    obtain ⟨s2, h2, hinv⟩ := downloadInv_step qt qt6 manualRedirects hq s ev ih hen
    rw [h2] at hs
    cases hs
    exact hinv

/-- C15: the assertions at the head of the download handlers never fail. From
the state after `createDialogContent`, by clicks on a button that is visible
(and, for the button that starts the download, enabled) and by signals of the
reply while there is one, every event that can happen in a reachable state runs
its handlers, `downloadError` and then `downloadFinished` for a reply that
fails, without a failing assertion. This holds for a build against Qt 5,
whether redirections are left to the dialog or not, and for a build against
Qt 6 in which the reply follows redirections itself, as Qt 6 does unless asked
otherwise. -/
theorem download_assertions (qt : QtConversions) :
    (∀ manualRedirects s, DownloadReachable qt false manualRedirects s →
      ∀ ev : DownloadEvent, ev.enabled manualRedirects s = true →
        ∃ s', ev.handle qt false s = .ok s') ∧
    (∀ s, DownloadReachable qt true false s →
      ∀ ev : DownloadEvent, ev.enabled false s = true →
        ∃ s', ev.handle qt true s = .ok s') := by
  constructor
  · intro m s hs ev hen
    obtain ⟨s', h, _⟩ := downloadInv_step qt false m (Or.inl rfl) s ev
      (downloadInv_reachable qt false m (Or.inl rfl) s hs) hen
    exact ⟨s', h⟩
  · intro s hs ev hen
    obtain ⟨s', h, _⟩ := downloadInv_step qt true false (Or.inr rfl) s ev
      (downloadInv_reachable qt true false (Or.inr rfl) s hs) hen
    exact ⟨s', h⟩

end Stellarium
